import Mathlib

/-!
# Navaro session manager: a shallow embedding of `src/frontend/src/services/auth.js`

The browser primitives the module relies on are modelled first (string
white space, `parseInt`, `Number.prototype.toString`, `JSON.parse`,
`JSON.stringify`), then `localStorage` restricted to the eight keys of
`AUTH_CONFIG`, then the operations of `authUtils`, the login operation of
`apiService` (src/frontend/src/services/api.js) and the two login pages
(src/frontend/legacy_login/login.js and src/frontend/login.js).

Conventions.
* `Date.now()` is an explicit argument `now : Nat` (milliseconds).
* A JavaScript number that results from `parseInt` is an `Option Int`:
  `none` is `NaN`. Arithmetic on it is exact integer arithmetic, which is what
  IEEE doubles give for magnitudes below `2 ^ 53`; time stamps (`Date.now()` is
  at most `8.64e15`), session lifetimes and attempt counts stay in that range.
* A value read from `localStorage` is an `Option String`: `none` is `null`.
* A property read from an object is an `Option`: `none` is `undefined`.
* An operation that writes to `localStorage` returns the store it leaves
  together with its result; an operation that can throw returns a `Completion`.
-/

namespace Navaro

/-! ## JavaScript primitives -/

/-- White space and line terminators of ECMAScript (`StrWhiteSpaceChar`), as
skipped by `parseInt` and removed by `String.prototype.trim`. -/
def isJsWhiteSpace (c : Char) : Bool :=
  let n := c.toNat
  n = 0x09 || n = 0x0A || n = 0x0B || n = 0x0C || n = 0x0D || n = 0x20 ||
  n = 0xA0 || n = 0x1680 || (0x2000 ≤ n && n ≤ 0x200A) || n = 0x2028 ||
  n = 0x2029 || n = 0x202F || n = 0x205F || n = 0x3000 || n = 0xFEFF

/-- Value of a character as a digit in the given radix (10 or 16), if it is one. -/
def digitValue (radix : Nat) (c : Char) : Option Nat :=
  let n := c.toNat
  if 48 ≤ n ∧ n ≤ 57 then some (n - 48)
  else if radix = 16 ∧ 97 ≤ n ∧ n ≤ 102 then some (n - 87)
  else if radix = 16 ∧ 65 ≤ n ∧ n ≤ 70 then some (n - 55)
  else none

/-- The ten decimal digit characters. -/
def decimalDigits : List Char := ['0', '1', '2', '3', '4', '5', '6', '7', '8', '9']

/-- The longest prefix of digits of a character list, read in the given radix:
`none` when the list does not start with a digit. The accumulator carries the
digits read so far. -/
def readDigits (radix : Nat) : Option Nat → List Char → Option Nat
  | acc, [] => acc
  | acc, c :: cs =>
    match digitValue radix c with
    | some d => readDigits radix (some (acc.getD 0 * radix + d)) cs
    | none => acc

/-- Removes a leading sign, telling whether it was a minus. -/
def stripSign : List Char → Bool × List Char
  | [] => (false, [])
  | c :: cs =>
    if c = '-' then (true, cs)
    else if c = '+' then (false, cs)
    else (false, c :: cs)

/-- Removes a leading `0x` or `0X`, giving the radix to read the rest in. -/
def stripRadixPrefix : List Char → Nat × List Char
  | c0 :: c1 :: cs =>
    if c0 = '0' ∧ (c1 = 'x' ∨ c1 = 'X') then (16, cs) else (10, c0 :: c1 :: cs)
  | cs => (10, cs)

/-- Model of `parseInt(string)` called without a radix: `none` is `NaN`. -/
def parseInt (s : String) : Option Int :=
  let trimmed := s.data.dropWhile isJsWhiteSpace
  let signed := stripSign trimmed
  let body := stripRadixPrefix signed.2
  match readDigits body.1 none body.2 with
  | none => none
  | some m => some (if signed.1 then - (m : Int) else (m : Int))

/-- Model of `Number.prototype.toString()` on an integer-valued number or `NaN`. -/
def numberToString : Option Int → String
  | none => "NaN"
  | some (Int.ofNat n) => Nat.repr n
  | some (Int.negSucc n) => "-" ++ Nat.repr (n + 1)

/-- Truthiness of a string-or-null value: `null`, `undefined` and the empty string are falsy. -/
def truthy : Option String → Bool
  | none => false
  | some s => s != ""

/-- Argument conversion of `localStorage.setItem(key, value)`: the value is
converted with `String(value)`, so `undefined` is stored as the text `undefined`. -/
def storedText : Option String → String
  | none => "undefined"
  | some s => s

/-- JavaScript `a || b` on string-or-undefined operands. -/
def jsOr (a b : Option String) : Option String :=
  if truthy a then a else b

/-- Model of `String.prototype.trim()`. -/
def jsTrim (s : String) : String :=
  String.mk ((s.data.dropWhile isJsWhiteSpace).reverse.dropWhile isJsWhiteSpace).reverse

/-- Model of the `length` of a string: the number of UTF-16 code units. -/
def jsLength (s : String) : Nat :=
  (s.data.map fun c => if c.toNat < 0x10000 then 1 else 2).sum

/-- Model of `String.prototype.toLowerCase()` for the comparison with the demo
user names: the ASCII letters are lower-cased. `toLowerCase` changes further
characters, but the only one it turns into an ASCII letter is the Kelvin sign
(into `k`), a letter no demo user name holds. -/
def asciiLower (s : String) : String :=
  String.mk (s.data.map Char.toLower)

/-! ## JSON text: `JSON.parse` succeeds or throws, `JSON.stringify` of a user object -/

/-- Enclosing container of the value being read. -/
inductive JFrame
  | arr
  | obj
  deriving DecidableEq, Repr

/-- Position of the JSON reader inside the grammar of ECMA-404. -/
inductive JMode
  | value
  | arrStart
  | objStart
  | key
  | colon
  | done
  | str (isKey : Bool)
  | esc (isKey : Bool)
  | hex (isKey : Bool) (left : Nat)
  | minus
  | zero
  | int
  | dot
  | frac
  | exp
  | expSign
  | expDigits
  | lit (rest : List Char)
  deriving DecidableEq, Repr

/-- JSON white space: tab, line feed, carriage return, space. -/
def isJsonSpace (c : Char) : Bool :=
  c = '\t' || c = '\n' || c = '\r' || c = ' '

/-- Reader step once a value is complete. -/
def jsonAfterValue (stack : List JFrame) (c : Char) : Option (JMode × List JFrame) :=
  if isJsonSpace c then some (JMode.done, stack)
  else match c, stack with
    | ',', JFrame.arr :: _ => some (JMode.value, stack)
    | ',', JFrame.obj :: _ => some (JMode.key, stack)
    | ']', JFrame.arr :: rest => some (JMode.done, rest)
    | '}', JFrame.obj :: rest => some (JMode.done, rest)
    | _, _ => none

/-- Reader step where a value has to start. -/
def jsonStartValue (stack : List JFrame) (c : Char) : Option (JMode × List JFrame) :=
  if c = '{' then some (JMode.objStart, JFrame.obj :: stack)
  else if c = '[' then some (JMode.arrStart, JFrame.arr :: stack)
  else if c = '"' then some (JMode.str false, stack)
  else if c = '-' then some (JMode.minus, stack)
  else if c = '0' then some (JMode.zero, stack)
  else if c.isDigit then some (JMode.int, stack)
  else if c = 't' then some (JMode.lit ['r', 'u', 'e'], stack)
  else if c = 'f' then some (JMode.lit ['a', 'l', 's', 'e'], stack)
  else if c = 'n' then some (JMode.lit ['u', 'l', 'l'], stack)
  else none

/-- One character of JSON text. -/
def jsonStep (st : JMode × List JFrame) (c : Char) : Option (JMode × List JFrame) :=
  let stack := st.2
  match st.1 with
  | JMode.value => if isJsonSpace c then some st else jsonStartValue stack c
  | JMode.arrStart =>
    if isJsonSpace c then some st
    else if c = ']' then some (JMode.done, stack.tail)
    else jsonStartValue stack c
  | JMode.objStart =>
    if isJsonSpace c then some st
    else if c = '}' then some (JMode.done, stack.tail)
    else if c = '"' then some (JMode.str true, stack)
    else none
  | JMode.key =>
    if isJsonSpace c then some st
    else if c = '"' then some (JMode.str true, stack)
    else none
  | JMode.colon =>
    if isJsonSpace c then some st
    else if c = ':' then some (JMode.value, stack)
    else none
  | JMode.done => jsonAfterValue stack c
  | JMode.str k =>
    if c = '"' then some (if k then JMode.colon else JMode.done, stack)
    else if c = '\\' then some (JMode.esc k, stack)
    else if c.toNat < 0x20 then none
    else some st
  | JMode.esc k =>
    if c = '"' || c = '\\' || c = '/' || c = 'b' || c = 'f' || c = 'n' || c = 'r' || c = 't'
    then some (JMode.str k, stack)
    else if c = 'u' then some (JMode.hex k 4, stack)
    else none
  | JMode.hex k left =>
    if (digitValue 16 c).isSome then
      some (if left ≤ 1 then JMode.str k else JMode.hex k (left - 1), stack)
    else none
  | JMode.minus =>
    if c = '0' then some (JMode.zero, stack)
    else if c.isDigit then some (JMode.int, stack)
    else none
  | JMode.zero =>
    if c = '.' then some (JMode.dot, stack)
    else if c = 'e' || c = 'E' then some (JMode.exp, stack)
    else jsonAfterValue stack c
  | JMode.int =>
    if c.isDigit then some st
    else if c = '.' then some (JMode.dot, stack)
    else if c = 'e' || c = 'E' then some (JMode.exp, stack)
    else jsonAfterValue stack c
  | JMode.dot => if c.isDigit then some (JMode.frac, stack) else none
  | JMode.frac =>
    if c.isDigit then some st
    else if c = 'e' || c = 'E' then some (JMode.exp, stack)
    else jsonAfterValue stack c
  | JMode.exp =>
    if c = '+' || c = '-' then some (JMode.expSign, stack)
    else if c.isDigit then some (JMode.expDigits, stack)
    else none
  | JMode.expSign => if c.isDigit then some (JMode.expDigits, stack) else none
  | JMode.expDigits => if c.isDigit then some st else jsonAfterValue stack c
  | JMode.lit [] => none
  | JMode.lit (r :: rest) =>
    if c = r then some (if rest.isEmpty then JMode.done else JMode.lit rest, stack) else none

/-- Runs the reader over a text. -/
def jsonRun : JMode × List JFrame → List Char → Option (JMode × List JFrame)
  | st, [] => some st
  | st, c :: cs =>
    match jsonStep st c with
    | some st1 => jsonRun st1 cs
    | none => none

/-- The reader stopped after exactly one complete value. -/
def jsonComplete : JMode × List JFrame → Bool
  | (JMode.done, []) => true
  | (JMode.zero, []) => true
  | (JMode.int, []) => true
  | (JMode.frac, []) => true
  | (JMode.expDigits, []) => true
  | _ => false

/-- Model of whether `JSON.parse(text)` returns (`true`) or throws a `SyntaxError` (`false`). -/
def jsonParses (text : String) : Bool :=
  match jsonRun (JMode.value, []) text.data with
  | some st => jsonComplete st
  | none => false

/-- Text `QuoteJSONString` emits for one character of a string. -/
def jsonEscape (c : Char) : List Char :=
  if c = '"' then ['\\', '"']
  else if c = '\\' then ['\\', '\\']
  else if c.toNat = 0x08 then ['\\', 'b']
  else if c.toNat = 0x0C then ['\\', 'f']
  else if c = '\n' then ['\\', 'n']
  else if c = '\r' then ['\\', 'r']
  else if c = '\t' then ['\\', 't']
  else if c.toNat < 0x20 then
    ['\\', 'u', '0', '0', Nat.digitChar (c.toNat / 16), Nat.digitChar (c.toNat % 16)]
  else [c]

/-- Model of `JSON.stringify` on a string. -/
def jsonQuote (s : String) : String :=
  String.mk ('"' :: s.data.foldr (fun c acc => jsonEscape c ++ acc) ['"'])

/-- The user object of an authentication response, with the string properties
the repository reads or writes (`id`, `username`, `role`, `lastLogin`, in the
order the login page builds them); `none` is a property that is `undefined`. -/
structure User where
  id : Option String
  username : Option String
  role : Option String
  lastLogin : Option String
  deriving DecidableEq, Repr

/-- Member `JSON.stringify` emits for one property: none when it is `undefined`. -/
def jsonMember (name : String) : Option String → List String
  | some v => [jsonQuote name ++ ":" ++ jsonQuote v]
  | none => []

/-- Members `JSON.stringify` emits for a user object. -/
def userMembers (u : User) : List String :=
  jsonMember "id" u.id ++ jsonMember "username" u.username ++
  jsonMember "role" u.role ++ jsonMember "lastLogin" u.lastLogin

/-- Model of `JSON.stringify(authData.user)`: `undefined` for `undefined`. -/
def jsonStringifyUser : Option User → Option String
  | none => none
  | some u => some ("\x7b" ++ ",".intercalate (userMembers u) ++ "\x7d")

/-- The object `saveSession` receives as `authData`. -/
structure AuthData where
  access_token : Option String
  token : Option String
  refresh_token : Option String
  user : Option User
  deriving DecidableEq, Repr

/-- Exception raised by reading a property of `undefined` (`TypeError`) or by
`JSON.parse` on a text that is not JSON (`SyntaxError`), or the error an
awaited call rejected with. -/
inductive JsError
  | typeError
  | syntaxError
  | rejection
  deriving DecidableEq, Repr

/-- How a call ends: it returns, or it throws. -/
inductive Completion
  | returned
  | threw (error : JsError)
  deriving DecidableEq, Repr

/-! ## `localStorage` and `AUTH_CONFIG` -/

/-- The storage keys of `AUTH_CONFIG`. -/
inductive Key
  | TOKEN_KEY
  | REFRESH_TOKEN_KEY
  | USER_DATA_KEY
  | EXPIRY_KEY
  | REMEMBER_ME_KEY
  | SAVED_USERNAME_KEY
  | LOGIN_ATTEMPTS_KEY
  | LAST_ATTEMPT_KEY
  deriving DecidableEq, Repr

/-- Contents of `localStorage` under the keys of `AUTH_CONFIG`; `none` is a key that is not set. -/
abbrev Store : Type := Key → Option String

/-- A `localStorage` holding none of the keys. -/
def emptyStore : Store := fun _ => none

/-- Model of `localStorage.getItem(key)`. -/
def getItem (s : Store) (k : Key) : Option String := s k

/-- Model of `localStorage.setItem(key, value)`. -/
def setItem (s : Store) (k : Key) (v : String) : Store :=
  fun k1 => if k1 = k then some v else s k1

/-- Model of `localStorage.removeItem(key)`. -/
def removeItem (s : Store) (k : Key) : Store :=
  fun k1 => if k1 = k then none else s k1

namespace AUTH_CONFIG

/-- Default session lifetime: 30 minutes. -/
def SESSION_TIMEOUT : Nat := 30 * 60 * 1000
/-- Session lifetime with remember-me: 30 days. -/
def REMEMBER_ME_TIME : Nat := 30 * 24 * 60 * 60 * 1000
/-- Failed logins before the lockout. -/
def MAX_LOGIN_ATTEMPTS : Nat := 3
/-- Length of the lockout: 5 minutes. -/
def LOCKOUT_TIME : Nat := 5 * 60 * 1000
/-- Lead time of the token refresh: 5 minutes. -/
def REFRESH_THRESHOLD : Nat := 5 * 60 * 1000

end AUTH_CONFIG

/-! ## Number comparisons and arithmetic with `NaN` -/

/-- JavaScript `a < b`: false when an operand is `NaN`. -/
def jsLt : Option Int → Option Int → Bool
  | some x, some y => decide (x < y)
  | _, _ => false

/-- JavaScript `a <= b`: false when an operand is `NaN`. -/
def jsLe : Option Int → Option Int → Bool
  | some x, some y => decide (x ≤ y)
  | _, _ => false

/-- JavaScript `a >= b`: false when an operand is `NaN`. -/
def jsGe (a b : Option Int) : Bool := jsLe b a

/-- JavaScript `a > b`: false when an operand is `NaN`. -/
def jsGt (a b : Option Int) : Bool := jsLt b a

/-- JavaScript `a + b` on numbers. -/
def jsAdd : Option Int → Option Int → Option Int
  | some x, some y => some (x + y)
  | _, _ => none

/-- JavaScript `a - b` on numbers. -/
def jsSub : Option Int → Option Int → Option Int
  | some x, some y => some (x - y)
  | _, _ => none

/-- Model of `Math.ceil(a / 60000)`. -/
def ceilMinutes : Option Int → Option Int
  | some x => some (- ((- x) / 60000))
  | none => none

/-! ## `authUtils` (src/frontend/src/services/auth.js) -/

namespace authUtils

open AUTH_CONFIG

/-- The object `getSession` returns; `user` is the stored text that `JSON.parse` accepted. -/
structure Session where
  token : String
  expiry : Option Int
  user : String
  isValid : Bool
  deriving DecidableEq, Repr

/-- The object `checkLockoutStatus` returns; the last two properties are
`none` when the object does not carry them. -/
structure LockoutInfo where
  isLocked : Bool
  attempts : Option Int
  remainingTime : Option (Option Int)
  remainingMinutes : Option (Option Int)
  deriving DecidableEq, Repr

/-- Model of `resetLoginAttempts()`. -/
def resetLoginAttempts (s : Store) : Store :=
  removeItem (removeItem s Key.LOGIN_ATTEMPTS_KEY) Key.LAST_ATTEMPT_KEY

/-- Model of `getLoginAttempts()`: `parseInt(localStorage.getItem(LOGIN_ATTEMPTS_KEY) || '0')`. -/
def getLoginAttempts (s : Store) : Option Int :=
  parseInt (storedText (jsOr (getItem s Key.LOGIN_ATTEMPTS_KEY) (some "0")))

/-- Model of `incrementLoginAttempts()`: the store afterwards and the returned count. -/
def incrementLoginAttempts (s : Store) (now : Nat) : Store × Option Int :=
  let attempts := jsAdd (getLoginAttempts s) (some 1)
  let s1 := setItem s Key.LOGIN_ATTEMPTS_KEY (numberToString attempts)
  let s2 := setItem s1 Key.LAST_ATTEMPT_KEY (numberToString (some (now : Int)))
  (s2, attempts)

/-- Model of `clearSession()`. -/
def clearSession (s : Store) : Store :=
  [Key.TOKEN_KEY, Key.REFRESH_TOKEN_KEY, Key.USER_DATA_KEY, Key.EXPIRY_KEY].foldl removeItem s

/-- Model of `saveSession(authData, rememberMe)` run at time `now`: the store it leaves
and whether it returned or threw. Reading `authData.user.username` throws a
`TypeError` when `authData.user` is `undefined`; the writes made before the
throw stay in the store. -/
def saveSession (s : Store) (now : Nat) (authData : AuthData) (rememberMe : Bool) :
    Store × Completion :=
  let sessionExpiry : Int := (now : Int) + SESSION_TIMEOUT
  let s1 := setItem s Key.TOKEN_KEY (storedText (jsOr authData.access_token authData.token))
  let s2 := setItem s1 Key.EXPIRY_KEY (numberToString (some sessionExpiry))
  let s3 := setItem s2 Key.USER_DATA_KEY (storedText (jsonStringifyUser authData.user))
  let s4 :=
    if truthy authData.refresh_token then
      setItem s3 Key.REFRESH_TOKEN_KEY (storedText authData.refresh_token)
    else s3
  if rememberMe then
    let extendedExpiry : Int := (now : Int) + REMEMBER_ME_TIME
    let s5 := setItem s4 Key.REMEMBER_ME_KEY "true"
    match authData.user with
    | none => (s5, Completion.threw JsError.typeError)
    | some user =>
      let s6 := setItem s5 Key.SAVED_USERNAME_KEY (storedText user.username)
      let s7 := setItem s6 Key.EXPIRY_KEY (numberToString (some extendedExpiry))
      (resetLoginAttempts s7, Completion.returned)
  else
    let s5 := removeItem s4 Key.REMEMBER_ME_KEY
    let s6 := removeItem s5 Key.SAVED_USERNAME_KEY
    let s7 := resetLoginAttempts s6
    match authData.user with
    | none => (s7, Completion.threw JsError.typeError)
    | some _ => (s7, Completion.returned)

/-- Model of `getSession()` run at time `now`: the store it leaves and the session or `null`. -/
def getSession (s : Store) (now : Nat) : Store × Option Session :=
  match getItem s Key.TOKEN_KEY, getItem s Key.EXPIRY_KEY, getItem s Key.USER_DATA_KEY with
  | some token, some expiryStr, some userDataStr =>
    if token = "" ∨ expiryStr = "" ∨ userDataStr = "" then (s, none)
    else
      let expiry := parseInt expiryStr
      if jsLe expiry (some (now : Int)) then (clearSession s, none)
      else if jsonParses userDataStr then
        (s, some { token := token, expiry := expiry, user := userDataStr, isValid := true })
      else (clearSession s, none)
  | _, _, _ => (s, none)

/-- Model of `isAuthenticated()` run at time `now`: the store it leaves and the answer. -/
def isAuthenticated (s : Store) (now : Nat) : Store × Bool :=
  let r := getSession s now
  (r.1, r.2.isSome)

/-- Model of `checkLockoutStatus()` run at time `now`: the store it leaves and the returned object. -/
def checkLockoutStatus (s : Store) (now : Nat) : Store × LockoutInfo :=
  let attempts := getLoginAttempts s
  let lastAttemptStr := getItem s Key.LAST_ATTEMPT_KEY
  if jsLt attempts (some (MAX_LOGIN_ATTEMPTS : Int)) || !truthy lastAttemptStr then
    (s, { isLocked := false, attempts := attempts, remainingTime := none,
          remainingMinutes := none })
  else
    let lastAttempt := parseInt (storedText lastAttemptStr)
    let timeSinceLastAttempt := jsSub (some (now : Int)) lastAttempt
    if jsGe timeSinceLastAttempt (some (LOCKOUT_TIME : Int)) then
      (resetLoginAttempts s, { isLocked := false, attempts := some 0, remainingTime := none,
                               remainingMinutes := none })
    else
      let remainingTime := jsSub (some (LOCKOUT_TIME : Int)) timeSinceLastAttempt
      (s, { isLocked := true, attempts := attempts, remainingTime := some remainingTime,
            remainingMinutes := some (ceilMinutes remainingTime) })

/-- The expiry of the stored session as `getSession` reads it: `none` when
no expiry is stored or the stored text is not a number. -/
def storedExpiry (s : Store) : Option Int :=
  (getItem s Key.EXPIRY_KEY).bind parseInt

/-- The time of the last failed attempt as `checkLockoutStatus` reads it:
`none` when none is stored or the stored text is not a number. -/
def storedLastAttempt (s : Store) : Option Int :=
  (getItem s Key.LAST_ATTEMPT_KEY).bind parseInt

/-- A session record is stored: session token, expiry and user data are all
present with a non-empty text, which is what `getSession` takes for a record. -/
def sessionRecordStored (s : Store) : Bool :=
  truthy (getItem s Key.TOKEN_KEY) && truthy (getItem s Key.EXPIRY_KEY) &&
    truthy (getItem s Key.USER_DATA_KEY)

/-- Three consecutive calls of `incrementLoginAttempts()`, at the times `t1`, `t2` and `t3`. -/
def threeFailedAttempts (s : Store) (t1 t2 t3 : Nat) : Store :=
  (incrementLoginAttempts (incrementLoginAttempts (incrementLoginAttempts s t1).1 t2).1 t3).1

/-- Model of `getRememberMeData()`: the flag and the saved user name. -/
def getRememberMeData (s : Store) : Bool × Option String :=
  (decide (getItem s Key.REMEMBER_ME_KEY = some "true"), getItem s Key.SAVED_USERNAME_KEY)

end authUtils

/-! ## The credential gateway as `apiService.auth` reaches it (src/frontend/src/services/api.js) -/

/-- Answer of the backend to a request: a response body, or a failure with the
HTTP status (`none`: no response at all) and the `message` of the error body. -/
inductive HttpReply
  | ok (data : AuthData)
  | failed (status : Option Nat) (message : Option String)
  deriving DecidableEq, Repr

/-- The object a login page handles as `authResult`, with every property the
pages and `saveSession` read from it; `none` is a property the object lacks. -/
structure LoginResult where
  success : Bool
  data : Option AuthData
  message : Option String
  access_token : Option String
  token : Option String
  refresh_token : Option String
  user : Option User
  deriving DecidableEq, Repr

/-- The properties `saveSession` reads when it is handed a login result. -/
def LoginResult.asAuthData (r : LoginResult) : AuthData :=
  { access_token := r.access_token, token := r.token, refresh_token := r.refresh_token,
    user := r.user }

namespace apiService

/-- The response interceptor of `apiClient` on a failed request: a 401 removes
the session token, expiry and user data. -/
def responseError (s : Store) (status : Option Nat) : Store :=
  if status = some 401 then
    removeItem (removeItem (removeItem s Key.TOKEN_KEY) Key.EXPIRY_KEY) Key.USER_DATA_KEY
  else s

/-- Model of `apiService.auth.login(username, password)` given the answer of the backend:
the store afterwards and the object returned. -/
def auth.login (s : Store) (reply : HttpReply) : Store × LoginResult :=
  match reply with
  | HttpReply.ok data =>
    (s, { success := true, data := some data, message := none, access_token := none,
          token := none, refresh_token := none, user := none })
  | HttpReply.failed status message =>
    let text :=
      if truthy message then storedText message
      else if status = some 401 then
        "Ungültige Anmeldedaten. Bitte überprüfen Sie Benutzername und Passwort."
      else if status = some 429 then "Zu viele Anmeldeversuche. Bitte warten Sie einen Moment."
      else "Verbindungsfehler. Bitte versuchen Sie es erneut."
    (responseError s status,
     { success := false, data := none, message := some text, access_token := none,
       token := none, refresh_token := none, user := none })

end apiService

/-! ## The login pages -/

/-- The fields of the login form when it is submitted. -/
structure LoginForm where
  username : String
  password : String
  rememberMe : Bool
  deriving DecidableEq, Repr

/-- What a login page shows at the end of `handleLogin`. -/
inductive LoginOutcome
  | lockedOut (remainingMinutes : Option (Option Int)) (remainingTime : Option (Option Int))
  | invalidInput
  | loggedIn
  | nowLocked (remainingMinutes : Option (Option Int)) (remainingTime : Option (Option Int))
  | retry (message : Option String) (remainingAttempts : Option Int)
  deriving DecidableEq, Repr

/-- Model of `validateInput(username, password)`, the same on both login pages. -/
def validateInput (username password : String) : Bool :=
  if username = "" then false
  else if jsLength username < 3 then false
  else if password = "" then false
  else if jsLength password < 4 then false
  else true

/-- A run of `handleLogin`: the store it leaves, the credentials it passed to
the authentication operation (in order), and what it shows. -/
structure LoginRun where
  store : Store
  gatewayCalls : List (String × String)
  outcome : LoginOutcome

/-! ### src/frontend/legacy_login/login.js: the page built on `authUtils` and `apiService` -/

namespace LegacyLogin

/-- Model of `checkLockoutStatus()` of the page: the store afterwards and the returned
flag with the object `authUtils` gave. -/
def checkLockoutStatus (s : Store) (now : Nat) : Store × Bool × authUtils.LockoutInfo :=
  let r := authUtils.checkLockoutStatus s now
  if r.2.isLocked then (r.1, true, r.2) else (r.1, false, r.2)

/-- Model of `authenticateUser(username, password)`: `apiService.auth.login` never
rejects, so the `catch` of the page is not reached. -/
def authenticateUser (s : Store) (backend : String → String → HttpReply)
    (username password : String) : Store × LoginResult :=
  apiService.auth.login s (backend (jsTrim username) password)

/-- Model of `handleSuccessfulLogin(authResult, rememberMe)` run at time `now`. The first
statement reads `authResult.user.username`. -/
def handleSuccessfulLogin (s : Store) (now : Nat) (authResult : LoginResult)
    (rememberMe : Bool) : Store × Completion :=
  match authResult.user with
  | none => (s, Completion.threw JsError.typeError)
  | some _ => authUtils.saveSession s now authResult.asAuthData rememberMe

/-- Model of `handleFailedLogin(message)` run at time `now`. -/
def handleFailedLogin (s : Store) (now : Nat) (message : Option String) :
    Store × LoginOutcome :=
  let r1 := authUtils.incrementLoginAttempts s now
  let attempts := r1.2
  let r2 := authUtils.checkLockoutStatus r1.1 now
  if r2.2.isLocked then
    (r2.1, LoginOutcome.nowLocked r2.2.remainingMinutes r2.2.remainingTime)
  else
    let remainingAttempts := jsSub (some (AUTH_CONFIG.MAX_LOGIN_ATTEMPTS : Int)) attempts
    (r2.1, LoginOutcome.retry message
      (if jsGt remainingAttempts (some 0) then remainingAttempts else some 0))

/-- Model of `handleLogin(event)`: the submit handler runs at time `now`, the answer of
the backend is handled at time `later`. -/
def handleLogin (s : Store) (now later : Nat) (form : LoginForm)
    (backend : String → String → HttpReply) : LoginRun :=
  let c := checkLockoutStatus s now
  if c.2.1 then
    { store := c.1, gatewayCalls := [],
      outcome := LoginOutcome.lockedOut c.2.2.remainingMinutes c.2.2.remainingTime }
  else
    let username := jsTrim form.username
    let password := form.password
    if !validateInput username password then
      { store := c.1, gatewayCalls := [], outcome := LoginOutcome.invalidInput }
    else
      let a := authenticateUser c.1 backend username password
      let calls := [(username, password)]
      if a.2.success then
        let ok := handleSuccessfulLogin a.1 later a.2 form.rememberMe
        match ok.2 with
        | Completion.returned => { store := ok.1, gatewayCalls := calls, outcome := LoginOutcome.loggedIn }
        | Completion.threw _ =>
          let f := handleFailedLogin ok.1 later
            (some "Ein unerwarteter Fehler ist aufgetreten. Bitte versuchen Sie es erneut.")
          { store := f.1, gatewayCalls := calls, outcome := f.2 }
      else
        let f := handleFailedLogin a.1 later a.2.message
        { store := f.1, gatewayCalls := calls, outcome := f.2 }

/-- A backend that accepts every credential and answers with a token, a
refresh token and the user `admin`. -/
def acceptingBackend : String → String → HttpReply :=
  fun _ _ => HttpReply.ok
    { access_token := some "tok", token := none, refresh_token := some "ref",
      user := some { id := some "1", username := some "admin", role := some "administrator",
                     lastLogin := none } }

end LegacyLogin

/-! ### src/frontend/login.js: the page with its own counters and a demo credential list -/

namespace LoginPage

/-- The page variables `loginAttempts` and `lastAttempt`. -/
structure Counters where
  loginAttempts : Option Int
  lastAttempt : Option Int
  deriving DecidableEq, Repr

/-- The `config` object of the page. -/
structure Config where
  maxAttempts : Nat
  lockoutTime : Nat
  sessionTimeout : Nat
  rememberMeTime : Nat

/-- The values the page gives `config`. -/
def config : Config :=
  { maxAttempts := 3, lockoutTime := 5 * 60 * 1000, sessionTimeout := 30 * 60 * 1000,
    rememberMeTime := 30 * 24 * 60 * 60 * 1000 }

/-- The counters as the page initialises them from `localStorage` when it loads. -/
def loadCounters (s : Store) : Counters :=
  { loginAttempts := parseInt (storedText (jsOr (getItem s Key.LOGIN_ATTEMPTS_KEY) (some "0"))),
    lastAttempt := parseInt (storedText (jsOr (getItem s Key.LAST_ATTEMPT_KEY) (some "0"))) }

/-- Result of `checkLockoutStatus()` of the page: counters and store afterwards,
the returned flag, and the remaining time it announced when locked. -/
structure LockoutCheck where
  counters : Counters
  store : Store
  locked : Bool
  timeRemaining : Option Int

/-- Model of `checkLockoutStatus()` run at time `now`. -/
def checkLockoutStatus (p : Counters) (s : Store) (now : Nat) : LockoutCheck :=
  if jsGe p.loginAttempts (some (config.maxAttempts : Int)) then
    let timeRemaining :=
      jsSub (jsAdd p.lastAttempt (some (config.lockoutTime : Int))) (some (now : Int))
    if jsGt timeRemaining (some 0) then
      { counters := p, store := s, locked := true, timeRemaining := timeRemaining }
    else
      { counters := { p with loginAttempts := some 0 },
        store := removeItem (removeItem s Key.LOGIN_ATTEMPTS_KEY) Key.LAST_ATTEMPT_KEY,
        locked := false, timeRemaining := none }
  else { counters := p, store := s, locked := false, timeRemaining := none }

/-- An entry of the demo credential list. -/
structure Credential where
  username : String
  password : String
  role : String

/-- The demo credential list of `authenticateUser`. -/
def validCredentials : List Credential :=
  [ { username := "admin", password := "navaro2025", role := "administrator" },
    { username := "operator", password := "rescue123", role := "operator" },
    { username := "mission", password := "control456", role := "mission_control" },
    { username := "demo", password := "demo", role := "demo_user" } ]

/-- The values `authenticateUser` draws from `Math.random` and the clock:
the session token, the user id and the `lastLogin` time stamp. -/
structure Drawn where
  token : String
  id : String
  lastLogin : String

/-- Model of `authenticateUser(username, password)`: the simulated authentication. -/
def authenticateUser (drawn : Drawn) (username password : String) : LoginResult :=
  match validCredentials.find?
      (fun u => decide (u.username = asciiLower username) && decide (u.password = password)) with
  | some user =>
    { success := true, data := none, message := none, access_token := none,
      token := some drawn.token, refresh_token := none,
      user := some { id := some drawn.id, username := some user.username,
                     role := some user.role, lastLogin := some drawn.lastLogin } }
  | none =>
    { success := false, data := none,
      message := some "Ungültige Anmeldedaten. Bitte überprüfen Sie Benutzername und Passwort.",
      access_token := none, token := none, refresh_token := none, user := none }

/-- Model of `handleSuccessfulLogin(authResult, rememberMe)` run at time `now`. -/
def handleSuccessfulLogin (p : Counters) (s : Store) (now : Nat) (authResult : LoginResult)
    (rememberMe : Bool) : Counters × Store × Completion :=
  match authResult.user with
  | none => (p, s, Completion.threw JsError.typeError)
  | some user =>
    let p1 := { p with loginAttempts := some 0 }
    let s1 := removeItem (removeItem s Key.LOGIN_ATTEMPTS_KEY) Key.LAST_ATTEMPT_KEY
    let sessionExpiry : Int := (now : Int) + config.sessionTimeout
    let s2 := setItem s1 Key.TOKEN_KEY (storedText authResult.token)
    let s3 := setItem s2 Key.EXPIRY_KEY (numberToString (some sessionExpiry))
    let s4 := setItem s3 Key.USER_DATA_KEY (storedText (jsonStringifyUser (some user)))
    if rememberMe then
      let s5 := setItem s4 Key.REMEMBER_ME_KEY "true"
      let s6 := setItem s5 Key.SAVED_USERNAME_KEY (storedText user.username)
      let extendedExpiry : Int := (now : Int) + config.rememberMeTime
      (p1, setItem s6 Key.EXPIRY_KEY (numberToString (some extendedExpiry)), Completion.returned)
    else
      (p1, removeItem (removeItem s4 Key.REMEMBER_ME_KEY) Key.SAVED_USERNAME_KEY, Completion.returned)

/-- Model of `handleFailedLogin(message)` run at time `now`. -/
def handleFailedLogin (p : Counters) (s : Store) (now : Nat) (message : Option String) :
    Counters × Store × LoginOutcome :=
  let p1 : Counters :=
    { loginAttempts := jsAdd p.loginAttempts (some 1), lastAttempt := some (now : Int) }
  let s1 := setItem s Key.LOGIN_ATTEMPTS_KEY (numberToString p1.loginAttempts)
  let s2 := setItem s1 Key.LAST_ATTEMPT_KEY (numberToString p1.lastAttempt)
  if jsGe p1.loginAttempts (some (config.maxAttempts : Int)) then
    (p1, s2, LoginOutcome.nowLocked (some (ceilMinutes (some (config.lockoutTime : Int))))
      (some (some (config.lockoutTime : Int))))
  else
    (p1, s2, LoginOutcome.retry message
      (jsSub (some (config.maxAttempts : Int)) p1.loginAttempts))

/-- Model of `handleLogin(event)`: the submit handler runs at time `now`, the result of
the authentication is handled at time `later`. -/
def handleLogin (p : Counters) (s : Store) (now later : Nat) (form : LoginForm)
    (drawn : Drawn) : Counters × LoginRun :=
  let c := checkLockoutStatus p s now
  if c.locked then
    (c.counters, { store := c.store, gatewayCalls := [],
                   outcome := LoginOutcome.lockedOut (some (ceilMinutes c.timeRemaining))
                     (some c.timeRemaining) })
  else
    let username := jsTrim form.username
    let password := form.password
    if !validateInput username password then
      (c.counters, { store := c.store, gatewayCalls := [], outcome := LoginOutcome.invalidInput })
    else
      let authResult := authenticateUser drawn username password
      let calls := [(username, password)]
      if authResult.success then
        let ok := handleSuccessfulLogin c.counters c.store later authResult form.rememberMe
        match ok.2.2 with
        | Completion.returned =>
          (ok.1, { store := ok.2.1, gatewayCalls := calls, outcome := LoginOutcome.loggedIn })
        | Completion.threw _ =>
          let f := handleFailedLogin ok.1 ok.2.1 later
            (some "Verbindungsfehler. Bitte versuchen Sie es erneut.")
          (f.1, { store := f.2.1, gatewayCalls := calls, outcome := f.2.2 })
      else
        let f := handleFailedLogin c.counters c.store later authResult.message
        (f.1, { store := f.2.1, gatewayCalls := calls, outcome := f.2.2 })

end LoginPage

/-! ## The operations of `authUtils` that call `apiService` -/

/-- How an awaited call of `apiService.auth` ends: the backend answers and
the service resolves, or the awaited promise rejects. The services of
src/frontend/src/services/api.js catch every error; the `catch` of the caller
covers a rejection all the same. -/
inductive Awaited
  | answered (reply : HttpReply)
  | rejected
  deriving DecidableEq, Repr

namespace apiService

/-- Model of `apiService.auth.refreshToken(refreshToken)` given the answer of
the backend: the store afterwards and the object returned. -/
def auth.refreshToken (s : Store) (reply : HttpReply) : Store × LoginResult :=
  match reply with
  | HttpReply.ok data =>
    (s, { success := true, data := some data, message := none, access_token := none,
          token := none, refresh_token := none, user := none })
  | HttpReply.failed status _ =>
    (responseError s status,
     { success := false, data := none, message := some "Token konnte nicht erneuert werden.",
       access_token := none, token := none, refresh_token := none, user := none })

/-- Model of `apiService.auth.logout()` given the answer of the backend: the
store afterwards and the object returned. -/
def auth.logout (s : Store) (reply : HttpReply) : Store × LoginResult :=
  match reply with
  | HttpReply.ok _ =>
    (s, { success := true, data := none, message := none, access_token := none,
          token := none, refresh_token := none, user := none })
  | HttpReply.failed status _ =>
    (responseError s status,
     { success := true, data := none, message := none, access_token := none,
       token := none, refresh_token := none, user := none })

end apiService

namespace authUtils

open AUTH_CONFIG

/-- A run of `refreshTokenIfNeeded()`: the store it leaves, the refresh tokens
it passed to `apiService.auth.refreshToken` (in order), and the value returned. -/
structure RefreshRun where
  store : Store
  gatewayCalls : List String
  result : Bool

/-- The statements of `refreshTokenIfNeeded()` after the awaited call has
resolved to `result`, run at time `later` on the store `s`; `calls` is the list
of calls made. A `TypeError` of `saveSession` lands in the `catch`. -/
def refreshCompletion (s : Store) (later : Nat) (calls : List String) (result : LoginResult) :
    RefreshRun :=
  if result.success then
    let rememberMe := decide (getItem s Key.REMEMBER_ME_KEY = some "true")
    match result.data with
    | none => { store := clearSession s, gatewayCalls := calls, result := false }
    | some data =>
      let saved := saveSession s later data rememberMe
      match saved.2 with
      | Completion.returned => { store := saved.1, gatewayCalls := calls, result := true }
      | Completion.threw _ =>
        { store := clearSession saved.1, gatewayCalls := calls, result := false }
  else { store := clearSession s, gatewayCalls := calls, result := false }

/-- Model of `refreshTokenIfNeeded()`: the session is read at time `now`, the
answer of the gateway is handled at time `later`; `gateway` tells how the call
made with a given refresh token ends. -/
def refreshTokenIfNeeded (s : Store) (now later : Nat) (gateway : String → Awaited) :
    RefreshRun :=
  let g := getSession s now
  match g.2 with
  | none => { store := g.1, gatewayCalls := [], result := false }
  | some session =>
    let timeUntilExpiry := jsSub session.expiry (some (now : Int))
    if jsGt timeUntilExpiry (some (REFRESH_THRESHOLD : Int)) then
      { store := g.1, gatewayCalls := [], result := true }
    else
      let refreshToken := getItem g.1 Key.REFRESH_TOKEN_KEY
      if !truthy refreshToken then { store := g.1, gatewayCalls := [], result := false }
      else
        match gateway (storedText refreshToken) with
        | Awaited.rejected =>
          { store := clearSession g.1, gatewayCalls := [storedText refreshToken],
            result := false }
        | Awaited.answered reply =>
          let r := apiService.auth.refreshToken g.1 reply
          refreshCompletion r.1 later [storedText refreshToken] r.2

/-- Model of `logout()`: the session and the login attempts are removed at
once; `reply` tells how the logout request, started first and left running,
ends afterwards. -/
def logout (s : Store) (reply : Awaited) : Store :=
  let s1 := clearSession s
  let s2 := resetLoginAttempts s1
  match reply with
  | Awaited.answered r => (apiService.auth.logout s2 r).1
  | Awaited.rejected => s2

end authUtils

/-! ## A refresh with other code running during its gateway call -/

namespace authUtils

open AUTH_CONFIG

/-- Model of a run of `refreshTokenIfNeeded()` during whose awaited gateway call
other code runs: `meanwhile` is what that code does to the store between the
start of the call and the statements after the `await`. The response
interceptor and the statements after the `await` see the store `meanwhile`
left; with the identity for `meanwhile` this is `refreshTokenIfNeeded`. -/
def refreshTokenIfNeededWhile (meanwhile : Store → Store) (s : Store) (now later : Nat)
    (gateway : String → Awaited) : RefreshRun :=
  let g := getSession s now
  match g.2 with
  | none => { store := g.1, gatewayCalls := [], result := false }
  | some session =>
    let timeUntilExpiry := jsSub session.expiry (some (now : Int))
    if jsGt timeUntilExpiry (some (REFRESH_THRESHOLD : Int)) then
      { store := g.1, gatewayCalls := [], result := true }
    else
      let refreshToken := getItem g.1 Key.REFRESH_TOKEN_KEY
      if !truthy refreshToken then { store := g.1, gatewayCalls := [], result := false }
      else
        match gateway (storedText refreshToken) with
        | Awaited.rejected =>
          { store := clearSession (meanwhile g.1), gatewayCalls := [storedText refreshToken],
            result := false }
        | Awaited.answered reply =>
          let r := apiService.auth.refreshToken (meanwhile g.1) reply
          refreshCompletion r.1 later [storedText refreshToken] r.2

/-! ### The session warning -/

/-- The page that runs the session monitor: `localStorage` and the property
`_warningShown` of `authUtils`, false while it is unset. -/
structure Monitor where
  store : Store
  warningShown : Bool

/-- Model of `saveSession` on the page: it writes `localStorage` and no
property of `authUtils`. -/
def Monitor.saveSession (m : Monitor) (now : Nat) (authData : AuthData) (rememberMe : Bool) :
    Monitor × Completion :=
  let saved := authUtils.saveSession m.store now authData rememberMe
  ({ m with store := saved.1 }, saved.2)

/-- What the user answers the `confirm` dialog of the warning and how the call
that follows ends: an extension with the times at which `refreshTokenIfNeeded()`
reads the session and handles the answer of the gateway, or a refusal with the
end of the logout request. -/
inductive WarningAnswer
  | extend (answeredAt settledAt : Nat) (gateway : String → Awaited)
  | decline (reply : Awaited)

/-- A run of `showSessionWarning` or of the warning ticker: the page
afterwards, the minutes of the dialog that was raised (`none`: no dialog),
and whether the page was sent to `login.html`. -/
structure WarningRun where
  monitor : Monitor
  raised : Option (Option Int)
  redirected : Bool

/-- Model of `showSessionWarning(minutes)`, taken to the point where the
promise of the extension has settled and its `then` callback has run. -/
def showSessionWarning (m : Monitor) (minutes : Option Int) (answer : WarningAnswer) :
    WarningRun :=
  if m.warningShown then { monitor := m, raised := none, redirected := false }
  else
    match answer with
    | WarningAnswer.extend answeredAt settledAt gateway =>
      let run := refreshTokenIfNeeded m.store answeredAt settledAt gateway
      { monitor := { store := run.store, warningShown := false }, raised := some minutes,
        redirected := !run.result }
    | WarningAnswer.decline reply =>
      { monitor := { store := logout m.store reply, warningShown := true },
        raised := some minutes, redirected := true }

/-- Model of the callback of the second interval of `startSessionMonitoring()`,
run at time `now`. -/
def sessionWarningTick (m : Monitor) (now : Nat) (answer : WarningAnswer) : WarningRun :=
  let g := getSession m.store now
  match g.2 with
  | none => { monitor := { m with store := g.1 }, raised := none, redirected := false }
  | some session =>
    let timeUntilExpiry := jsSub session.expiry (some (now : Int))
    let warningTime : Int := 5 * 60 * 1000
    if jsLe timeUntilExpiry (some warningTime) && jsGt timeUntilExpiry (some 0) then
      showSessionWarning { m with store := g.1 } (ceilMinutes timeUntilExpiry) answer
    else { monitor := { m with store := g.1 }, raised := none, redirected := false }

/-- The minutes of the warnings a sequence of ticks raises, in order; each tick
comes with its time and the answer the user gives if it raises the dialog. The
ticker ends when the page is sent to `login.html`. -/
def runWarningTicks (m : Monitor) : List (Nat × WarningAnswer) → List (Option Int)
  | [] => []
  | tick :: rest =>
    let r := sessionWarningTick m tick.1 tick.2
    let shown := match r.raised with
      | none => []
      | some minutes => [minutes]
    if r.redirected then shown else shown ++ runWarningTicks r.monitor rest

end authUtils

/-! ## `JoystickController` (src/frontend/src/services/joystick.js) -/

namespace JoystickController

/-- The values `x`, `y` and `speed` of a movement command. -/
structure Command where
  x : ℚ
  y : ℚ
  speed : ℚ
  deriving DecidableEq

/-- The state of the controller the commands depend on: `active`,
`lastCommand`, the arguments of the pending throttle timer (`none`: no timer is
pending), and the commands the backend has received, in order. -/
structure State where
  active : Bool
  lastCommand : Command
  commandThrottle : Option Command
  delivered : List Command
  deriving DecidableEq

/-- The state the constructor leaves. -/
def initial : State :=
  { active := false, lastCommand := { x := 0, y := 0, speed := 0 }, commandThrottle := none,
    delivered := [] }

/-- Model of `sendCommand(x, y, speed)`: the pending timer is cleared and a new
one is set. -/
def sendCommand (j : State) (x y speed : ℚ) : State :=
  { j with commandThrottle := some { x := x, y := y, speed := speed } }

/-- Model of the callback of the throttle timer, 50 ms after the last
`sendCommand`, taken to the point where the awaited call has resolved: the
command is posted when it differs from `lastCommand` by more than the threshold
in some value, and `lastCommand` is set after the call; `reached` tells whether
the request reached the backend (`apiService.movement.sendCommand` resolves in
either case). -/
def throttleFires (j : State) (reached : Bool) : State :=
  match j.commandThrottle with
  | none => j
  | some c =>
    let threshold : ℚ := 5 / 100
    if abs (c.x - j.lastCommand.x) > threshold ∨ abs (c.y - j.lastCommand.y) > threshold ∨
        abs (c.speed - j.lastCommand.speed) > threshold then
      { j with commandThrottle := none, lastCommand := c,
               delivered := if reached then j.delivered ++ [c] else j.delivered }
    else { j with commandThrottle := none }

/-- Model of `startDrag(event)`. -/
def startDrag (j : State) : State :=
  { j with active := true }

/-- Model of `drag(event)` for an event from which it computes the normalised
values `x`, `y` and the speed `speed`; the limits of the container are known
(`startDrag` has read them). -/
def drag (j : State) (x y speed : ℚ) : State :=
  if !j.active then j else sendCommand j x y speed

/-- Model of `endDrag()`. -/
def endDrag (j : State) : State :=
  if !j.active then j else sendCommand { j with active := false } 0 0 0

/-- What happens to the controller: a pointer event, or the throttle timer fires. -/
inductive Event
  | startDrag
  | drag (x y speed : ℚ)
  | endDrag
  | throttle (reached : Bool)

/-- One event handled by the controller. -/
def step (j : State) : Event → State
  | Event.startDrag => startDrag j
  | Event.drag x y speed => drag j x y speed
  | Event.endDrag => endDrag j
  | Event.throttle reached => throttleFires j reached

/-- A sequence of events handled in order. -/
def run (j : State) (events : List Event) : State :=
  events.foldl step j

/-- The stop command. -/
def stop : Command := { x := 0, y := 0, speed := 0 }

end JoystickController

/-! ## `AuthStore` (src/frontend/src/stores/auth/authStore.js) -/

namespace AuthStore

/-- The `localStorage` keys of the store: `auth_token`, `refresh_token`, `user_data`. -/
inductive StorageKey
  | auth_token
  | refresh_token
  | user_data
  deriving DecidableEq, Repr

/-- The part of `localStorage` the store reads and writes. -/
abbrev Storage : Type := StorageKey → Option String

/-- The fields of the store. The user is held as the JSON text of its value;
`none` is `null` (for `user` also `undefined`). -/
structure State where
  isAuthenticated : Bool
  user : Option String
  token : Option String
  refreshToken : Option String
  deriving DecidableEq, Repr

/-- Text `localStorage.setItem` stores for a string or `null`: `String(null)` is `null`. -/
def nullText : Option String → String
  | none => "null"
  | some t => t

/-- Whether the value `JSON.parse` returns for a text it accepts is `null`. -/
def jsonIsNull (text : String) : Bool :=
  text.data.filter (fun c => !isJsonSpace c) = ['n', 'u', 'l', 'l']

/-- Model of `isTokenValid(token)` at time `now`. `payloadExp` stands for the
decoding `JSON.parse(atob(token.split('.')[1])).exp`: the number it gives, or
`none` when a step throws or the value makes the comparison false. -/
def isTokenValid (payloadExp : String → Option Int) (now : Nat) (token : Option String) :
    Bool :=
  if !truthy token then false
  else
    match payloadExp (storedText token) with
    | some exp => decide (((now / 1000 : Nat) : Int) < exp)
    | none => false

/-- Model of `localStorage.getItem(key)` on the keys of the store. -/
def Storage.getItem (st : Storage) (k : StorageKey) : Option String := st k

/-- Model of `localStorage.setItem(key, value)` on the keys of the store. -/
def Storage.setItem (st : Storage) (k : StorageKey) (v : String) : Storage :=
  fun k1 => if k1 = k then some v else st k1

/-- Model of `localStorage.removeItem(key)` on the keys of the store. -/
def Storage.removeItem (st : Storage) (k : StorageKey) : Storage :=
  fun k1 => if k1 = k then none else st k1

/-- Model of `clearAuth()`: the storage and the fields afterwards. -/
def clearAuth (st : Storage) : Storage × State :=
  (Storage.removeItem (Storage.removeItem (Storage.removeItem st StorageKey.auth_token)
      StorageKey.refresh_token) StorageKey.user_data,
   { isAuthenticated := false, user := none, token := none, refreshToken := none })

/-- Model of `setAuth(token, refreshToken, user)`; `refreshToken` is a string or
`null`, `user` an object or `undefined`. -/
def setAuth (st : Storage) (token : String) (refreshToken : Option String)
    (user : Option User) : Storage × State :=
  (Storage.setItem (Storage.setItem (Storage.setItem st StorageKey.auth_token token)
      StorageKey.refresh_token (nullText refreshToken))
      StorageKey.user_data (storedText (jsonStringifyUser user)),
   { isAuthenticated := true, user := jsonStringifyUser user, token := some token,
     refreshToken := refreshToken })

/-- Model of `loadTokenFromStorage()` at time `now`, from the fields `cur`: the
storage and the fields afterwards, and whether it returned or `JSON.parse`
threw. -/
def loadTokenFromStorage (payloadExp : String → Option Int) (now : Nat) (st : Storage)
    (cur : State) : Storage × State × Completion :=
  let token := Storage.getItem st StorageKey.auth_token
  let refreshToken := Storage.getItem st StorageKey.refresh_token
  let user := Storage.getItem st StorageKey.user_data
  if truthy token && isTokenValid payloadExp now token then
    let s1 : State := { cur with token := token, refreshToken := refreshToken }
    if truthy user then
      if jsonParses (storedText user) then
        (st, { s1 with user := if jsonIsNull (storedText user) then none else user,
                       isAuthenticated := true }, Completion.returned)
      else (st, s1, Completion.threw JsError.syntaxError)
    else (st, { s1 with user := none, isAuthenticated := true }, Completion.returned)
  else
    let c := clearAuth st
    (c.1, c.2, Completion.returned)

/-- The fields the constructor sets before it loads from the storage. -/
def initial : State :=
  { isAuthenticated := false, user := none, token := none, refreshToken := none }

end AuthStore

/-! ## The operations of the session manager with their exceptions -/

/-- How a call ends: it returns a value, or it throws. -/
inductive Outcome (α : Type)
  | returned (value : α)
  | threw (error : JsError)

/-- Model of the statement `JSON.parse(text)`: it throws a `SyntaxError` on a
text that is not JSON. -/
def jsonParse (text : String) : Outcome Unit :=
  if jsonParses text then Outcome.returned () else Outcome.threw JsError.syntaxError

/-- Model of `try { body } catch (error) { handler }`: the handler runs on the
store the body left when the body threw. -/
def tryCatch {α : Type} (body : Store × Outcome α) (handler : Store → Store × Outcome α) :
    Store × Outcome α :=
  match body.2 with
  | Outcome.returned _ => body
  | Outcome.threw _ => handler body.1

namespace Calls

open AUTH_CONFIG authUtils

/-- Model of `saveSession(authData, rememberMe)` as a call: the store it leaves
and how it ends. -/
def saveSession (s : Store) (now : Nat) (authData : AuthData) (rememberMe : Bool) :
    Store × Outcome Unit :=
  match authUtils.saveSession s now authData rememberMe with
  | (s1, Completion.returned) => (s1, Outcome.returned ())
  | (s1, Completion.threw error) => (s1, Outcome.threw error)

/-- Model of `getSession()` as a call, with the `try` around `JSON.parse` and
its `catch`. -/
def getSession (s : Store) (now : Nat) : Store × Outcome (Option Session) :=
  match getItem s Key.TOKEN_KEY, getItem s Key.EXPIRY_KEY, getItem s Key.USER_DATA_KEY with
  | some token, some expiryStr, some userDataStr =>
    if token = "" ∨ expiryStr = "" ∨ userDataStr = "" then (s, Outcome.returned none)
    else
      let expiry := parseInt expiryStr
      if jsLe expiry (some (now : Int)) then (clearSession s, Outcome.returned none)
      else
        tryCatch
          (match jsonParse userDataStr with
           | Outcome.returned _ =>
             (s, Outcome.returned
               (some { token := token, expiry := expiry, user := userDataStr, isValid := true }))
           | Outcome.threw error => (s, Outcome.threw error))
          (fun s1 => (clearSession s1, Outcome.returned none))
  | _, _, _ => (s, Outcome.returned none)

/-- Model of `clearSession()` as a call: no statement of it can throw. -/
def clearSession (s : Store) : Store × Outcome Unit :=
  (authUtils.clearSession s, Outcome.returned ())

/-- Model of `isAuthenticated()` as a call: an exception of `getSession()`
would propagate; `isValid` is read only when the session is not `null`. -/
def isAuthenticated (s : Store) (now : Nat) : Store × Outcome Bool :=
  match getSession s now with
  | (s1, Outcome.threw error) => (s1, Outcome.threw error)
  | (s1, Outcome.returned none) => (s1, Outcome.returned false)
  | (s1, Outcome.returned (some session)) => (s1, Outcome.returned session.isValid)

/-- Model of `incrementLoginAttempts()` as a call: `toString` is called on
numbers only, so no statement of it can throw. -/
def incrementLoginAttempts (s : Store) (now : Nat) : Store × Outcome (Option Int) :=
  ((authUtils.incrementLoginAttempts s now).1,
   Outcome.returned (authUtils.incrementLoginAttempts s now).2)

/-- Model of `checkLockoutStatus()` as a call: no statement of it can throw. -/
def checkLockoutStatus (s : Store) (now : Nat) : Store × Outcome LockoutInfo :=
  ((authUtils.checkLockoutStatus s now).1,
   Outcome.returned (authUtils.checkLockoutStatus s now).2)

/-- Model of `refreshTokenIfNeeded()` as a call: the store it leaves and how
its promise settles (`threw`: it rejects). The statements before the `try` are
not guarded; inside the `try` the awaited call can reject and `saveSession`
can throw (on `undefined` as `authData` at once). -/
def refreshTokenIfNeeded (s : Store) (now later : Nat) (gateway : String → Awaited) :
    Store × Outcome Bool :=
  match getSession s now with
  | (s1, Outcome.threw error) => (s1, Outcome.threw error)
  | (s1, Outcome.returned none) => (s1, Outcome.returned false)
  | (s1, Outcome.returned (some session)) =>
    let timeUntilExpiry := jsSub session.expiry (some (now : Int))
    if jsGt timeUntilExpiry (some (REFRESH_THRESHOLD : Int)) then (s1, Outcome.returned true)
    else
      let refreshToken := getItem s1 Key.REFRESH_TOKEN_KEY
      if !truthy refreshToken then (s1, Outcome.returned false)
      else
        tryCatch
          (match gateway (storedText refreshToken) with
           | Awaited.rejected => (s1, Outcome.threw JsError.rejection)
           | Awaited.answered reply =>
             let r := apiService.auth.refreshToken s1 reply
             if r.2.success then
               let rememberMe := decide (getItem r.1 Key.REMEMBER_ME_KEY = some "true")
               match r.2.data with
               | none => (r.1, Outcome.threw JsError.typeError)
               | some data =>
                 match saveSession r.1 later data rememberMe with
                 | (s2, Outcome.returned _) => (s2, Outcome.returned true)
                 | (s2, Outcome.threw error) => (s2, Outcome.threw error)
             else (authUtils.clearSession r.1, Outcome.returned false))
          (fun s2 => (authUtils.clearSession s2, Outcome.returned false))

end Calls

/-! ## Numbers as doubles: the failed-attempt count beyond the safe integers -/

/-- A Number that `parseInt`, `+` and `Date.now()` can give: `NaN`, an
infinity, or a double that is an integer (`-0` is held as `0`; they print and
add alike). -/
inductive JsNumber
  | nan
  | infinity (negative : Bool)
  | finite (value : Int)
  deriving DecidableEq, Repr

namespace Double

/-- How often `m` can be halved before it is below 2, with `fuel` steps at most. -/
def halvings : Nat → Nat → Nat
  | 0, _ => 0
  | fuel + 1, m => if 2 ≤ m then halvings fuel (m / 2) + 1 else 0

/-- The binary exponent of a positive integer: the largest `e` with `2 ^ e ≤ m`. -/
def binaryExponent (m : Nat) : Nat := halvings m m

/-- The Number an integer becomes: itself below 2^53 in magnitude, otherwise
the nearest double (53 significant bits, a tie goes to the even significand),
and an infinity when that reaches 2^1024. -/
def toNumber (z : Int) : JsNumber :=
  let m := z.natAbs
  if m < 2 ^ 53 then JsNumber.finite z
  else
    let e := binaryExponent m - 52
    let q := m / 2 ^ e
    let r := m % 2 ^ e
    let q1 := if 2 ^ e < 2 * r ∨ (2 * r = 2 ^ e ∧ q % 2 = 1) then q + 1 else q
    let v := q1 * 2 ^ e
    if 1024 ≤ binaryExponent v then JsNumber.infinity (decide (z < 0))
    else JsNumber.finite (if z < 0 then - (v : Int) else (v : Int))

/-- Model of `parseInt(string)` as a Number: the integer the digits denote,
rounded to a double. -/
def parseInt (s : String) : JsNumber :=
  match Navaro.parseInt s with
  | none => JsNumber.nan
  | some z => toNumber z

/-- JavaScript `a + b` on these Numbers: the exact sum, rounded to a double. -/
def jsAdd : JsNumber → JsNumber → JsNumber
  | JsNumber.finite a, JsNumber.finite b => toNumber (a + b)
  | JsNumber.infinity n, JsNumber.finite _ => JsNumber.infinity n
  | JsNumber.finite _, JsNumber.infinity n => JsNumber.infinity n
  | JsNumber.infinity n1, JsNumber.infinity n2 =>
    if n1 = n2 then JsNumber.infinity n1 else JsNumber.nan
  | _, _ => JsNumber.nan

/-- The digit strings `s` of `k` digits and exponents `n` for which `s * 10^(n-k)`
is, as a Number, the double `m`: of each `n` the two integers next to
`m / 10^(n-k)`. -/
def digitCandidates (m k : Nat) : List (Nat × Nat) :=
  let D := (Nat.repr m).length
  ([D, D + 1].flatMap fun n =>
      if k ≤ n then [(m / 10 ^ (n - k), n), (m / 10 ^ (n - k) + 1, n)] else []).filter
    fun p => decide (10 ^ (k - 1) ≤ p.1) && decide (p.1 < 10 ^ k) &&
      decide (toNumber ((p.1 * 10 ^ (p.2 - k) : Nat) : Int) = JsNumber.finite (m : Int))

/-- The distance of `s * 10^(n-k)` from `m`. -/
def distance (m k : Nat) (p : Nat × Nat) : Nat :=
  if m ≤ p.1 * 10 ^ (p.2 - k) then p.1 * 10 ^ (p.2 - k) - m else m - p.1 * 10 ^ (p.2 - k)

/-- The candidate nearest to `m`, the even one of two at the same distance. -/
def closest (m k : Nat) : List (Nat × Nat) → Option (Nat × Nat)
  | [] => none
  | p :: rest =>
    match closest m k rest with
    | none => some p
    | some q =>
      if distance m k p < distance m k q ∨ (distance m k p = distance m k q ∧ p.1 % 2 = 0)
      then some p else some q

/-- The digits `s`, their number `k` and the exponent `n` that
`Number::toString` prints for the double `m`: `k` is as small as possible
(17 digits always do). -/
def shortestDigits (m : Nat) : Nat × Nat × Nat :=
  match (List.range' 1 17).filterMap
      fun k => (closest m k (digitCandidates m k)).map fun p => (p.1, k, p.2) with
  | found :: _ => found
  | [] => (m, (Nat.repr m).length, (Nat.repr m).length)

/-- Text `Number::toString` gives a positive double that is an integer: its
decimal digits below 2^53; from there on the shortest digits that denote it,
filled with zeros up to 21 digits and in exponent form beyond. -/
def magnitudeToString (m : Nat) : String :=
  if m < 2 ^ 53 then Nat.repr m
  else
    let d := shortestDigits m
    if d.2.2 ≤ 21 then Nat.repr d.1 ++ String.mk (List.replicate (d.2.2 - d.2.1) '0')
    else if d.2.1 = 1 then Nat.repr d.1 ++ "e+" ++ Nat.repr (d.2.2 - 1)
    else String.mk ((Nat.repr d.1).data.take 1) ++ "." ++
      String.mk ((Nat.repr d.1).data.drop 1) ++ "e+" ++ Nat.repr (d.2.2 - 1)

/-- Model of `Number.prototype.toString()` on these Numbers. -/
def numberToString : JsNumber → String
  | JsNumber.nan => "NaN"
  | JsNumber.infinity false => "Infinity"
  | JsNumber.infinity true => "-Infinity"
  | JsNumber.finite z =>
    if z < 0 then "-" ++ magnitudeToString z.natAbs else magnitudeToString z.natAbs

/-- Model of `getLoginAttempts()` with the count as a double. -/
def getLoginAttempts (s : Store) : JsNumber :=
  parseInt (storedText (jsOr (getItem s Key.LOGIN_ATTEMPTS_KEY) (some "0")))

/-- Model of `incrementLoginAttempts()` with the count and the time as
doubles: the store afterwards and the returned count. -/
def incrementLoginAttempts (s : Store) (now : Nat) : Store × JsNumber :=
  let attempts := jsAdd (getLoginAttempts s) (JsNumber.finite 1)
  let s1 := setItem s Key.LOGIN_ATTEMPTS_KEY (numberToString attempts)
  let s2 := setItem s1 Key.LAST_ATTEMPT_KEY (numberToString (toNumber (now : Int)))
  (s2, attempts)

end Double

/-! ## Page loads around the session monitor -/

namespace authUtils

/-- The page right after `authUtils` was loaded: `_warningShown` is unset. -/
def Monitor.loaded (s : Store) : Monitor :=
  { store := s, warningShown := false }

end authUtils

namespace LegacyLogin

/-- Model of `checkExistingSession()` of the page at time `now`: the store
afterwards and whether the page sends the user on to the dashboard. -/
def checkExistingSession (s : Store) (now : Nat) : Store × Bool :=
  authUtils.isAuthenticated s now

end LegacyLogin

namespace LoginPage

/-- Model of `checkExistingSession()` of the page at time `now`: whether the
page sends the user on to the dashboard. -/
def checkExistingSession (s : Store) (now : Nat) : Bool :=
  let sessionToken := getItem s Key.TOKEN_KEY
  let sessionExpiry := parseInt (storedText (jsOr (getItem s Key.EXPIRY_KEY) (some "0")))
  truthy sessionToken && jsGt sessionExpiry (some (now : Int))

end LoginPage

namespace dashboard

/-- Model of `checkAuthentication()` of src/frontend/src/services/dashboard.js
at time `now`: the store afterwards and the value returned; with true
`authUtils.startSessionMonitoring()` was called, with false the page was sent
to `login.html`. -/
def checkAuthentication (s : Store) (now : Nat) : Store × Bool :=
  authUtils.isAuthenticated s now

end dashboard

/-! ## The lockout record as the data model describes it -/

namespace authUtils

/-- The well-formedness of the stored lockout record: the failed-attempt count
`getLoginAttempts()` reads is a number that is not negative, and no last-attempt
time is stored exactly when that count is 0. -/
def lockoutRecordWellFormed (s : Store) : Bool :=
  match getLoginAttempts s with
  | none => false
  | some n =>
    decide (0 ≤ n) && (decide (getItem s Key.LAST_ATTEMPT_KEY = none) == decide (n = 0))

end authUtils

/-! ## Stores used as concrete inputs -/

/-- A store holding a token, an expiry of 2000 and the user data `saveSession`
writes for a response without a user object. -/
def corruptUserStore : Store :=
  setItem (setItem (setItem emptyStore Key.TOKEN_KEY "tok") Key.EXPIRY_KEY "2000")
    Key.USER_DATA_KEY "undefined"

/-- A store holding a complete session that expires at time 2000. -/
def sessionStore : Store :=
  setItem (setItem (setItem (setItem emptyStore Key.TOKEN_KEY "tok") Key.EXPIRY_KEY "2000")
    Key.USER_DATA_KEY "\x7b\"username\":\"admin\"\x7d") Key.REFRESH_TOKEN_KEY "ref"

/-- A store holding three failed attempts, the last at time 1000. -/
def lockedStore : Store :=
  setItem (setItem emptyStore Key.LOGIN_ATTEMPTS_KEY "3") Key.LAST_ATTEMPT_KEY "1000"

/-- A store holding two failed attempts, the last at time 1000. -/
def twoFailuresStore : Store :=
  setItem (setItem emptyStore Key.LOGIN_ATTEMPTS_KEY "2") Key.LAST_ATTEMPT_KEY "1000"

/-- A store holding a session that expires at time 2000 and no refresh token. -/
def sessionWithoutRefreshStore : Store :=
  setItem (setItem (setItem emptyStore Key.TOKEN_KEY "tok") Key.EXPIRY_KEY "2000")
    Key.USER_DATA_KEY "\x7b\"username\":\"admin\"\x7d"

/-- A store holding a token, valid user data and an expiry that is not a number. -/
def nanExpiryStore : Store :=
  setItem (setItem (setItem emptyStore Key.TOKEN_KEY "tok") Key.EXPIRY_KEY "never")
    Key.USER_DATA_KEY "\x7b\"username\":\"admin\"\x7d"

/-- The session of `sessionStore` together with three failed attempts, the
last at time 1000, and a remember-me preference. -/
def fullStore : Store :=
  setItem (setItem (setItem (setItem sessionStore Key.LOGIN_ATTEMPTS_KEY "3")
    Key.LAST_ATTEMPT_KEY "1000") Key.REMEMBER_ME_KEY "true") Key.SAVED_USERNAME_KEY "admin"

/-- The session of `sessionStore` with its expiry moved to time 2000000. -/
def freshSessionStore : Store :=
  setItem sessionStore Key.EXPIRY_KEY "2000000"

/-- A gateway that answers every refresh with new token data and no user object. -/
def tokenDataGateway : String → Awaited :=
  fun _ => Awaited.answered (HttpReply.ok
    { access_token := some "new", token := none, refresh_token := some "ref2", user := none })

/-- A gateway that refuses every refresh with status 401. -/
def refusingGateway : String → Awaited :=
  fun _ => Awaited.answered (HttpReply.failed (some 401) none)

/-- A backend that refuses every credential with status 401. -/
def refusingBackend : String → String → HttpReply :=
  fun _ _ => HttpReply.failed (some 401) none

/-- A store holding nothing but a saved username. -/
def savedUsernameStore : Store :=
  setItem emptyStore Key.SAVED_USERNAME_KEY "bob"

/-- An auth response with a token and no user object. -/
def tokenOnlyResponse : AuthData :=
  { access_token := some "tok", token := none, refresh_token := none, user := none }

/-- An auth response with a token and a user object, and no refresh token. -/
def adminResponse : AuthData :=
  { access_token := some "new", token := none, refresh_token := none,
    user := some { id := some "1", username := some "admin", role := some "administrator",
                   lastLogin := none } }

/-- A gateway that answers every refresh with a token and a user object. -/
def userDataGateway : String → Awaited :=
  fun _ => Awaited.answered (HttpReply.ok adminResponse)

/-- The user object of `adminResponse`. -/
def adminUser : User :=
  { id := some "1", username := some "admin", role := some "administrator", lastLogin := none }

/-- A decoding of tokens under which every token expires at second 2000000000. -/
def farExp : String → Option Int :=
  fun _ => some 2000000000

/-- A store holding a session that expires at time 2000000 and no refresh token. -/
def longSessionStore : Store :=
  setItem sessionWithoutRefreshStore Key.EXPIRY_KEY "2000000"

/-- The run of the warning tick of a freshly loaded page at time 1760000 over
`longSessionStore`, with the user accepting the extension at time 1765000. -/
def acceptedExtensionRun : authUtils.WarningRun :=
  authUtils.sessionWarningTick (authUtils.Monitor.loaded longSessionStore) 1760000
    (authUtils.WarningAnswer.extend 1765000 1765100 refusingGateway)

/-- The session of `sessionStore` with the saved username "bob" and no
remember-me flag. -/
def savedUsernameSessionStore : Store :=
  setItem sessionStore Key.SAVED_USERNAME_KEY "bob"

/-- A store whose failed-attempt count is 2^53, the last attempt at time 1000. -/
def hugeCountStore : Store :=
  setItem (setItem emptyStore Key.LOGIN_ATTEMPTS_KEY "9007199254740992")
    Key.LAST_ATTEMPT_KEY "1000"

/-- A store holding three failed attempts and no last-attempt time. -/
def countOnlyStore : Store :=
  setItem emptyStore Key.LOGIN_ATTEMPTS_KEY "3"

/-- A store holding three failed attempts and a last-attempt time that is not a number. -/
def badLastAttemptStore : Store :=
  setItem (setItem emptyStore Key.LOGIN_ATTEMPTS_KEY "3") Key.LAST_ATTEMPT_KEY "abc"

open AUTH_CONFIG authUtils

/-! ## Decimal rendering and `parseInt` -/

theorem digitChar_mem_decimalDigits (d : Nat) (h : d < 10) :
    Nat.digitChar d ∈ decimalDigits := by
  interval_cases d <;> decide

theorem digitValue_digitChar (d : Nat) (h : d < 10) :
    digitValue 10 (Nat.digitChar d) = some d := by
  interval_cases d <;> rfl

theorem toDigitsCore_mem (fuel : Nat) : ∀ (n : Nat) (ds : List Char),
    (∀ c ∈ ds, c ∈ decimalDigits) → ∀ c ∈ Nat.toDigitsCore 10 fuel n ds, c ∈ decimalDigits := by
  induction fuel with
  | zero => intro n ds h c hc; exact h c (by simpa [Nat.toDigitsCore] using hc)
  | succ f ih =>
    intro n ds h c hc
    have hd : ∀ c ∈ Nat.digitChar (n % 10) :: ds, c ∈ decimalDigits := by
      intro c hc
      rcases List.mem_cons.mp hc with rfl | hc
      · exact digitChar_mem_decimalDigits _ (Nat.mod_lt _ (by norm_num))
      · exact h c hc
    simp only [Nat.toDigitsCore] at hc
    split at hc
    · exact hd c hc
    · exact ih _ _ hd c hc

theorem readDigits_toDigitsCore (fuel : Nat) : ∀ (n : Nat) (ds : List Char), n < fuel →
    readDigits 10 none (Nat.toDigitsCore 10 fuel n ds) = readDigits 10 (some n) ds := by
  induction fuel with
  | zero => intro n ds h; omega
  | succ f ih =>
    intro n ds h
    simp only [Nat.toDigitsCore]
    split
    · rename_i h0
      have hn : n % 10 = n := Nat.mod_eq_of_lt (by omega)
      simp only [readDigits, digitValue_digitChar _ (Nat.mod_lt n (by norm_num : 10 > 0))]
      simp [hn]
    · rename_i h0
      rw [ih (n / 10) _ (by omega)]
      simp only [readDigits, digitValue_digitChar _ (Nat.mod_lt n (by norm_num : 10 > 0)),
        Option.getD_some]
      congr 2
      omega

theorem parseInt_of_decimal (L : List Char) (n : Nat) (hall : ∀ c ∈ L, c ∈ decimalDigits)
    (hread : readDigits 10 none L = some n) : parseInt (String.mk L) = some (n : Int) := by
  have facts : ∀ c ∈ decimalDigits,
      isJsWhiteSpace c = false ∧ c ≠ '-' ∧ c ≠ '+' ∧ c ≠ 'x' ∧ c ≠ 'X' := by decide
  cases L with
  | nil => simp [readDigits] at hread
  | cons c rest =>
    obtain ⟨hws, hm, hp, -, -⟩ := facts c (hall c (List.mem_cons_self _ _))
    cases rest with
    | nil =>
      simp [parseInt, List.dropWhile, hws, stripSign, hm, hp, stripRadixPrefix, hread]
    | cons c1 r =>
      obtain ⟨-, -, -, hx, hX⟩ := facts c1 (hall c1 (by simp))
      simp [parseInt, List.dropWhile, hws, stripSign, hm, hp, stripRadixPrefix, hx, hX, hread]

/-- Reading back the decimal rendering of a natural number gives the number. -/
theorem parseInt_repr (n : Nat) : parseInt (Nat.repr n) = some (n : Int) := by
  have h1 : Nat.repr n = String.mk (Nat.toDigits 10 n) := rfl
  rw [h1]
  apply parseInt_of_decimal
  · exact toDigitsCore_mem _ _ _ (by simp)
  · simpa [readDigits] using readDigits_toDigitsCore (n + 1) n [] (by omega)

theorem parseInt_numberToString (i : Int) (h : 0 ≤ i) :
    parseInt (numberToString (some i)) = some i := by
  obtain ⟨n, rfl⟩ := Int.eq_ofNat_of_zero_le h
  exact parseInt_repr n

theorem repr_ne_empty (n : Nat) : Nat.repr n ≠ "" := by
  intro h
  have := parseInt_repr n
  rw [h] at this
  simp [parseInt, stripSign, stripRadixPrefix, readDigits] at this

/-! ## Storage lemmas -/

@[simp] theorem getItem_setItem (s : Store) (k k1 : Key) (v : String) :
    getItem (setItem s k v) k1 = if k1 = k then some v else getItem s k1 := by
  by_cases h : k1 = k <;> simp only [getItem, setItem, h, if_true, if_false]

@[simp] theorem getItem_removeItem (s : Store) (k k1 : Key) :
    getItem (removeItem s k) k1 = if k1 = k then none else getItem s k1 := by
  by_cases h : k1 = k <;> simp only [getItem, removeItem, h, if_true, if_false]

theorem getItem_clearSession (s : Store) (k : Key) :
    getItem (clearSession s) k =
      if k = Key.TOKEN_KEY ∨ k = Key.REFRESH_TOKEN_KEY ∨ k = Key.USER_DATA_KEY ∨
          k = Key.EXPIRY_KEY then none else getItem s k := by
  cases k <;> simp [clearSession]

theorem getItem_resetLoginAttempts (s : Store) (k : Key) :
    getItem (resetLoginAttempts s) k =
      if k = Key.LOGIN_ATTEMPTS_KEY ∨ k = Key.LAST_ATTEMPT_KEY then none else getItem s k := by
  cases k <;> simp [resetLoginAttempts]

theorem truthy_eq_true_iff (v : Option String) :
    truthy v = true ↔ ∃ t, v = some t ∧ t ≠ "" := by
  cases v <;> simp [truthy]

theorem parseInt_empty : parseInt "" = none := by decide

theorem getLoginAttempts_of_none (s : Store) (h : getItem s Key.LOGIN_ATTEMPTS_KEY = none) :
    getLoginAttempts s = some 0 := by
  simp only [getLoginAttempts, h, jsOr, truthy]
  decide

/-! ## C1: the expiry `saveSession` stores -/

/-- C1 (amended): for every store, time `now`, remember-me flag and every
authentication response that carries a user object, `saveSession` returns
normally and the stored session expiry is `now + REMEMBER_ME_TIME` when
`rememberMe` is true and `now + SESSION_TIMEOUT` when it is false, whatever
expiry was stored before. -/
theorem saveSession_expiry (s : Store) (now : Nat) (authData : AuthData) (rememberMe : Bool)
    (hu : authData.user ≠ none) :
    (saveSession s now authData rememberMe).2 = Completion.returned ∧
    getItem (saveSession s now authData rememberMe).1 Key.EXPIRY_KEY =
      some (numberToString (some ((now : Int) +
        (if rememberMe then (REMEMBER_ME_TIME : Int) else SESSION_TIMEOUT)))) ∧
    storedExpiry (saveSession s now authData rememberMe).1 =
      some ((now : Int) + (if rememberMe then (REMEMBER_ME_TIME : Int) else SESSION_TIMEOUT)) := by
  obtain ⟨u, hu⟩ := Option.ne_none_iff_exists'.mp hu
  have hs : getItem (saveSession s now authData rememberMe).1 Key.EXPIRY_KEY =
      some (numberToString (some ((now : Int) +
        (if rememberMe then (REMEMBER_ME_TIME : Int) else SESSION_TIMEOUT)))) := by
    cases rememberMe <;> by_cases ht : truthy authData.refresh_token = true <;>
      simp [saveSession, hu, ht, getItem_resetLoginAttempts]
  refine ⟨?_, hs, ?_⟩
  · cases rememberMe <;> simp [saveSession, hu]
  · rw [storedExpiry, hs, Option.some_bind]
    apply parseInt_numberToString
    split <;> positivity

/-- Witness of C1 (amended): a remember-me login at time 1000 over a store
that held an older expiry. -/
theorem saveSession_expiry_witness :
    storedExpiry (saveSession (setItem emptyStore Key.EXPIRY_KEY "5") 1000
      { access_token := some "tok", token := none, refresh_token := none,
        user := some { id := none, username := some "admin", role := some "administrator",
                       lastLogin := none } } true).1 = some 2592001000 :=
  (saveSession_expiry _ 1000 _ true (by decide)).2.2

/-- C1 (counterexample): an authentication response without a user object,
saved with `rememberMe = true` at time 1000, leaves the 30-minute expiry
`1000 + SESSION_TIMEOUT` in the store, not `1000 + REMEMBER_ME_TIME`: the
`TypeError` of `authData.user.username` stops `saveSession` before the
extended expiry is written. -/
theorem saveSession_expiry_without_user :
    (saveSession emptyStore 1000
      { access_token := some "tok", token := none, refresh_token := none, user := none }
      true).2 = Completion.threw JsError.typeError ∧
    storedExpiry (saveSession emptyStore 1000
      { access_token := some "tok", token := none, refresh_token := none, user := none }
      true).1 = some ((1000 : Int) + SESSION_TIMEOUT) ∧
    storedExpiry (saveSession emptyStore 1000
      { access_token := some "tok", token := none, refresh_token := none, user := none }
      true).1 ≠ some ((1000 : Int) + REMEMBER_ME_TIME) := by
  decide

/-! ## C2, C3: `isAuthenticated` and the lazy expiry of `getSession` -/

theorem sessionRecordStored_iff (s : Store) :
    sessionRecordStored s = true ↔
      ∃ t e u, getItem s Key.TOKEN_KEY = some t ∧ getItem s Key.EXPIRY_KEY = some e ∧
        getItem s Key.USER_DATA_KEY = some u ∧ t ≠ "" ∧ e ≠ "" ∧ u ≠ "" := by
  simp only [sessionRecordStored, Bool.and_eq_true, truthy_eq_true_iff]
  constructor
  · rintro ⟨⟨⟨t, ht, ht0⟩, ⟨e, he, he0⟩⟩, ⟨u, hu, hu0⟩⟩
    exact ⟨t, e, u, ht, he, hu, ht0, he0, hu0⟩
  · rintro ⟨t, e, u, ht, he, hu, ht0, he0, hu0⟩
    exact ⟨⟨⟨t, ht, ht0⟩, ⟨e, he, he0⟩⟩, ⟨u, hu, hu0⟩⟩

theorem getSession_of_record (s : Store) (now : Nat) (t e u : String)
    (ht : getItem s Key.TOKEN_KEY = some t) (he : getItem s Key.EXPIRY_KEY = some e)
    (hu : getItem s Key.USER_DATA_KEY = some u) (ht0 : t ≠ "") (he0 : e ≠ "") (hu0 : u ≠ "") :
    getSession s now =
      if jsLe (parseInt e) (some (now : Int)) then (clearSession s, none)
      else if jsonParses u then
        (s, some { token := t, expiry := parseInt e, user := u, isValid := true })
      else (clearSession s, none) := by
  simp only [getSession, ht, he, hu, ht0, he0, hu0, or_self, if_false]

theorem getSession_of_no_record (s : Store) (now : Nat) (h : sessionRecordStored s = false) :
    getSession s now = (s, none) := by
  unfold getSession
  split
  · rename_i t e u ht he hu
    by_cases h0 : t = "" ∨ e = "" ∨ u = ""
    · simp only [h0, if_true]
    · exfalso
      simp only [not_or] at h0
      have : sessionRecordStored s = true :=
        (sessionRecordStored_iff s).mpr ⟨t, e, u, ht, he, hu, h0.1, h0.2.1, h0.2.2⟩
      simp [h] at this
  · rfl

/-- C2 (amended): for every store whose stored session record, if there is
one, has a numeric expiry, and every time `now`, `isAuthenticated()` returns
true if and only if a session record is stored (session token, expiry and user
data present and non-empty), its user data is JSON text that `JSON.parse`
accepts, and its expiry is strictly greater than `now`. -/
theorem isAuthenticated_iff (s : Store) (now : Nat)
    (hnum : sessionRecordStored s = true → storedExpiry s ≠ none) :
    (isAuthenticated s now).2 = true ↔
      (sessionRecordStored s = true ∧
        (∃ u, getItem s Key.USER_DATA_KEY = some u ∧ jsonParses u = true) ∧
        jsGt (storedExpiry s) (some (now : Int)) = true) := by
  by_cases hrec : sessionRecordStored s = true
  · obtain ⟨t, e, u, ht, he, hu, ht0, he0, hu0⟩ := (sessionRecordStored_iff s).mp hrec
    have hx := hnum hrec
    simp only [storedExpiry, he, Option.some_bind] at hx ⊢
    obtain ⟨x, hx⟩ := Option.ne_none_iff_exists'.mp hx
    simp only [isAuthenticated, getSession_of_record s now t e u ht he hu ht0 he0 hu0, hx,
      hrec, hu, jsLe, jsGt, jsLt, true_and, Option.some.injEq, exists_eq_left']
    by_cases hle : x ≤ (now : Int)
    · have : ¬ ((now : Int) < x) := by omega
      simp [hle, this]
    · have : (now : Int) < x := by omega
      by_cases hj : jsonParses u = true <;> simp [hle, this, hj]
  · have hfalse : sessionRecordStored s = false := by simpa using hrec
    simp [isAuthenticated, getSession_of_no_record s now hfalse, hfalse]

/-- Witness of C2 (amended): the complete session of `sessionStore` is
authenticated at time 1000. -/
theorem isAuthenticated_iff_witness :
    (sessionRecordStored sessionStore = true → storedExpiry sessionStore ≠ none) ∧
    (isAuthenticated sessionStore 1000).2 = true :=
  ⟨by decide, (isAuthenticated_iff sessionStore 1000 (by decide)).mpr (by decide)⟩

/-- C2 (counterexample): in `corruptUserStore` token, expiry and user data are
all present and the expiry 2000 is greater than the time 1000, yet
`isAuthenticated()` returns false, because the user data is not JSON. -/
theorem isAuthenticated_false_on_corrupt_user_data :
    sessionRecordStored corruptUserStore = true ∧
    storedExpiry corruptUserStore = some 2000 ∧
    (isAuthenticated corruptUserStore 1000).2 = false := by
  decide

/-- C3: for every stored session record and every time `now` at or after its
expiry, `isAuthenticated()` (through `getSession()`) returns false and leaves
the session token, refresh token, user data and expiry keys absent from the
store. -/
theorem expired_session_is_cleared (s : Store) (now : Nat) (expiresAt : Int)
    (hrec : sessionRecordStored s = true) (hexp : storedExpiry s = some expiresAt)
    (hle : expiresAt ≤ now) :
    (isAuthenticated s now).2 = false ∧
    (getSession s now).2 = none ∧
    getItem (isAuthenticated s now).1 Key.TOKEN_KEY = none ∧
    getItem (isAuthenticated s now).1 Key.REFRESH_TOKEN_KEY = none ∧
    getItem (isAuthenticated s now).1 Key.USER_DATA_KEY = none ∧
    getItem (isAuthenticated s now).1 Key.EXPIRY_KEY = none := by
  obtain ⟨t, e, u, ht, he, hu, ht0, he0, hu0⟩ := (sessionRecordStored_iff s).mp hrec
  simp only [storedExpiry, he, Option.some_bind] at hexp
  have hg : getSession s now = (clearSession s, none) := by
    rw [getSession_of_record s now t e u ht he hu ht0 he0 hu0, hexp]
    simp [jsLe, hle]
  simp [isAuthenticated, hg, getItem_clearSession]

/-- Witness of C3: the session of `sessionStore`, which expires at 2000, read at time 2000. -/
theorem expired_session_is_cleared_witness :
    (isAuthenticated sessionStore 2000).2 = false ∧
    getItem (isAuthenticated sessionStore 2000).1 Key.REFRESH_TOKEN_KEY = none :=
  ⟨(expired_session_is_cleared sessionStore 2000 2000 (by decide) (by decide) (by decide)).1,
   (expired_session_is_cleared sessionStore 2000 2000 (by decide) (by decide)
     (by decide)).2.2.2.1⟩

/-! ## C4, C5, C6: the lockout -/

theorem storedLastAttempt_some (s : Store) (t : Int) (h : storedLastAttempt s = some t) :
    ∃ l, getItem s Key.LAST_ATTEMPT_KEY = some l ∧ parseInt l = some t ∧
      truthy (some l) = true := by
  unfold storedLastAttempt at h
  cases hl : getItem s Key.LAST_ATTEMPT_KEY with
  | none => simp [hl] at h
  | some l =>
    rw [hl, Option.some_bind] at h
    refine ⟨l, rfl, h, ?_⟩
    have : l ≠ "" := by
      rintro rfl
      rw [parseInt_empty] at h
      exact Option.noConfusion h
    simp [truthy, this]

theorem checkLockoutStatus_below (s : Store) (now : Nat) (n : Int)
    (hn : getLoginAttempts s = some n) (hlt : n < MAX_LOGIN_ATTEMPTS) :
    checkLockoutStatus s now =
      (s, { isLocked := false, attempts := some n, remainingTime := none,
            remainingMinutes := none }) := by
  simp only [checkLockoutStatus, hn, jsLt, hlt, decide_True, Bool.true_or, if_true]

theorem checkLockoutStatus_reached (s : Store) (now : Nat) (n t : Int)
    (hn : getLoginAttempts s = some n) (hge : (MAX_LOGIN_ATTEMPTS : Int) ≤ n)
    (ht : storedLastAttempt s = some t) :
    checkLockoutStatus s now =
      if (LOCKOUT_TIME : Int) ≤ (now : Int) - t then
        (resetLoginAttempts s, { isLocked := false, attempts := some 0, remainingTime := none,
                                 remainingMinutes := none })
      else
        (s, { isLocked := true, attempts := some n,
              remainingTime := some (some ((LOCKOUT_TIME : Int) - ((now : Int) - t))),
              remainingMinutes :=
                some (ceilMinutes (some ((LOCKOUT_TIME : Int) - ((now : Int) - t)))) }) := by
  obtain ⟨l, hl, hp, htr⟩ := storedLastAttempt_some s t ht
  have hlt : ¬ n < (MAX_LOGIN_ATTEMPTS : Int) := by omega
  simp only [checkLockoutStatus, hn, jsLt, hlt, decide_False, hl, htr, Bool.not_true,
    Bool.or_self, Bool.false_eq_true, if_false, storedText, hp, jsSub, jsGe, jsLe,
    decide_eq_true_eq]

/-- C4: for every lockout record (a stored count `failedAttempts`, and a stored
time `lastAttemptAt` once the count has reached the limit) and every time
`now`, `checkLockoutStatus()` returns `isLocked = false` when `failedAttempts <
MAX_LOGIN_ATTEMPTS`; otherwise, with `elapsed = now - lastAttemptAt`, it resets
the count to 0 and returns `isLocked = false` when `elapsed >= LOCKOUT_TIME`,
and returns `isLocked = true` with `remainingTime = LOCKOUT_TIME - elapsed`
when `elapsed < LOCKOUT_TIME`. -/
theorem checkLockoutStatus_spec (s : Store) (now : Nat) (failedAttempts : Int)
    (hn : getLoginAttempts s = some failedAttempts) :
    (failedAttempts < MAX_LOGIN_ATTEMPTS → (checkLockoutStatus s now).2.isLocked = false) ∧
    ((MAX_LOGIN_ATTEMPTS : Int) ≤ failedAttempts →
      ∀ lastAttemptAt : Int, storedLastAttempt s = some lastAttemptAt →
        ((LOCKOUT_TIME : Int) ≤ (now : Int) - lastAttemptAt →
          (checkLockoutStatus s now).2.isLocked = false ∧
          getLoginAttempts (checkLockoutStatus s now).1 = some 0 ∧
          getItem (checkLockoutStatus s now).1 Key.LOGIN_ATTEMPTS_KEY = none) ∧
        ((now : Int) - lastAttemptAt < LOCKOUT_TIME →
          (checkLockoutStatus s now).2.isLocked = true ∧
          (checkLockoutStatus s now).2.remainingTime =
            some (some ((LOCKOUT_TIME : Int) - ((now : Int) - lastAttemptAt))))) := by
  refine ⟨fun hlt => ?_, fun hge t ht => ⟨fun hel => ?_, fun hel => ?_⟩⟩
  · rw [checkLockoutStatus_below s now _ hn hlt]
  · rw [checkLockoutStatus_reached s now _ t hn hge ht, if_pos hel]
    refine ⟨rfl, ?_, ?_⟩
    · exact getLoginAttempts_of_none _ (by simp [getItem_resetLoginAttempts])
    · simp [getItem_resetLoginAttempts]
  · have : ¬ (LOCKOUT_TIME : Int) ≤ (now : Int) - t := by omega
    rw [checkLockoutStatus_reached s now _ t hn hge ht, if_neg this]
    exact ⟨rfl, rfl⟩

/-- Witness of C4: three failed attempts, the last at time 1000, read one
minute later: locked, four minutes remain. -/
theorem checkLockoutStatus_spec_witness :
    (checkLockoutStatus lockedStore 61000).2.isLocked = true ∧
    (checkLockoutStatus lockedStore 61000).2.remainingTime = some (some 240000) :=
  ((checkLockoutStatus_spec lockedStore 61000 3 (by decide)).2 (by decide) 1000
    (by decide)).2 (by decide)

theorem numberToString_ne_empty (m : Int) (hm : 0 ≤ m) : numberToString (some m) ≠ "" := by
  obtain ⟨n, rfl⟩ := Int.eq_ofNat_of_zero_le hm
  exact repr_ne_empty n

theorem getLoginAttempts_of_text (s : Store) (m : Int) (hm : 0 ≤ m)
    (h : getItem s Key.LOGIN_ATTEMPTS_KEY = some (numberToString (some m))) :
    getLoginAttempts s = some m := by
  have h0 := numberToString_ne_empty m hm
  have htr : truthy (some (numberToString (some m))) = true := by
    rw [truthy_eq_true_iff]
    exact ⟨_, rfl, h0⟩
  rw [getLoginAttempts, h, jsOr, if_pos htr, storedText]
  exact parseInt_numberToString m hm

theorem incrementLoginAttempts_eq (s : Store) (now : Nat) (n : Int)
    (hn : getLoginAttempts s = some n) :
    incrementLoginAttempts s now =
      (setItem (setItem s Key.LOGIN_ATTEMPTS_KEY (numberToString (some (n + 1))))
        Key.LAST_ATTEMPT_KEY (numberToString (some (now : Int))), some (n + 1)) := by
  rw [incrementLoginAttempts, hn, jsAdd]

theorem getLoginAttempts_increment (s : Store) (now : Nat) (n : Int)
    (hn : getLoginAttempts s = some n) (h0 : 0 ≤ n) :
    getLoginAttempts (incrementLoginAttempts s now).1 = some (n + 1) := by
  rw [incrementLoginAttempts_eq s now n hn]
  apply getLoginAttempts_of_text _ _ (by omega)
  simp

theorem storedLastAttempt_increment (s : Store) (now : Nat) (n : Int)
    (hn : getLoginAttempts s = some n) :
    storedLastAttempt (incrementLoginAttempts s now).1 = some (now : Int) := by
  rw [incrementLoginAttempts_eq s now n hn, storedLastAttempt]
  simp only [getItem_setItem, if_true, Option.some_bind]
  exact parseInt_numberToString _ (by positivity)

/-- C5: with `MAX_LOGIN_ATTEMPTS = 3` and `LOCKOUT_TIME = 300000` ms, starting
from a store without a failed-attempt count, after three consecutive
`incrementLoginAttempts()` calls, the last at time `t`, `checkLockoutStatus()`
at every time `t'` with `t <= t' < t + 300000` returns `isLocked = true` with
`remainingTime = 300000 - (t' - t)`; at `t' = t` the remaining time is 300000
ms and `remainingMinutes` is 5. -/
theorem lockout_after_three_failures (s : Store) (t1 t2 t t' : Nat)
    (hempty : getItem s Key.LOGIN_ATTEMPTS_KEY = none) (h1 : t ≤ t') (h2 : t' < t + 300000) :
    (checkLockoutStatus (threeFailedAttempts s t1 t2 t) t').2.isLocked = true ∧
    (checkLockoutStatus (threeFailedAttempts s t1 t2 t) t').2.remainingTime =
      some (some (300000 - ((t' : Int) - (t : Int)))) ∧
    (checkLockoutStatus (threeFailedAttempts s t1 t2 t) t).2.remainingTime =
      some (some 300000) ∧
    (checkLockoutStatus (threeFailedAttempts s t1 t2 t) t).2.remainingMinutes =
      some (some 5) := by
  have a0 := getLoginAttempts_of_none s hempty
  have a1 := getLoginAttempts_increment s t1 0 a0 (by norm_num)
  have a2 := getLoginAttempts_increment _ t2 _ a1 (by norm_num)
  have a3 := getLoginAttempts_increment _ t _ a2 (by norm_num)
  have l3 := storedLastAttempt_increment _ t _ a2
  have hmax : (MAX_LOGIN_ATTEMPTS : Int) = 3 := rfl
  have hlock : (LOCKOUT_TIME : Int) = 300000 := rfl
  have r1 := checkLockoutStatus_reached _ t' _ _ a3 (by rw [hmax]; norm_num) l3
  have r2 := checkLockoutStatus_reached _ t _ _ a3 (by rw [hmax]; norm_num) l3
  rw [hlock] at r1 r2
  rw [if_neg (by omega)] at r1
  rw [if_neg (by omega)] at r2
  unfold threeFailedAttempts
  rw [r1, r2]
  refine ⟨rfl, rfl, ?_, ?_⟩
  · simp
  · simp only [sub_self, sub_zero]
    rfl

/-- Witness of C5: three failures at times 10, 20 and 1000, read at time 61000. -/
theorem lockout_after_three_failures_witness :
    (checkLockoutStatus (threeFailedAttempts emptyStore 10 20 1000) 61000).2.isLocked = true ∧
    (checkLockoutStatus (threeFailedAttempts emptyStore 10 20 1000) 61000).2.remainingTime =
      some (some 240000) :=
  ⟨(lockout_after_three_failures emptyStore 10 20 1000 61000 (by decide) (by decide)
      (by decide)).1,
   (lockout_after_three_failures emptyStore 10 20 1000 61000 (by decide) (by decide)
      (by decide)).2.1⟩

/-- C6: for every lockout record with `failedAttempts >= MAX_LOGIN_ATTEMPTS`
and every time `now` with `now - lastAttemptAt >= LOCKOUT_TIME`,
`checkLockoutStatus()` returns `isLocked = false`, and the next
`incrementLoginAttempts()`, whenever it is called, returns 1. -/
theorem lockout_expires_and_count_restarts (s : Store) (now : Nat)
    (failedAttempts lastAttemptAt : Int) (hn : getLoginAttempts s = some failedAttempts)
    (hge : (MAX_LOGIN_ATTEMPTS : Int) ≤ failedAttempts)
    (hl : storedLastAttempt s = some lastAttemptAt)
    (hel : (LOCKOUT_TIME : Int) ≤ (now : Int) - lastAttemptAt) :
    (checkLockoutStatus s now).2.isLocked = false ∧
    ∀ next : Nat, (incrementLoginAttempts (checkLockoutStatus s now).1 next).2 = some 1 := by
  rw [checkLockoutStatus_reached s now _ _ hn hge hl, if_pos hel]
  refine ⟨rfl, fun next => ?_⟩
  have h0 : getLoginAttempts (resetLoginAttempts s) = some 0 :=
    getLoginAttempts_of_none _ (by simp [getItem_resetLoginAttempts])
  rw [incrementLoginAttempts_eq _ next 0 h0]
  rfl

/-- Witness of C6: three failed attempts, the last at time 1000, read five
minutes later; the next failure, at 400000, counts as the first. -/
theorem lockout_expires_and_count_restarts_witness :
    (checkLockoutStatus lockedStore 301000).2.isLocked = false ∧
    (incrementLoginAttempts (checkLockoutStatus lockedStore 301000).1 400000).2 = some 1 :=
  ⟨(lockout_expires_and_count_restarts lockedStore 301000 3 1000 (by decide) (by decide)
      (by decide) (by decide)).1,
   (lockout_expires_and_count_restarts lockedStore 301000 3 1000 (by decide) (by decide)
      (by decide) (by decide)).2 400000⟩

/-! ## C7: `saveSession` resets the lockout record -/

/-- C7 (amended): for every store, whatever failed-attempt count it holds,
and every authentication response that carries a user object (or any response
when `rememberMe` is false), after `saveSession(authData, rememberMe)`
`getLoginAttempts()` returns 0 and neither a failed-attempt count nor a
last-attempt time is stored. -/
theorem saveSession_resets_attempts (s : Store) (now : Nat) (authData : AuthData)
    (rememberMe : Bool) (h : authData.user ≠ none ∨ rememberMe = false) :
    getLoginAttempts (saveSession s now authData rememberMe).1 = some 0 ∧
    getItem (saveSession s now authData rememberMe).1 Key.LOGIN_ATTEMPTS_KEY = none ∧
    getItem (saveSession s now authData rememberMe).1 Key.LAST_ATTEMPT_KEY = none := by
  have key : ∀ k, k = Key.LOGIN_ATTEMPTS_KEY ∨ k = Key.LAST_ATTEMPT_KEY →
      getItem (saveSession s now authData rememberMe).1 k = none := by
    intro k hk
    cases hu : authData.user with
    | none =>
      have hr : rememberMe = false := by
        rcases h with h | h
        · exact absurd hu h
        · exact h
      subst hr
      simp [saveSession, hu, getItem_resetLoginAttempts, hk]
    | some u =>
      cases rememberMe <;> simp [saveSession, hu, getItem_resetLoginAttempts, hk]
  exact ⟨getLoginAttempts_of_none _ (key _ (Or.inl rfl)), key _ (Or.inl rfl),
    key _ (Or.inr rfl)⟩

/-- Witness of C7 (amended): a login with a user object over the three failed
attempts of `lockedStore`. -/
theorem saveSession_resets_attempts_witness :
    getLoginAttempts (saveSession lockedStore 2000
      { access_token := some "tok", token := none, refresh_token := none,
        user := some { id := none, username := some "admin", role := none, lastLogin := none } }
      true).1 = some 0 :=
  (saveSession_resets_attempts lockedStore 2000 _ true (Or.inl (by decide))).1

/-- C7 (counterexample): over the three failed attempts of `lockedStore`, an
authentication response without a user object saved with `rememberMe = true`
leaves the count at 3 and the last-attempt time in the store: the `TypeError`
of `authData.user.username` stops `saveSession` before `resetLoginAttempts()`. -/
theorem saveSession_keeps_attempts_without_user :
    getLoginAttempts (saveSession lockedStore 2000
      { access_token := some "tok", token := none, refresh_token := none, user := none }
      true).1 = some 3 ∧
    getItem (saveSession lockedStore 2000
      { access_token := some "tok", token := none, refresh_token := none, user := none }
      true).1 Key.LAST_ATTEMPT_KEY = some "1000" := by
  decide

/-! ## C8, C9, C10: the login flow -/

theorem checkLockoutStatus_store_of_locked (s : Store) (now : Nat)
    (h : (checkLockoutStatus s now).2.isLocked = true) : (checkLockoutStatus s now).1 = s := by
  simp only [checkLockoutStatus] at h ⊢
  split_ifs at h ⊢
  rfl

/-- C8 (the code at the failing input): the backend accepts the credentials,
`apiService.auth.login` returns `{ success: true, data }`, and `handleLogin`
of the `authUtils` page, started with no failed attempt, stores no session and
records one failed attempt; started with two failed attempts it records the
third and the account is locked. -/
theorem accepted_login_is_counted_as_failure :
    (LegacyLogin.handleLogin emptyStore 5000 5200
      { username := "admin", password := "navaro2025", rememberMe := false }
      LegacyLogin.acceptingBackend).gatewayCalls = [("admin", "navaro2025")] ∧
    (LegacyLogin.handleLogin emptyStore 5000 5200
      { username := "admin", password := "navaro2025", rememberMe := false }
      LegacyLogin.acceptingBackend).outcome =
        LoginOutcome.retry
          (some "Ein unerwarteter Fehler ist aufgetreten. Bitte versuchen Sie es erneut.")
          (some 2) ∧
    sessionRecordStored (LegacyLogin.handleLogin emptyStore 5000 5200
      { username := "admin", password := "navaro2025", rememberMe := false }
      LegacyLogin.acceptingBackend).store = false ∧
    getLoginAttempts (LegacyLogin.handleLogin emptyStore 5000 5200
      { username := "admin", password := "navaro2025", rememberMe := false }
      LegacyLogin.acceptingBackend).store = some 1 ∧
    getLoginAttempts (LegacyLogin.handleLogin twoFailuresStore 5000 5200
      { username := "admin", password := "navaro2025", rememberMe := false }
      LegacyLogin.acceptingBackend).store = some 3 ∧
    (LegacyLogin.handleLogin twoFailuresStore 5000 5200
      { username := "admin", password := "navaro2025", rememberMe := false }
      LegacyLogin.acceptingBackend).outcome =
        LoginOutcome.nowLocked (some (some 5)) (some (some 300000)) := by
  decide

/-- On the `authUtils` page an accepted login always ends in `handleFailedLogin`:
whenever the account is not locked, the form passes `validateInput` and the
backend accepts the credentials, `handleLogin` makes one call, does not report
a login, and leaves the store `handleFailedLogin` leaves. -/
theorem accepted_login_runs_handleFailedLogin (s : Store) (now later : Nat) (form : LoginForm)
    (backend : String → String → HttpReply) (data : AuthData)
    (hunlocked : (authUtils.checkLockoutStatus s now).2.isLocked = false)
    (hvalid : validateInput (jsTrim form.username) form.password = true)
    (hok : backend (jsTrim (jsTrim form.username)) form.password = HttpReply.ok data) :
    (LegacyLogin.handleLogin s now later form backend).gatewayCalls =
      [(jsTrim form.username, form.password)] ∧
    (LegacyLogin.handleLogin s now later form backend).outcome ≠ LoginOutcome.loggedIn ∧
    (LegacyLogin.handleLogin s now later form backend).store =
      (LegacyLogin.handleFailedLogin (authUtils.checkLockoutStatus s now).1 later
        (some "Ein unerwarteter Fehler ist aufgetreten. Bitte versuchen Sie es erneut.")).1 := by
  have hrun : LegacyLogin.handleLogin s now later form backend =
      { store := (LegacyLogin.handleFailedLogin (authUtils.checkLockoutStatus s now).1 later
          (some "Ein unerwarteter Fehler ist aufgetreten. Bitte versuchen Sie es erneut.")).1,
        gatewayCalls := [(jsTrim form.username, form.password)],
        outcome := (LegacyLogin.handleFailedLogin (authUtils.checkLockoutStatus s now).1 later
          (some "Ein unerwarteter Fehler ist aufgetreten. Bitte versuchen Sie es erneut.")).2 } := by
    simp [LegacyLogin.handleLogin, LegacyLogin.checkLockoutStatus, hunlocked, hvalid,
      LegacyLogin.authenticateUser, hok, apiService.auth.login, LegacyLogin.handleSuccessfulLogin]
  rw [hrun]
  refine ⟨rfl, ?_, rfl⟩
  simp only [LegacyLogin.handleFailedLogin]
  split_ifs <;> simp

/-- C9: for every store in which `checkLockoutStatus()` reports the account
locked, `handleLogin` returns the denied result and passes no credentials to
the authentication operation, whatever the form holds: on the `authUtils` page
(src/frontend/legacy_login/login.js, whatever the backend would answer) and on
the page with its own counters (src/frontend/login.js). -/
theorem locked_login_makes_no_gateway_call (s : Store) (now later : Nat) (form : LoginForm) :
    (∀ backend : String → String → HttpReply,
      (authUtils.checkLockoutStatus s now).2.isLocked = true →
        (LegacyLogin.handleLogin s now later form backend).gatewayCalls = [] ∧
        (LegacyLogin.handleLogin s now later form backend).outcome =
          LoginOutcome.lockedOut (authUtils.checkLockoutStatus s now).2.remainingMinutes
            (authUtils.checkLockoutStatus s now).2.remainingTime) ∧
    (∀ (p : LoginPage.Counters) (drawn : LoginPage.Drawn),
      (LoginPage.checkLockoutStatus p s now).locked = true →
        (LoginPage.handleLogin p s now later form drawn).2.gatewayCalls = [] ∧
        (LoginPage.handleLogin p s now later form drawn).2.outcome =
          LoginOutcome.lockedOut
            (some (ceilMinutes (LoginPage.checkLockoutStatus p s now).timeRemaining))
            (some (LoginPage.checkLockoutStatus p s now).timeRemaining)) := by
  constructor
  · intro backend h
    simp [LegacyLogin.handleLogin, LegacyLogin.checkLockoutStatus, h]
  · intro p drawn h
    simp [LoginPage.handleLogin, h]

/-- Witness of C9: with three failed attempts, the last at time 1000, a login
submitted at time 61000 is denied on both pages without an authentication
call, though the credentials are right. -/
theorem locked_login_makes_no_gateway_call_witness :
    (LegacyLogin.handleLogin lockedStore 61000 61200
      { username := "admin", password := "navaro2025", rememberMe := false }
      LegacyLogin.acceptingBackend).gatewayCalls = [] ∧
    (LoginPage.handleLogin (LoginPage.loadCounters lockedStore) lockedStore 61000 61200
      { username := "admin", password := "navaro2025", rememberMe := false }
      { token := "T", id := "I", lastLogin := "L" }).2.gatewayCalls = [] :=
  ⟨((locked_login_makes_no_gateway_call lockedStore 61000 61200 _).1 _ (by decide)).1,
   ((locked_login_makes_no_gateway_call lockedStore 61000 61200 _).2 _ _ (by decide)).1⟩

/-- C10: for every store in which the account is locked, the login attempt
that `handleLogin` rejects leaves the store as it was; in particular the
failed-attempt count and the last-attempt time are unchanged. -/
theorem locked_login_leaves_lockout_record (s : Store) (now later : Nat) (form : LoginForm)
    (backend : String → String → HttpReply)
    (h : (authUtils.checkLockoutStatus s now).2.isLocked = true) :
    (LegacyLogin.handleLogin s now later form backend).store = s ∧
    getItem (LegacyLogin.handleLogin s now later form backend).store Key.LOGIN_ATTEMPTS_KEY =
      getItem s Key.LOGIN_ATTEMPTS_KEY ∧
    getItem (LegacyLogin.handleLogin s now later form backend).store Key.LAST_ATTEMPT_KEY =
      getItem s Key.LAST_ATTEMPT_KEY := by
  have hs : (LegacyLogin.handleLogin s now later form backend).store = s := by
    simp [LegacyLogin.handleLogin, LegacyLogin.checkLockoutStatus, h,
      checkLockoutStatus_store_of_locked s now h]
  rw [hs]
  exact ⟨rfl, rfl, rfl⟩

/-- Witness of C10: the rejected login of `lockedStore` at time 61000 leaves
the count 3 and the last-attempt time 1000. -/
theorem locked_login_leaves_lockout_record_witness :
    getItem (LegacyLogin.handleLogin lockedStore 61000 61200
      { username := "admin", password := "navaro2025", rememberMe := false }
      LegacyLogin.acceptingBackend).store Key.LOGIN_ATTEMPTS_KEY = some "3" ∧
    getItem (LegacyLogin.handleLogin lockedStore 61000 61200
      { username := "admin", password := "navaro2025", rememberMe := false }
      LegacyLogin.acceptingBackend).store Key.LAST_ATTEMPT_KEY = some "1000" :=
  ⟨(locked_login_leaves_lockout_record lockedStore 61000 61200 _ _ (by decide)).2.1,
   (locked_login_leaves_lockout_record lockedStore 61000 61200 _ _ (by decide)).2.2⟩

/-! ## What `incrementLoginAttempts` stores -/

theorem parseInt_minus_decimal (L : List Char) (n : Nat) (hall : ∀ c ∈ L, c ∈ decimalDigits)
    (hread : readDigits 10 none L = some n) :
    parseInt (String.mk ('-' :: L)) = some (-(n : Int)) := by
  have facts : ∀ c ∈ decimalDigits,
      isJsWhiteSpace c = false ∧ c ≠ '-' ∧ c ≠ '+' ∧ c ≠ 'x' ∧ c ≠ 'X' := by decide
  have hws : isJsWhiteSpace '-' = false := by decide
  cases L with
  | nil => simp [readDigits] at hread
  | cons c rest =>
    cases rest with
    | nil =>
      simp [parseInt, List.dropWhile, hws, stripSign, stripRadixPrefix, hread]
    | cons c1 r =>
      obtain ⟨-, -, -, hx, hX⟩ := facts c1 (hall c1 (by simp))
      simp [parseInt, List.dropWhile, hws, stripSign, stripRadixPrefix, hx, hX, hread]

/-- Reading back the text of any integer gives the integer. -/
theorem parseInt_numberToString_int (i : Int) : parseInt (numberToString (some i)) = some i := by
  cases i with
  | ofNat n => exact parseInt_repr n
  | negSucc n =>
    have h1 : numberToString (some (Int.negSucc n)) =
        String.mk ('-' :: Nat.toDigits 10 (n + 1)) := rfl
    have h2 := parseInt_minus_decimal (Nat.toDigits 10 (n + 1)) (n + 1)
      (toDigitsCore_mem _ _ _ (by simp))
      (by simpa [readDigits] using readDigits_toDigitsCore (n + 1 + 1) (n + 1) [] (by omega))
    rw [h1, h2]
    rfl

theorem parseInt_numberToString_any (v : Option Int) : parseInt (numberToString v) = v := by
  cases v with
  | none => decide
  | some i => exact parseInt_numberToString_int i

theorem numberToString_truthy (v : Option Int) : truthy (some (numberToString v)) = true := by
  rw [truthy_eq_true_iff]
  refine ⟨_, rfl, ?_⟩
  cases v with
  | none => decide
  | some i =>
    intro h
    have := parseInt_numberToString_int i
    rw [h, parseInt_empty] at this
    exact Option.noConfusion this

theorem getLoginAttempts_of_number (s : Store) (v : Option Int)
    (h : getItem s Key.LOGIN_ATTEMPTS_KEY = some (numberToString v)) :
    getLoginAttempts s = v := by
  rw [getLoginAttempts, h, jsOr, if_pos (numberToString_truthy v), storedText]
  exact parseInt_numberToString_any v

theorem getLoginAttempts_congr (s1 s2 : Store)
    (h : getItem s1 Key.LOGIN_ATTEMPTS_KEY = getItem s2 Key.LOGIN_ATTEMPTS_KEY) :
    getLoginAttempts s1 = getLoginAttempts s2 := by
  rw [getLoginAttempts, getLoginAttempts, h]

theorem incrementLoginAttempts_store (s : Store) (now : Nat) (k : Key) :
    getItem (incrementLoginAttempts s now).1 k =
      if k = Key.LAST_ATTEMPT_KEY then some (numberToString (some (now : Int)))
      else if k = Key.LOGIN_ATTEMPTS_KEY then
        some (numberToString (jsAdd (getLoginAttempts s) (some 1)))
      else getItem s k := by
  simp only [incrementLoginAttempts, getItem_setItem]

/-- What `incrementLoginAttempts()` returns and stores, and what it leaves alone. -/
theorem incrementLoginAttempts_facts (s : Store) (now : Nat) :
    (incrementLoginAttempts s now).2 = jsAdd (getLoginAttempts s) (some 1) ∧
    getLoginAttempts (incrementLoginAttempts s now).1 = jsAdd (getLoginAttempts s) (some 1) ∧
    getItem (incrementLoginAttempts s now).1 Key.LOGIN_ATTEMPTS_KEY =
      some (numberToString (jsAdd (getLoginAttempts s) (some 1))) ∧
    storedLastAttempt (incrementLoginAttempts s now).1 = some (now : Int) ∧
    getItem (incrementLoginAttempts s now).1 Key.LAST_ATTEMPT_KEY =
      some (numberToString (some (now : Int))) ∧
    (∀ n : Int, getLoginAttempts s = some n →
      (incrementLoginAttempts s now).2 = some (n + 1) ∧
      getLoginAttempts (incrementLoginAttempts s now).1 = some (n + 1)) ∧
    (getItem s Key.LOGIN_ATTEMPTS_KEY = none → (incrementLoginAttempts s now).2 = some 1) ∧
    (∀ k, k ≠ Key.LOGIN_ATTEMPTS_KEY → k ≠ Key.LAST_ATTEMPT_KEY →
      getItem (incrementLoginAttempts s now).1 k = getItem s k) := by
  have hcount : getItem (incrementLoginAttempts s now).1 Key.LOGIN_ATTEMPTS_KEY =
      some (numberToString (jsAdd (getLoginAttempts s) (some 1))) := by
    rw [incrementLoginAttempts_store]; simp
  have hlast : getItem (incrementLoginAttempts s now).1 Key.LAST_ATTEMPT_KEY =
      some (numberToString (some (now : Int))) := by
    rw [incrementLoginAttempts_store]; simp
  have hret : (incrementLoginAttempts s now).2 = jsAdd (getLoginAttempts s) (some 1) := rfl
  have hread := getLoginAttempts_of_number _ _ hcount
  refine ⟨hret, hread, hcount, ?_, hlast, ?_, ?_, ?_⟩
  · rw [storedLastAttempt, hlast, Option.some_bind]
    exact parseInt_numberToString_int _
  · intro n hn
    rw [hret, hread, hn]
    exact ⟨rfl, rfl⟩
  · intro h0
    rw [hret, getLoginAttempts_of_none s h0]
    rfl
  · intro k h1 h2
    rw [incrementLoginAttempts_store, if_neg h2, if_neg h1]

/-! ## C13: `checkLockoutStatus` is idempotent -/

/-- C13: for every store and every fixed time `now`, `checkLockoutStatus()`
called a second time at the same instant returns the same object, the lock
verdict included, and leaves the same store as the first call. -/
theorem checkLockoutStatus_idempotent (s : Store) (now : Nat) :
    checkLockoutStatus (checkLockoutStatus s now).1 now = checkLockoutStatus s now ∧
    (checkLockoutStatus (checkLockoutStatus s now).1 now).2.isLocked =
      (checkLockoutStatus s now).2.isLocked ∧
    (checkLockoutStatus (checkLockoutStatus s now).1 now).1 = (checkLockoutStatus s now).1 := by
  have key : checkLockoutStatus (checkLockoutStatus s now).1 now = checkLockoutStatus s now := by
    by_cases h1 : (jsLt (getLoginAttempts s) (some (MAX_LOGIN_ATTEMPTS : Int)) ||
        !truthy (getItem s Key.LAST_ATTEMPT_KEY)) = true
    · have e : checkLockoutStatus s now =
          (s, { isLocked := false, attempts := getLoginAttempts s, remainingTime := none,
                remainingMinutes := none }) := by
        simp only [checkLockoutStatus, h1, if_true]
      rw [e, e]
    · by_cases h2 : jsGe (jsSub (some (now : Int))
          (parseInt (storedText (getItem s Key.LAST_ATTEMPT_KEY))))
          (some (LOCKOUT_TIME : Int)) = true
      · have e : checkLockoutStatus s now = (resetLoginAttempts s, ⟨false, some 0, none, none⟩) := by
          simp only [checkLockoutStatus, h1, h2, if_true, if_false, Bool.false_eq_true]
        have h0 : getLoginAttempts (resetLoginAttempts s) = some 0 :=
          getLoginAttempts_of_none _ (by simp [getItem_resetLoginAttempts])
        rw [e, checkLockoutStatus_below _ now 0 h0 (by decide)]
      · have e : checkLockoutStatus s now =
            (s, { isLocked := true, attempts := getLoginAttempts s,
                  remainingTime := some (jsSub (some (LOCKOUT_TIME : Int))
                    (jsSub (some (now : Int))
                      (parseInt (storedText (getItem s Key.LAST_ATTEMPT_KEY))))),
                  remainingMinutes := some (ceilMinutes (jsSub (some (LOCKOUT_TIME : Int))
                    (jsSub (some (now : Int))
                      (parseInt (storedText (getItem s Key.LAST_ATTEMPT_KEY)))))) }) := by
          simp only [checkLockoutStatus, h1, h2, if_false, Bool.false_eq_true]
        rw [e, e]
  exact ⟨key, by rw [key], by rw [key]⟩

/-! ## C14, C15: `clearSession` and `logout` -/

/-- C14: for every store, `clearSession()` removes the session token, the
refresh token, the user data and the expiry, and leaves the failed-attempt
count, the last-attempt time, the remember-me flag and the saved user name
exactly as they were. -/
theorem clearSession_frame (s : Store) :
    getItem (clearSession s) Key.TOKEN_KEY = none ∧
    getItem (clearSession s) Key.REFRESH_TOKEN_KEY = none ∧
    getItem (clearSession s) Key.USER_DATA_KEY = none ∧
    getItem (clearSession s) Key.EXPIRY_KEY = none ∧
    getItem (clearSession s) Key.LOGIN_ATTEMPTS_KEY = getItem s Key.LOGIN_ATTEMPTS_KEY ∧
    getItem (clearSession s) Key.LAST_ATTEMPT_KEY = getItem s Key.LAST_ATTEMPT_KEY ∧
    getItem (clearSession s) Key.REMEMBER_ME_KEY = getItem s Key.REMEMBER_ME_KEY ∧
    getItem (clearSession s) Key.SAVED_USERNAME_KEY = getItem s Key.SAVED_USERNAME_KEY := by
  simp [getItem_clearSession]

theorem getItem_responseError (s : Store) (status : Option Nat) (k : Key) :
    getItem (apiService.responseError s status) k = getItem s k ∨
    getItem (apiService.responseError s status) k = none ∧
      (k = Key.TOKEN_KEY ∨ k = Key.EXPIRY_KEY ∨ k = Key.USER_DATA_KEY) := by
  unfold apiService.responseError
  split_ifs
  · cases k <;> simp
  · exact Or.inl rfl

theorem getItem_responseError_of_ne (s : Store) (status : Option Nat) (k : Key)
    (h1 : k ≠ Key.TOKEN_KEY) (h2 : k ≠ Key.EXPIRY_KEY) (h3 : k ≠ Key.USER_DATA_KEY) :
    getItem (apiService.responseError s status) k = getItem s k := by
  rcases getItem_responseError s status k with h | ⟨-, h | h | h⟩
  · exact h
  · exact absurd h h1
  · exact absurd h h2
  · exact absurd h h3

theorem getItem_responseError_of_none (s : Store) (status : Option Nat) (k : Key)
    (h : getItem s k = none) : getItem (apiService.responseError s status) k = none := by
  rcases getItem_responseError s status k with h1 | ⟨h1, -⟩
  · rw [h1, h]
  · exact h1

theorem getItem_logout (s : Store) (reply : Awaited) (k : Key) :
    getItem (logout s reply) k =
      if k = Key.REMEMBER_ME_KEY ∨ k = Key.SAVED_USERNAME_KEY then getItem s k else none := by
  have base : ∀ k, getItem (resetLoginAttempts (clearSession s)) k =
      if k = Key.REMEMBER_ME_KEY ∨ k = Key.SAVED_USERNAME_KEY then getItem s k else none := by
    intro k
    cases k <;> simp [getItem_resetLoginAttempts, getItem_clearSession]
  cases reply with
  | rejected => exact base k
  | answered r =>
    cases r with
    | ok data => exact base k
    | failed status message =>
      show getItem (apiService.responseError (resetLoginAttempts (clearSession s)) status) k = _
      by_cases hk : k = Key.REMEMBER_ME_KEY ∨ k = Key.SAVED_USERNAME_KEY
      · rw [getItem_responseError_of_ne _ _ _ (by rcases hk with h | h <;> simp [h])
          (by rcases hk with h | h <;> simp [h]) (by rcases hk with h | h <;> simp [h])]
        exact base k
      · rw [if_neg hk]
        apply getItem_responseError_of_none
        rw [base k, if_neg hk]

/-- C15 (amended): for every store and whatever the logout request of the
gateway does (succeeds, fails or rejects), `logout()` removes the session
record (session token, refresh token, user data, expiry) and also resets the
lockout record (failed-attempt count and last-attempt time are removed); the
remember-me flag and the saved user name are left as they were. -/
theorem logout_effect (s : Store) (reply : Awaited) :
    getItem (logout s reply) Key.TOKEN_KEY = none ∧
    getItem (logout s reply) Key.REFRESH_TOKEN_KEY = none ∧
    getItem (logout s reply) Key.USER_DATA_KEY = none ∧
    getItem (logout s reply) Key.EXPIRY_KEY = none ∧
    getItem (logout s reply) Key.LOGIN_ATTEMPTS_KEY = none ∧
    getItem (logout s reply) Key.LAST_ATTEMPT_KEY = none ∧
    getItem (logout s reply) Key.REMEMBER_ME_KEY = getItem s Key.REMEMBER_ME_KEY ∧
    getItem (logout s reply) Key.SAVED_USERNAME_KEY = getItem s Key.SAVED_USERNAME_KEY := by
  simp [getItem_logout]

/-- C15 (counterexample): in `fullStore`, which holds a session and three
failed attempts, `clearSession()` leaves the failed-attempt count 3 and the
last-attempt time 1000, while `logout()` removes both. -/
theorem logout_resets_lockout_record :
    getItem (clearSession fullStore) Key.LOGIN_ATTEMPTS_KEY = some "3" ∧
    getItem (clearSession fullStore) Key.LAST_ATTEMPT_KEY = some "1000" ∧
    getItem (logout fullStore (Awaited.answered (HttpReply.ok
      { access_token := none, token := none, refresh_token := none, user := none })))
      Key.LOGIN_ATTEMPTS_KEY = none ∧
    getItem (logout fullStore (Awaited.answered (HttpReply.ok
      { access_token := none, token := none, refresh_token := none, user := none })))
      Key.LAST_ATTEMPT_KEY = none := by
  decide

/-! ## C11: a failed login -/

theorem legacy_handleFailedLogin_eq (s : Store) (later : Nat) (message : Option String)
    (n : Int) (hn : getLoginAttempts s = some n) :
    LegacyLogin.handleFailedLogin s later message =
      ((incrementLoginAttempts s later).1,
        if (MAX_LOGIN_ATTEMPTS : Int) ≤ n + 1 then
          LoginOutcome.nowLocked (some (some 5)) (some (some 300000))
        else LoginOutcome.retry message (some ((MAX_LOGIN_ATTEMPTS : Int) - (n + 1)))) := by
  have hspec := incrementLoginAttempts_facts s later
  obtain ⟨hret, hcount⟩ := hspec.2.2.2.2.2.1 n hn
  have hlast := hspec.2.2.2.1
  by_cases hlt : n + 1 < (MAX_LOGIN_ATTEMPTS : Int)
  · have hc := checkLockoutStatus_below _ later (n + 1) hcount hlt
    have hpos : (0 : Int) < (MAX_LOGIN_ATTEMPTS : Int) - (n + 1) := by omega
    simp only [LegacyLogin.handleFailedLogin, hc, hret, Bool.false_eq_true, if_false, jsSub,
      jsGt, jsLt, hpos, decide_True, if_true, if_neg (not_le.mpr hlt)]
  · have hge : (MAX_LOGIN_ATTEMPTS : Int) ≤ n + 1 := by omega
    have hc := checkLockoutStatus_reached _ later (n + 1) later hcount hge hlast
    have hno : ¬ (LOCKOUT_TIME : Int) ≤ (later : Int) - (later : Int) := by
      have : (LOCKOUT_TIME : Int) = 300000 := rfl
      omega
    rw [if_neg hno] at hc
    have h300 : (LOCKOUT_TIME : Int) - ((later : Int) - (later : Int)) = 300000 := by
      have : (LOCKOUT_TIME : Int) = 300000 := rfl
      omega
    rw [h300] at hc
    have h5 : ceilMinutes (some 300000) = some 5 := by decide
    simp only [LegacyLogin.handleFailedLogin, hc, if_true, if_pos hge, h5]

theorem legacy_handleLogin_of_refusal (s : Store) (now later : Nat) (form : LoginForm)
    (backend : String → String → HttpReply) (status : Option Nat) (message : Option String)
    (hunlocked : (authUtils.checkLockoutStatus s now).2.isLocked = false)
    (hvalid : validateInput (jsTrim form.username) form.password = true)
    (hfail : backend (jsTrim (jsTrim form.username)) form.password =
      HttpReply.failed status message) :
    (LegacyLogin.handleLogin s now later form backend).gatewayCalls =
      [(jsTrim form.username, form.password)] ∧
    ∃ text, (LegacyLogin.handleLogin s now later form backend).store =
        (LegacyLogin.handleFailedLogin
          (apiService.responseError (authUtils.checkLockoutStatus s now).1 status) later
          (some text)).1 ∧
      (LegacyLogin.handleLogin s now later form backend).outcome =
        (LegacyLogin.handleFailedLogin
          (apiService.responseError (authUtils.checkLockoutStatus s now).1 status) later
          (some text)).2 := by
  simp only [LegacyLogin.handleLogin, LegacyLogin.checkLockoutStatus, hunlocked, hvalid,
    LegacyLogin.authenticateUser, hfail, apiService.auth.login, Bool.false_eq_true, if_false,
    Bool.not_true]
  exact ⟨trivial, _, rfl, rfl⟩

theorem local_handleFailedLogin_eq (p : LoginPage.Counters) (s : Store) (later : Nat)
    (message : Option String) (n : Int) (hn : p.loginAttempts = some n) :
    LoginPage.handleFailedLogin p s later message =
      ({ loginAttempts := some (n + 1), lastAttempt := some (later : Int) },
        setItem (setItem s Key.LOGIN_ATTEMPTS_KEY (numberToString (some (n + 1))))
          Key.LAST_ATTEMPT_KEY (numberToString (some (later : Int))),
        if (3 : Int) ≤ n + 1 then LoginOutcome.nowLocked (some (some 5)) (some (some 300000))
        else LoginOutcome.retry message (some (3 - (n + 1)))) := by
  have hmax : ((LoginPage.config.maxAttempts : Nat) : Int) = 3 := rfl
  have hlock : ((LoginPage.config.lockoutTime : Nat) : Int) = 300000 := rfl
  have h5 : ceilMinutes (some 300000) = some 5 := by decide
  by_cases hge : (3 : Int) ≤ n + 1
  · simp only [LoginPage.handleFailedLogin, hn, jsAdd, jsGe, jsLe, hmax, hlock, hge, decide_True,
      if_true, h5]
  · simp only [LoginPage.handleFailedLogin, hn, jsAdd, jsGe, jsLe, hmax, hge, decide_False,
      Bool.false_eq_true, if_false, jsSub]

/-- C11: for every login that the authentication operation refuses on an
unlocked account whose failed-attempt count is a number `n`, the login flow
makes one authentication call, increments the count once (the stored count
becomes `n + 1` and the last-attempt time the time of the failure), reports
that the account is now locked if and only if `n + 1` has reached
`MAX_LOGIN_ATTEMPTS`, and otherwise reports `MAX_LOGIN_ATTEMPTS - (n + 1)`
remaining attempts, a number that is at least 1: on the `authUtils` page
(src/frontend/legacy_login/login.js) and on the page with its own counters
(src/frontend/login.js). -/
theorem failed_login_counts_once (s : Store) (now later : Nat) (form : LoginForm) (n : Int) :
    (∀ (backend : String → String → HttpReply) (status : Option Nat) (message : Option String),
      (authUtils.checkLockoutStatus s now).2.isLocked = false →
      validateInput (jsTrim form.username) form.password = true →
      backend (jsTrim (jsTrim form.username)) form.password = HttpReply.failed status message →
      getLoginAttempts (authUtils.checkLockoutStatus s now).1 = some n →
        (LegacyLogin.handleLogin s now later form backend).gatewayCalls =
          [(jsTrim form.username, form.password)] ∧
        (LegacyLogin.handleLogin s now later form backend).store =
          (incrementLoginAttempts
            (apiService.responseError (authUtils.checkLockoutStatus s now).1 status) later).1 ∧
        getLoginAttempts (LegacyLogin.handleLogin s now later form backend).store =
          some (n + 1) ∧
        storedLastAttempt (LegacyLogin.handleLogin s now later form backend).store =
          some (later : Int) ∧
        ((∃ m t, (LegacyLogin.handleLogin s now later form backend).outcome =
            LoginOutcome.nowLocked m t) ↔ (MAX_LOGIN_ATTEMPTS : Int) ≤ n + 1) ∧
        (n + 1 < (MAX_LOGIN_ATTEMPTS : Int) →
          (∃ text, (LegacyLogin.handleLogin s now later form backend).outcome =
            LoginOutcome.retry text (some ((MAX_LOGIN_ATTEMPTS : Int) - (n + 1)))) ∧
          1 ≤ (MAX_LOGIN_ATTEMPTS : Int) - (n + 1))) ∧
    (∀ (p : LoginPage.Counters) (drawn : LoginPage.Drawn),
      (LoginPage.checkLockoutStatus p s now).locked = false →
      validateInput (jsTrim form.username) form.password = true →
      (LoginPage.authenticateUser drawn (jsTrim form.username) form.password).success = false →
      (LoginPage.checkLockoutStatus p s now).counters.loginAttempts = some n →
        (LoginPage.handleLogin p s now later form drawn).2.gatewayCalls =
          [(jsTrim form.username, form.password)] ∧
        (LoginPage.handleLogin p s now later form drawn).1.loginAttempts = some (n + 1) ∧
        getItem (LoginPage.handleLogin p s now later form drawn).2.store
          Key.LOGIN_ATTEMPTS_KEY = some (numberToString (some (n + 1))) ∧
        getItem (LoginPage.handleLogin p s now later form drawn).2.store
          Key.LAST_ATTEMPT_KEY = some (numberToString (some (later : Int))) ∧
        ((∃ m t, (LoginPage.handleLogin p s now later form drawn).2.outcome =
            LoginOutcome.nowLocked m t) ↔ (3 : Int) ≤ n + 1) ∧
        (n + 1 < (3 : Int) →
          (∃ text, (LoginPage.handleLogin p s now later form drawn).2.outcome =
            LoginOutcome.retry text (some (3 - (n + 1)))) ∧
          1 ≤ (3 : Int) - (n + 1))) := by
  constructor
  · intro backend status message hunlocked hvalid hfail hn
    obtain ⟨hcalls, text, hstore, hout⟩ :=
      legacy_handleLogin_of_refusal s now later form backend status message hunlocked hvalid hfail
    have hn1 : getLoginAttempts
        (apiService.responseError (authUtils.checkLockoutStatus s now).1 status) = some n := by
      rw [← hn]
      exact getLoginAttempts_congr _ _
        (getItem_responseError_of_ne _ _ _ (by simp) (by simp) (by simp))
    have hf := legacy_handleFailedLogin_eq _ later (some text) n hn1
    rw [hf] at hstore hout
    have hspec := incrementLoginAttempts_facts
      (apiService.responseError (authUtils.checkLockoutStatus s now).1 status) later
    refine ⟨hcalls, hstore, ?_, ?_, ?_, ?_⟩
    · rw [hstore]; exact (hspec.2.2.2.2.2.1 n hn1).2
    · rw [hstore]; exact hspec.2.2.2.1
    · rw [hout]
      by_cases hge : (MAX_LOGIN_ATTEMPTS : Int) ≤ n + 1
      · simp [hge]
      · simp [hge]
    · intro hlt
      rw [hout, if_neg (not_le.mpr hlt)]
      exact ⟨⟨_, rfl⟩, by omega⟩
  · intro p drawn hunlocked hvalid hfail hn
    have hf := local_handleFailedLogin_eq (LoginPage.checkLockoutStatus p s now).counters
      (LoginPage.checkLockoutStatus p s now).store later
      (LoginPage.authenticateUser drawn (jsTrim form.username) form.password).message n hn
    have hrun : LoginPage.handleLogin p s now later form drawn =
        ((LoginPage.handleFailedLogin (LoginPage.checkLockoutStatus p s now).counters
            (LoginPage.checkLockoutStatus p s now).store later
            (LoginPage.authenticateUser drawn (jsTrim form.username) form.password).message).1,
          { store := (LoginPage.handleFailedLogin (LoginPage.checkLockoutStatus p s now).counters
              (LoginPage.checkLockoutStatus p s now).store later
              (LoginPage.authenticateUser drawn (jsTrim form.username)
                form.password).message).2.1,
            gatewayCalls := [(jsTrim form.username, form.password)],
            outcome := (LoginPage.handleFailedLogin
              (LoginPage.checkLockoutStatus p s now).counters
              (LoginPage.checkLockoutStatus p s now).store later
              (LoginPage.authenticateUser drawn (jsTrim form.username)
                form.password).message).2.2 }) := by
      simp [LoginPage.handleLogin, hunlocked, hvalid, hfail]
    rw [hrun, hf]
    refine ⟨rfl, rfl, ?_, ?_, ?_, ?_⟩
    · simp
    · simp
    · by_cases hge : (3 : Int) ≤ n + 1
      · simp [hge]
      · simp [hge]
    · intro hlt
      simp only [if_neg (not_le.mpr hlt)]
      exact ⟨⟨_, rfl⟩, by omega⟩

/-- Witness of C11: on both pages, a refused login over two failed attempts
locks the account, and a refused login over no failed attempt leaves two
attempts. -/
theorem failed_login_counts_once_witness :
    getLoginAttempts (LegacyLogin.handleLogin twoFailuresStore 5000 5200
      { username := "admin", password := "wrong", rememberMe := false }
      refusingBackend).store = some (2 + 1) ∧
    (∃ text, (LoginPage.handleLogin (LoginPage.loadCounters emptyStore) emptyStore 5000 5200
      { username := "admin", password := "wrong", rememberMe := false }
      { token := "T", id := "I", lastLogin := "L" }).2.outcome =
        LoginOutcome.retry text (some (3 - (0 + 1)))) :=
  ⟨((failed_login_counts_once twoFailuresStore 5000 5200 _ 2).1 refusingBackend (some 401) none
      (by decide) (by decide) (by decide) (by decide)).2.2.1,
   ((((failed_login_counts_once emptyStore 5000 5200 _ 0).2 _ _
      (by decide) (by decide) (by decide) (by decide)).2.2.2.2.2) (by decide)).1⟩

/-! ## C16 to C19: `refreshTokenIfNeeded` -/

theorem getSession_some (s : Store) (now : Nat) (session : Session)
    (h : (getSession s now).2 = some session) :
    getSession s now = (s, some session) ∧ session.expiry = storedExpiry s ∧
      sessionRecordStored s = true := by
  by_cases hrec : sessionRecordStored s = true
  · obtain ⟨t, e, u, ht, he, hu, ht0, he0, hu0⟩ := (sessionRecordStored_iff s).mp hrec
    rw [getSession_of_record s now t e u ht he hu ht0 he0 hu0] at h ⊢
    by_cases h1 : jsLe (parseInt e) (some (now : Int)) = true
    · simp [h1] at h
    · by_cases h2 : jsonParses u = true
      · rw [if_neg h1, if_pos h2] at h ⊢
        simp only [Option.some.injEq] at h
        subst h
        exact ⟨rfl, by simp [storedExpiry, he], hrec⟩
      · simp [h1, h2] at h
  · have hfalse : sessionRecordStored s = false := by simpa using hrec
    rw [getSession_of_no_record s now hfalse] at h
    exact Option.noConfusion h

theorem getSession_of_valid (s : Store) (now : Nat) (h : (isAuthenticated s now).2 = true) :
    ∃ session, getSession s now = (s, some session) ∧ session.expiry = storedExpiry s := by
  simp only [isAuthenticated, Option.isSome_iff_exists] at h
  obtain ⟨session, hs⟩ := h
  exact ⟨session, (getSession_some s now session hs).1, (getSession_some s now session hs).2.1⟩

theorem getSession_of_invalid (s : Store) (now : Nat) (h : (isAuthenticated s now).2 = false) :
    (getSession s now).2 = none := by
  simpa [isAuthenticated] using h

theorem refreshCompletion_calls (s : Store) (later : Nat) (calls : List String)
    (result : LoginResult) : (refreshCompletion s later calls result).gatewayCalls = calls := by
  unfold refreshCompletion
  split_ifs
  · split
    · rfl
    · dsimp only
      split <;> rfl
  · rfl

/-- The paths of `refreshTokenIfNeeded()`: it returns without a call, leaving
the store as `getSession()` left it; or a valid session and a refresh token are
stored, and it makes one call, with that token, whose end decides the rest. -/
theorem refreshTokenIfNeeded_paths (s : Store) (now later : Nat) (gateway : String → Awaited) :
    ((refreshTokenIfNeeded s now later gateway).gatewayCalls = [] ∧
      (refreshTokenIfNeeded s now later gateway).store = (getSession s now).1) ∨
    (∃ t, getItem s Key.REFRESH_TOKEN_KEY = some t ∧ t ≠ "" ∧
      (isAuthenticated s now).2 = true ∧
      (refreshTokenIfNeeded s now later gateway).gatewayCalls = [t] ∧
      ((gateway t = Awaited.rejected ∧
          (refreshTokenIfNeeded s now later gateway).store = clearSession s ∧
          (refreshTokenIfNeeded s now later gateway).result = false) ∨
       (∃ reply, gateway t = Awaited.answered reply ∧
          (refreshTokenIfNeeded s now later gateway).store =
            (refreshCompletion (apiService.auth.refreshToken s reply).1 later [t]
              (apiService.auth.refreshToken s reply).2).store ∧
          (refreshTokenIfNeeded s now later gateway).result =
            (refreshCompletion (apiService.auth.refreshToken s reply).1 later [t]
              (apiService.auth.refreshToken s reply).2).result))) := by
  cases hg : (getSession s now).2 with
  | none =>
    left
    have hrun : refreshTokenIfNeeded s now later gateway =
        { store := (getSession s now).1, gatewayCalls := [], result := false } := by
      simp only [refreshTokenIfNeeded, hg]
    rw [hrun]
    exact ⟨rfl, rfl⟩
  | some session =>
    obtain ⟨hgs, -, -⟩ := getSession_some s now session hg
    have hauth : (isAuthenticated s now).2 = true := by simp [isAuthenticated, hg]
    by_cases hfar : jsGt (jsSub session.expiry (some (now : Int)))
        (some (REFRESH_THRESHOLD : Int)) = true
    · left
      have hrun : refreshTokenIfNeeded s now later gateway =
          { store := s, gatewayCalls := [], result := true } := by
        simp only [refreshTokenIfNeeded, hgs, hfar, if_true]
      rw [hrun, hgs]
      exact ⟨rfl, rfl⟩
    · by_cases htok : truthy (getItem s Key.REFRESH_TOKEN_KEY) = true
      · right
        obtain ⟨t, ht, ht0⟩ := (truthy_eq_true_iff _).mp htok
        have htr : truthy (some t) = true := by rw [← ht]; exact htok
        refine ⟨t, ht, ht0, hauth, ?_⟩
        cases hgw : gateway t with
        | rejected =>
          have hrun : refreshTokenIfNeeded s now later gateway =
              { store := clearSession s, gatewayCalls := [t], result := false } := by
            simp only [refreshTokenIfNeeded, hgs, hfar, ht, htr, storedText, hgw, Bool.not_true,
              Bool.false_eq_true, if_false]
          rw [hrun]
          exact ⟨rfl, Or.inl ⟨rfl, rfl, rfl⟩⟩
        | answered reply =>
          have hrun : refreshTokenIfNeeded s now later gateway =
              refreshCompletion (apiService.auth.refreshToken s reply).1 later [t]
                (apiService.auth.refreshToken s reply).2 := by
            simp only [refreshTokenIfNeeded, hgs, hfar, ht, htr, storedText, hgw, Bool.not_true,
              Bool.false_eq_true, if_false]
          rw [hrun]
          exact ⟨refreshCompletion_calls _ _ _ _, Or.inr ⟨reply, rfl, rfl, rfl⟩⟩
      · left
        have htok0 : truthy (getItem s Key.REFRESH_TOKEN_KEY) = false := by simpa using htok
        have hrun : refreshTokenIfNeeded s now later gateway =
            { store := s, gatewayCalls := [], result := false } := by
          simp only [refreshTokenIfNeeded, hgs, hfar, htok0, Bool.not_false, if_true,
            Bool.false_eq_true, if_false]
        rw [hrun, hgs]
        exact ⟨rfl, rfl⟩

theorem refreshTokenIfNeeded_of_session (s : Store) (now later : Nat)
    (gateway : String → Awaited) (e : Int) (hvalid : (isAuthenticated s now).2 = true)
    (hexp : storedExpiry s = some e) :
    ((REFRESH_THRESHOLD : Int) < e - (now : Int) →
      (refreshTokenIfNeeded s now later gateway).result = true ∧
      (refreshTokenIfNeeded s now later gateway).gatewayCalls = [] ∧
      (refreshTokenIfNeeded s now later gateway).store = s) ∧
    (e - (now : Int) ≤ (REFRESH_THRESHOLD : Int) →
      truthy (getItem s Key.REFRESH_TOKEN_KEY) = false →
      (refreshTokenIfNeeded s now later gateway).result = false ∧
      (refreshTokenIfNeeded s now later gateway).gatewayCalls = [] ∧
      (refreshTokenIfNeeded s now later gateway).store = s) ∧
    (e - (now : Int) ≤ (REFRESH_THRESHOLD : Int) →
      ∀ t, getItem s Key.REFRESH_TOKEN_KEY = some t → t ≠ "" →
      (refreshTokenIfNeeded s now later gateway).gatewayCalls = [t]) := by
  obtain ⟨session, hgs, hse⟩ := getSession_of_valid s now hvalid
  rw [hexp] at hse
  refine ⟨fun hfar => ?_, fun hnear htok => ?_, fun hnear t ht ht0 => ?_⟩
  · have hrun : refreshTokenIfNeeded s now later gateway =
        { store := s, gatewayCalls := [], result := true } := by
      simp only [refreshTokenIfNeeded, hgs, hse, jsSub, jsGt, jsLt, hfar, decide_True, if_true]
    rw [hrun]
    exact ⟨rfl, rfl, rfl⟩
  · have hnot : ¬ (REFRESH_THRESHOLD : Int) < e - (now : Int) := by omega
    have hrun : refreshTokenIfNeeded s now later gateway =
        { store := s, gatewayCalls := [], result := false } := by
      simp only [refreshTokenIfNeeded, hgs, hse, jsSub, jsGt, jsLt, hnot, decide_False, htok,
        Bool.not_false, if_true, Bool.false_eq_true, if_false]
    rw [hrun]
    exact ⟨rfl, rfl, rfl⟩
  · rcases refreshTokenIfNeeded_paths s now later gateway with ⟨hcalls, -⟩ | ⟨t1, ht1, -, -, hc, -⟩
    · exfalso
      have hnot : ¬ (REFRESH_THRESHOLD : Int) < e - (now : Int) := by omega
      have htr : truthy (some t) = true := (truthy_eq_true_iff _).mpr ⟨t, rfl, ht0⟩
      have hne : (refreshTokenIfNeeded s now later gateway).gatewayCalls ≠ [] := by
        simp only [refreshTokenIfNeeded, hgs, hse, jsSub, jsGt, jsLt, hnot, decide_False, ht,
          htr, Bool.not_true, Bool.false_eq_true, if_false, storedText]
        split
        · simp
        · rw [refreshCompletion_calls]; simp
      exact hne hcalls
    · rw [ht] at ht1
      rw [hc, Option.some.inj ht1]

/-- C16 (amended): for every store with a valid session and `expiresAt - now >
REFRESH_THRESHOLD`, `refreshTokenIfNeeded()` returns true, performs no gateway
call and leaves the store unchanged. With a valid session, `expiresAt - now <=
REFRESH_THRESHOLD` and a stored refresh token it performs exactly one gateway
refresh call, with that token. When no valid session is stored, or the session
is that close to expiry and no refresh token is stored, it performs no gateway
call and returns false. -/
theorem refreshTokenIfNeeded_gateway_calls (s : Store) (now later : Nat)
    (gateway : String → Awaited) :
    (∀ e : Int, (isAuthenticated s now).2 = true → storedExpiry s = some e →
      (REFRESH_THRESHOLD : Int) < e - (now : Int) →
        (refreshTokenIfNeeded s now later gateway).result = true ∧
        (refreshTokenIfNeeded s now later gateway).gatewayCalls = [] ∧
        (refreshTokenIfNeeded s now later gateway).store = s) ∧
    (∀ (e : Int) (t : String), (isAuthenticated s now).2 = true → storedExpiry s = some e →
      e - (now : Int) ≤ (REFRESH_THRESHOLD : Int) →
      getItem s Key.REFRESH_TOKEN_KEY = some t → t ≠ "" →
        (refreshTokenIfNeeded s now later gateway).gatewayCalls = [t]) ∧
    ((isAuthenticated s now).2 = false →
        (refreshTokenIfNeeded s now later gateway).gatewayCalls = [] ∧
        (refreshTokenIfNeeded s now later gateway).result = false) ∧
    (∀ e : Int, (isAuthenticated s now).2 = true → storedExpiry s = some e →
      e - (now : Int) ≤ (REFRESH_THRESHOLD : Int) →
      truthy (getItem s Key.REFRESH_TOKEN_KEY) = false →
        (refreshTokenIfNeeded s now later gateway).gatewayCalls = [] ∧
        (refreshTokenIfNeeded s now later gateway).result = false) := by
  refine ⟨fun e hv he hfar => ?_, fun e t hv he hnear ht ht0 => ?_, fun hinv => ?_,
    fun e hv he hnear htok => ?_⟩
  · exact (refreshTokenIfNeeded_of_session s now later gateway e hv he).1 hfar
  · exact (refreshTokenIfNeeded_of_session s now later gateway e hv he).2.2 hnear t ht ht0
  · have hg := getSession_of_invalid s now hinv
    have hrun : refreshTokenIfNeeded s now later gateway =
        { store := (getSession s now).1, gatewayCalls := [], result := false } := by
      simp only [refreshTokenIfNeeded, hg]
    rw [hrun]
    exact ⟨rfl, rfl⟩
  · have h := (refreshTokenIfNeeded_of_session s now later gateway e hv he).2.1 hnear htok
    exact ⟨h.2.1, h.1⟩

/-- Witness of C16 (amended): a session that expires at 2000000, checked at
time 1000, is left alone; the session of `sessionStore`, which expires at 2000
and has the refresh token `ref`, leads to one call with that token. -/
theorem refreshTokenIfNeeded_gateway_calls_witness :
    (refreshTokenIfNeeded freshSessionStore 1000 1100 refusingGateway).result = true ∧
    (refreshTokenIfNeeded freshSessionStore 1000 1100 refusingGateway).gatewayCalls = [] ∧
    (refreshTokenIfNeeded sessionStore 1000 1100 refusingGateway).gatewayCalls = ["ref"] :=
  ⟨((refreshTokenIfNeeded_gateway_calls freshSessionStore 1000 1100 refusingGateway).1 2000000
      (by decide) (by decide) (by decide)).1,
   ((refreshTokenIfNeeded_gateway_calls freshSessionStore 1000 1100 refusingGateway).1 2000000
      (by decide) (by decide) (by decide)).2.1,
   (refreshTokenIfNeeded_gateway_calls sessionStore 1000 1100 refusingGateway).2.1 2000 "ref"
      (by decide) (by decide) (by decide) (by decide) (by decide)⟩

/-- C16 (counterexample): with no session stored, and with a session close to
expiry but no refresh token stored, `refreshTokenIfNeeded()` is not in its
no-operation case (it returns false) and yet makes no gateway call. -/
theorem refreshTokenIfNeeded_without_call :
    (isAuthenticated emptyStore 1000).2 = false ∧
    (refreshTokenIfNeeded emptyStore 1000 1100 tokenDataGateway).result = false ∧
    (refreshTokenIfNeeded emptyStore 1000 1100 tokenDataGateway).gatewayCalls = [] ∧
    (isAuthenticated sessionWithoutRefreshStore 1000).2 = true ∧
    storedExpiry sessionWithoutRefreshStore = some 2000 ∧
    (refreshTokenIfNeeded sessionWithoutRefreshStore 1000 1100 tokenDataGateway).result = false ∧
    (refreshTokenIfNeeded sessionWithoutRefreshStore 1000 1100 tokenDataGateway).gatewayCalls
      = [] := by
  decide

/-- C17 (amended): for every store holding a valid session within
`REFRESH_THRESHOLD` of its expiry and no refresh token, `refreshTokenIfNeeded()`
returns false, performs no gateway call and leaves the store unchanged: the
session record stays stored and `isAuthenticated()` is still true. -/
theorem refresh_without_token_keeps_session (s : Store) (now later : Nat)
    (gateway : String → Awaited) (expiresAt : Int)
    (hvalid : (isAuthenticated s now).2 = true) (hexp : storedExpiry s = some expiresAt)
    (hnear : expiresAt - (now : Int) ≤ (REFRESH_THRESHOLD : Int))
    (htok : truthy (getItem s Key.REFRESH_TOKEN_KEY) = false) :
    (refreshTokenIfNeeded s now later gateway).result = false ∧
    (refreshTokenIfNeeded s now later gateway).gatewayCalls = [] ∧
    (refreshTokenIfNeeded s now later gateway).store = s ∧
    sessionRecordStored (refreshTokenIfNeeded s now later gateway).store = true ∧
    (isAuthenticated (refreshTokenIfNeeded s now later gateway).store now).2 = true := by
  obtain ⟨h1, h2, h3⟩ :=
    (refreshTokenIfNeeded_of_session s now later gateway expiresAt hvalid hexp).2.1 hnear htok
  obtain ⟨session, hgs, -⟩ := getSession_of_valid s now hvalid
  have hrec := (getSession_some s now session (by rw [hgs])).2.2
  rw [h3]
  exact ⟨h1, h2, rfl, hrec, hvalid⟩

/-- Witness of C17 (amended): the session of `sessionWithoutRefreshStore`,
which expires at 2000, at time 1000. -/
theorem refresh_without_token_keeps_session_witness :
    (refreshTokenIfNeeded sessionWithoutRefreshStore 1000 1100 refusingGateway).result = false ∧
    (refreshTokenIfNeeded sessionWithoutRefreshStore 1000 1100 refusingGateway).store =
      sessionWithoutRefreshStore :=
  ⟨(refresh_without_token_keeps_session sessionWithoutRefreshStore 1000 1100 refusingGateway
      2000 (by decide) (by decide) (by decide) (by decide)).1,
   (refresh_without_token_keeps_session sessionWithoutRefreshStore 1000 1100 refusingGateway
      2000 (by decide) (by decide) (by decide) (by decide)).2.2.1⟩

/-- C17 (counterexample): in `sessionWithoutRefreshStore` a valid session is
within `REFRESH_THRESHOLD` of its expiry 2000 at time 1000 and no refresh token
is stored; after `refreshTokenIfNeeded()` the session record is still stored
and `isAuthenticated()` is still true. -/
theorem refresh_without_token_does_not_end_session :
    (isAuthenticated sessionWithoutRefreshStore 1000).2 = true ∧
    getItem sessionWithoutRefreshStore Key.REFRESH_TOKEN_KEY = none ∧
    sessionRecordStored
      (refreshTokenIfNeeded sessionWithoutRefreshStore 1000 1100 tokenDataGateway).store = true ∧
    (isAuthenticated
      (refreshTokenIfNeeded sessionWithoutRefreshStore 1000 1100 tokenDataGateway).store
      1000).2 = true := by
  decide

theorem saveSession_threw_of_no_user (s : Store) (now : Nat) (authData : AuthData)
    (rememberMe : Bool) (hu : authData.user = none) :
    (saveSession s now authData rememberMe).2 = Completion.threw JsError.typeError := by
  cases rememberMe <;> simp [saveSession, hu]

theorem refreshCompletion_of_failure (s : Store) (later : Nat) (calls : List String)
    (result : LoginResult) (h : result.success = false) :
    refreshCompletion s later calls result =
      { store := clearSession s, gatewayCalls := calls, result := false } := by
  simp only [refreshCompletion, h, Bool.false_eq_true, if_false]

/-- Whenever `refreshTokenIfNeeded()` makes its call and the gateway answers it
with token data that carries no user object, `saveSession` throws, the `catch`
clears the session, and false is returned. -/
theorem refresh_with_token_data_ends_session (s : Store) (now later : Nat)
    (gateway : String → Awaited) (t : String) (data : AuthData)
    (hcall : (refreshTokenIfNeeded s now later gateway).gatewayCalls = [t])
    (hgw : gateway t = Awaited.answered (HttpReply.ok data)) (hu : data.user = none) :
    (refreshTokenIfNeeded s now later gateway).result = false ∧
    sessionRecordStored (refreshTokenIfNeeded s now later gateway).store = false := by
  rcases refreshTokenIfNeeded_paths s now later gateway with ⟨h0, -⟩ | ⟨t1, -, -, -, hc, hrest⟩
  · rw [h0] at hcall
    exact absurd hcall (by simp)
  · rw [hc] at hcall
    have ht : t1 = t := by simpa using hcall
    subst ht
    rcases hrest with ⟨hrej, -, -⟩ | ⟨reply, hans, hstore, hres⟩
    · rw [hgw] at hrej
      exact Awaited.noConfusion hrej
    · rw [hgw] at hans
      have hreply : reply = HttpReply.ok data := (Awaited.answered.inj hans).symm
      subst hreply
      have hthrew := saveSession_threw_of_no_user s later data
        (decide (getItem s Key.REMEMBER_ME_KEY = some "true")) hu
      have hcomp : refreshCompletion (apiService.auth.refreshToken s (HttpReply.ok data)).1 later
          [t1] (apiService.auth.refreshToken s (HttpReply.ok data)).2 =
          { store := clearSession (saveSession s later data
              (decide (getItem s Key.REMEMBER_ME_KEY = some "true"))).1,
            gatewayCalls := [t1], result := false } := by
        simp only [refreshCompletion, apiService.auth.refreshToken, if_true, hthrew]
      rw [hstore, hres, hcomp]
      refine ⟨rfl, ?_⟩
      simp [sessionRecordStored, getItem_clearSession, truthy]

/-- C18 (the code at the failing input): a valid session close to its expiry
and the refresh token `ref` are stored, the gateway answers the refresh with
new token data (`access_token`, `refresh_token`, no user object), and
`refreshTokenIfNeeded()` makes the call, returns false and leaves no session
record, with the remember-me flag set (`fullStore`) and without it
(`sessionStore`). -/
theorem accepted_refresh_ends_session :
    (isAuthenticated fullStore 1000).2 = true ∧
    (refreshTokenIfNeeded fullStore 1000 1100 tokenDataGateway).gatewayCalls = ["ref"] ∧
    (refreshTokenIfNeeded fullStore 1000 1100 tokenDataGateway).result = false ∧
    sessionRecordStored (refreshTokenIfNeeded fullStore 1000 1100 tokenDataGateway).store
      = false ∧
    (isAuthenticated sessionStore 1000).2 = true ∧
    (refreshTokenIfNeeded sessionStore 1000 1100 tokenDataGateway).gatewayCalls = ["ref"] ∧
    (refreshTokenIfNeeded sessionStore 1000 1100 tokenDataGateway).result = false ∧
    sessionRecordStored (refreshTokenIfNeeded sessionStore 1000 1100 tokenDataGateway).store
      = false ∧
    (isAuthenticated (refreshTokenIfNeeded sessionStore 1000 1100 tokenDataGateway).store
      1100).2 = false := by
  decide

/-- C19: for every store in which `refreshTokenIfNeeded()` attempts a refresh
(it makes its gateway call, with the stored refresh token `t`), if the gateway
answers the call with a failure, so that the service returns `success =
false`, or the awaited call rejects, then `refreshTokenIfNeeded()` returns
false, afterwards no session record is stored (session token, refresh token,
user data and expiry are absent), and the failed-attempt count and the
last-attempt time are as they were. -/
theorem failed_refresh_ends_session (s : Store) (now later : Nat) (gateway : String → Awaited)
    (t : String) (hcall : (refreshTokenIfNeeded s now later gateway).gatewayCalls = [t])
    (hfail : (∃ status message, gateway t = Awaited.answered (HttpReply.failed status message)) ∨
      gateway t = Awaited.rejected) :
    (refreshTokenIfNeeded s now later gateway).result = false ∧
    getItem (refreshTokenIfNeeded s now later gateway).store Key.TOKEN_KEY = none ∧
    getItem (refreshTokenIfNeeded s now later gateway).store Key.REFRESH_TOKEN_KEY = none ∧
    getItem (refreshTokenIfNeeded s now later gateway).store Key.USER_DATA_KEY = none ∧
    getItem (refreshTokenIfNeeded s now later gateway).store Key.EXPIRY_KEY = none ∧
    sessionRecordStored (refreshTokenIfNeeded s now later gateway).store = false ∧
    getItem (refreshTokenIfNeeded s now later gateway).store Key.LOGIN_ATTEMPTS_KEY =
      getItem s Key.LOGIN_ATTEMPTS_KEY ∧
    getItem (refreshTokenIfNeeded s now later gateway).store Key.LAST_ATTEMPT_KEY =
      getItem s Key.LAST_ATTEMPT_KEY := by
  have hclear : ∀ s1 : Store,
      getItem s1 Key.LOGIN_ATTEMPTS_KEY = getItem s Key.LOGIN_ATTEMPTS_KEY →
      getItem s1 Key.LAST_ATTEMPT_KEY = getItem s Key.LAST_ATTEMPT_KEY →
      getItem (clearSession s1) Key.TOKEN_KEY = none ∧
      getItem (clearSession s1) Key.REFRESH_TOKEN_KEY = none ∧
      getItem (clearSession s1) Key.USER_DATA_KEY = none ∧
      getItem (clearSession s1) Key.EXPIRY_KEY = none ∧
      sessionRecordStored (clearSession s1) = false ∧
      getItem (clearSession s1) Key.LOGIN_ATTEMPTS_KEY = getItem s Key.LOGIN_ATTEMPTS_KEY ∧
      getItem (clearSession s1) Key.LAST_ATTEMPT_KEY = getItem s Key.LAST_ATTEMPT_KEY := by
    intro s1 h1 h2
    simp [sessionRecordStored, getItem_clearSession, truthy, h1, h2]
  rcases refreshTokenIfNeeded_paths s now later gateway with ⟨h0, -⟩ | ⟨t1, -, -, -, hc, hrest⟩
  · rw [h0] at hcall
    exact absurd hcall (by simp)
  · rw [hc] at hcall
    have ht : t1 = t := by simpa using hcall
    subst ht
    rcases hrest with ⟨-, hstore, hres⟩ | ⟨reply, hans, hstore, hres⟩
    · rw [hstore, hres]
      exact ⟨rfl, hclear s rfl rfl⟩
    · rcases hfail with ⟨status, message, hf⟩ | hf
      · rw [hf] at hans
        have hreply : reply = HttpReply.failed status message := (Awaited.answered.inj hans).symm
        subst hreply
        have hcomp := refreshCompletion_of_failure
          (apiService.auth.refreshToken s (HttpReply.failed status message)).1 later [t1]
          (apiService.auth.refreshToken s (HttpReply.failed status message)).2 rfl
        rw [hstore, hres, hcomp]
        exact ⟨rfl, hclear _
          (getItem_responseError_of_ne _ _ _ (by simp) (by simp) (by simp))
          (getItem_responseError_of_ne _ _ _ (by simp) (by simp) (by simp))⟩
      · rw [hf] at hans
        exact Awaited.noConfusion hans

/-- Witness of C19: the refresh of `fullStore` at time 1000, refused by the
gateway with status 401: the session is gone, the three failed attempts stay. -/
theorem failed_refresh_ends_session_witness :
    (refreshTokenIfNeeded fullStore 1000 1100 refusingGateway).result = false ∧
    getItem (refreshTokenIfNeeded fullStore 1000 1100 refusingGateway).store
      Key.LOGIN_ATTEMPTS_KEY = some "3" :=
  ⟨(failed_refresh_ends_session fullStore 1000 1100 refusingGateway "ref" (by decide)
      (Or.inl ⟨some 401, none, rfl⟩)).1,
   (failed_refresh_ends_session fullStore 1000 1100 refusingGateway "ref" (by decide)
      (Or.inl ⟨some 401, none, rfl⟩)).2.2.2.2.2.2.1⟩

/-! ## C20: unparsable persisted data -/

/-- A stored record whose user data is not JSON is removed: `getSession()`
returns `null` and clears the session keys, whatever the expiry. -/
theorem getSession_of_corrupt_user_data (s : Store) (now : Nat) (u : String)
    (hrec : sessionRecordStored s = true) (hu : getItem s Key.USER_DATA_KEY = some u)
    (hbad : jsonParses u = false) :
    getSession s now = (clearSession s, none) ∧ (isAuthenticated s now).2 = false ∧
      sessionRecordStored (getSession s now).1 = false := by
  obtain ⟨t, e, u1, ht, he, hu1, ht0, he0, hu0⟩ := (sessionRecordStored_iff s).mp hrec
  rw [hu] at hu1
  have hu2 : u1 = u := (Option.some.inj hu1).symm
  subst hu2
  have hg : getSession s now = (clearSession s, none) := by
    rw [getSession_of_record s now t e u1 ht he hu ht0 he0 hu0]
    split_ifs <;> simp_all
  refine ⟨hg, by simp [isAuthenticated, hg], ?_⟩
  rw [hg]
  simp [sessionRecordStored, getItem_clearSession, truthy]

/-- C20 (the code at the failing input): `nanExpiryStore` holds a token, valid
user data and the expiry text `never`, which is not a number; `getSession()`
returns a session object whose expiry is `NaN`, `isAuthenticated()` is true, at
time 1000 and at any later time, and the record stays in the store. -/
theorem nan_expiry_is_accepted :
    storedExpiry nanExpiryStore = none ∧
    (getSession nanExpiryStore 1000).2 =
      some { token := "tok", expiry := none, user := "\x7b\"username\":\"admin\"\x7d",
             isValid := true } ∧
    (isAuthenticated nanExpiryStore 1000).2 = true ∧
    (isAuthenticated nanExpiryStore 8640000000000000).2 = true ∧
    sessionRecordStored (getSession nanExpiryStore 1000).1 = true ∧
    getItem (getSession nanExpiryStore 1000).1 Key.EXPIRY_KEY = some "never" := by
  decide

/-! ## What `saveSession` leaves under each key -/

/-- The token, user data and refresh token `saveSession` leaves: the first two
are written from the response, the refresh token only when the response
carries one. They are written before any statement that can throw. -/
theorem getItem_saveSession_record (s : Store) (now : Nat) (authData : AuthData)
    (rememberMe : Bool) :
    getItem (saveSession s now authData rememberMe).1 Key.TOKEN_KEY =
      some (storedText (jsOr authData.access_token authData.token)) ∧
    getItem (saveSession s now authData rememberMe).1 Key.USER_DATA_KEY =
      some (storedText (jsonStringifyUser authData.user)) ∧
    getItem (saveSession s now authData rememberMe).1 Key.REFRESH_TOKEN_KEY =
      if truthy authData.refresh_token then some (storedText authData.refresh_token)
      else getItem s Key.REFRESH_TOKEN_KEY := by
  cases hu : authData.user <;> cases rememberMe <;>
    by_cases hr : truthy authData.refresh_token = true <;>
    simp [saveSession, hu, hr, getItem_resetLoginAttempts]

/-- The remember-me keys after `saveSession` with `rememberMe = false`: both
are removed, whatever the response. -/
theorem getItem_saveSession_forget (s : Store) (now : Nat) (authData : AuthData) :
    getItem (saveSession s now authData false).1 Key.REMEMBER_ME_KEY = none ∧
    getItem (saveSession s now authData false).1 Key.SAVED_USERNAME_KEY = none := by
  cases hu : authData.user <;>
    by_cases hr : truthy authData.refresh_token = true <;>
    simp [saveSession, hu, hr, getItem_resetLoginAttempts]

/-- The remember-me keys after `saveSession` with `rememberMe = true`: the flag
is written, the saved username only when the response has a user object. -/
theorem getItem_saveSession_remember (s : Store) (now : Nat) (authData : AuthData) :
    getItem (saveSession s now authData true).1 Key.REMEMBER_ME_KEY = some "true" ∧
    getItem (saveSession s now authData true).1 Key.SAVED_USERNAME_KEY =
      match authData.user with
      | none => getItem s Key.SAVED_USERNAME_KEY
      | some user => some (storedText user.username) := by
  cases hu : authData.user <;>
    by_cases hr : truthy authData.refresh_token = true <;>
    simp [saveSession, hu, hr, getItem_resetLoginAttempts]

/-- The lockout keys after `saveSession`: both are removed, or (when the
`TypeError` comes before `resetLoginAttempts()`) both are as they were. -/
theorem getItem_saveSession_lockout (s : Store) (now : Nat) (authData : AuthData)
    (rememberMe : Bool) :
    (getItem (saveSession s now authData rememberMe).1 Key.LOGIN_ATTEMPTS_KEY = none ∧
      getItem (saveSession s now authData rememberMe).1 Key.LAST_ATTEMPT_KEY = none) ∨
    (getItem (saveSession s now authData rememberMe).1 Key.LOGIN_ATTEMPTS_KEY =
        getItem s Key.LOGIN_ATTEMPTS_KEY ∧
      getItem (saveSession s now authData rememberMe).1 Key.LAST_ATTEMPT_KEY =
        getItem s Key.LAST_ATTEMPT_KEY) := by
  cases hu : authData.user <;> cases rememberMe <;>
    by_cases hr : truthy authData.refresh_token = true <;>
    simp [saveSession, hu, hr, getItem_resetLoginAttempts]

/-- The completion of `saveSession`: it returns exactly when the response has
a user object. -/
theorem saveSession_returned_iff (s : Store) (now : Nat) (authData : AuthData)
    (rememberMe : Bool) :
    (saveSession s now authData rememberMe).2 = Completion.returned ↔ authData.user ≠ none := by
  cases hu : authData.user <;> cases rememberMe <;> simp [saveSession, hu]

/-- The remember-me data depends on the two remember-me keys only. -/
theorem getRememberMeData_congr (s1 s2 : Store)
    (h1 : getItem s1 Key.REMEMBER_ME_KEY = getItem s2 Key.REMEMBER_ME_KEY)
    (h2 : getItem s1 Key.SAVED_USERNAME_KEY = getItem s2 Key.SAVED_USERNAME_KEY) :
    getRememberMeData s1 = getRememberMeData s2 := by
  rw [getRememberMeData, getRememberMeData, h1, h2]

/-! ## C21: exceptions -/

/-- C21 (counterexample): `saveSession` on an auth response without a user
object does not return normally: reading `authData.user.username` raises a
`TypeError`. -/
theorem saveSession_raises_without_user :
    (saveSession emptyStore 1000 tokenOnlyResponse false).2 =
      Completion.threw JsError.typeError ∧
    (saveSession emptyStore 1000 tokenOnlyResponse true).2 =
      Completion.threw JsError.typeError := by
  decide

/-- The session `getSession()` returns is marked valid. -/
theorem getSession_isValid (s : Store) (now : Nat) (session : Session)
    (h : (getSession s now).2 = some session) : session.isValid = true := by
  obtain ⟨-, -, hrec⟩ := getSession_some s now session h
  obtain ⟨t, e, u, ht, he, hu, ht0, he0, hu0⟩ := (sessionRecordStored_iff s).mp hrec
  rw [getSession_of_record s now t e u ht he hu ht0 he0 hu0] at h
  split_ifs at h
  have hs : some ({ token := t, expiry := parseInt e, user := u, isValid := true } :
      Session) = some session := h
  rw [← Option.some.inj hs]

/-- As a call, `getSession()` returns what the model of `getSession()` gives:
the `catch` takes the `SyntaxError` of `JSON.parse`. -/
theorem calls_getSession_eq (s : Store) (now : Nat) :
    Calls.getSession s now = ((getSession s now).1, Outcome.returned (getSession s now).2) := by
  unfold Calls.getSession getSession
  split
  · rename_i token expiryStr userDataStr _ _ _
    by_cases h0 : token = "" ∨ expiryStr = "" ∨ userDataStr = ""
    · simp only [h0, if_true]
    · simp only [h0, if_false]
      by_cases hexp : jsLe (parseInt expiryStr) (some (now : Int)) = true
      · simp only [hexp, if_true]
      · simp only [hexp, if_false, Bool.false_eq_true]
        by_cases hj : jsonParses userDataStr = true
        · simp only [jsonParse, hj, if_true, tryCatch]
        · simp only [jsonParse, hj, if_false, Bool.false_eq_true, tryCatch]
  · rfl

/-- As a call, `isAuthenticated()` returns what its model gives. -/
theorem calls_isAuthenticated_eq (s : Store) (now : Nat) :
    Calls.isAuthenticated s now =
      ((isAuthenticated s now).1, Outcome.returned (isAuthenticated s now).2) := by
  unfold Calls.isAuthenticated
  rw [calls_getSession_eq]
  cases hg : (getSession s now).2 with
  | none => simp [isAuthenticated, hg]
  | some session =>
    simp [isAuthenticated, hg, getSession_isValid s now session hg]

/-- As a call, `refreshTokenIfNeeded()` resolves with what its model gives:
the `catch` takes a rejection of the awaited call and the `TypeError` of
`saveSession`. -/
theorem calls_refreshTokenIfNeeded_eq (s : Store) (now later : Nat)
    (gateway : String → Awaited) :
    Calls.refreshTokenIfNeeded s now later gateway =
      ((refreshTokenIfNeeded s now later gateway).store,
       Outcome.returned (refreshTokenIfNeeded s now later gateway).result) := by
  unfold Calls.refreshTokenIfNeeded
  rw [calls_getSession_eq]
  cases hg : (getSession s now).2 with
  | none => simp only [refreshTokenIfNeeded, hg]
  | some session =>
    by_cases hfar : jsGt (jsSub session.expiry (some (now : Int)))
        (some (REFRESH_THRESHOLD : Int)) = true
    · simp only [refreshTokenIfNeeded, hg, hfar, if_true]
    · by_cases htok : truthy (getItem (getSession s now).1 Key.REFRESH_TOKEN_KEY) = true
      · simp only [refreshTokenIfNeeded, hg, hfar, htok, Bool.not_true, Bool.false_eq_true,
          if_false]
        cases hgw : gateway (storedText (getItem (getSession s now).1 Key.REFRESH_TOKEN_KEY))
          with
        | rejected => simp only [tryCatch]
        | answered reply =>
          cases reply with
          | failed status message =>
            simp only [apiService.auth.refreshToken, refreshCompletion, Bool.false_eq_true,
              if_false, tryCatch]
          | ok data =>
            cases hc : (saveSession (getSession s now).1 later data
                (decide (getItem (getSession s now).1 Key.REMEMBER_ME_KEY = some "true"))).2
              with
            | returned =>
              have hpair : saveSession (getSession s now).1 later data
                  (decide (getItem (getSession s now).1 Key.REMEMBER_ME_KEY = some "true")) =
                  ((saveSession (getSession s now).1 later data
                    (decide (getItem (getSession s now).1 Key.REMEMBER_ME_KEY =
                      some "true"))).1, Completion.returned) := by
                rw [← hc]
              simp only [apiService.auth.refreshToken, refreshCompletion, if_true,
                Calls.saveSession, hc, tryCatch]
              rw [hpair]
            | threw error =>
              have hpair : saveSession (getSession s now).1 later data
                  (decide (getItem (getSession s now).1 Key.REMEMBER_ME_KEY = some "true")) =
                  ((saveSession (getSession s now).1 later data
                    (decide (getItem (getSession s now).1 Key.REMEMBER_ME_KEY =
                      some "true"))).1, Completion.threw error) := by
                rw [← hc]
              simp only [apiService.auth.refreshToken, refreshCompletion, if_true,
                Calls.saveSession, hc, tryCatch]
              rw [hpair]
      · have htok0 : truthy (getItem (getSession s now).1 Key.REFRESH_TOKEN_KEY) = false := by
          simpa using htok
        simp only [refreshTokenIfNeeded, hg, hfar, htok0, Bool.not_false, if_true,
          Bool.false_eq_true, if_false]

/-- C21 (amended): for every store state, time, remember-me choice and
behaviour of the gateway, none of `getSession`, `clearSession`,
`isAuthenticated`, `incrementLoginAttempts`, `checkLockoutStatus` and
`refreshTokenIfNeeded` raises an exception: as calls, with the `SyntaxError` of
`JSON.parse`, the rejection of the awaited gateway call and the `TypeError` of
`saveSession` as the exceptions that can arise, each returns the value and
leaves the store of its model. `saveSession` returns normally exactly when the
auth response carries a user object, with or without a token. -/
theorem session_manager_exceptions (s : Store) (now later : Nat) (authData : AuthData)
    (rememberMe : Bool) (gateway : String → Awaited) :
    ((Calls.saveSession s now authData rememberMe).2 = Outcome.returned () ↔
      authData.user ≠ none) ∧
    Calls.getSession s now = ((getSession s now).1, Outcome.returned (getSession s now).2) ∧
    Calls.clearSession s = (clearSession s, Outcome.returned ()) ∧
    Calls.isAuthenticated s now =
      ((isAuthenticated s now).1, Outcome.returned (isAuthenticated s now).2) ∧
    Calls.incrementLoginAttempts s now =
      ((incrementLoginAttempts s now).1, Outcome.returned (incrementLoginAttempts s now).2) ∧
    Calls.checkLockoutStatus s now =
      ((checkLockoutStatus s now).1, Outcome.returned (checkLockoutStatus s now).2) ∧
    Calls.refreshTokenIfNeeded s now later gateway =
      ((refreshTokenIfNeeded s now later gateway).store,
       Outcome.returned (refreshTokenIfNeeded s now later gateway).result) := by
  refine ⟨?_, calls_getSession_eq s now, rfl, calls_isAuthenticated_eq s now, rfl, rfl,
    calls_refreshTokenIfNeeded_eq s now later gateway⟩
  rw [← saveSession_returned_iff s now authData rememberMe]
  unfold Calls.saveSession
  cases hc : (saveSession s now authData rememberMe).2 with
  | returned =>
    have hpair : saveSession s now authData rememberMe =
        ((saveSession s now authData rememberMe).1, Completion.returned) := by rw [← hc]
    rw [hpair]
    simp
  | threw error =>
    have hpair : saveSession s now authData rememberMe =
        ((saveSession s now authData rememberMe).1, Completion.threw error) := by rw [← hc]
    rw [hpair]
    simp

/-! ## The stores the operations can leave -/

/-- Fact about `getSession()`: it leaves the store as it was or cleared of the session. -/
theorem getSession_store (s : Store) (now : Nat) :
    (getSession s now).1 = s ∨ (getSession s now).1 = clearSession s := by
  by_cases hrec : sessionRecordStored s = true
  · obtain ⟨t, e, u, ht, he, hu, ht0, he0, hu0⟩ := (sessionRecordStored_iff s).mp hrec
    rw [getSession_of_record s now t e u ht he hu ht0 he0 hu0]
    split_ifs
    · exact Or.inr rfl
    · exact Or.inl rfl
    · exact Or.inr rfl
  · have h0 : sessionRecordStored s = false := by simpa using hrec
    rw [getSession_of_no_record s now h0]
    exact Or.inl rfl

/-- Fact about `checkLockoutStatus()`: it leaves the store as it was or with the lockout
record reset. -/
theorem checkLockoutStatus_store (s : Store) (now : Nat) :
    (checkLockoutStatus s now).1 = s ∨ (checkLockoutStatus s now).1 = resetLoginAttempts s := by
  simp only [checkLockoutStatus]
  split_ifs
  · exact Or.inl rfl
  · exact Or.inr rfl
  · exact Or.inl rfl

/-- The stores the statements after the gateway call of `refreshTokenIfNeeded()`
can leave. -/
theorem refreshCompletion_store (s : Store) (later : Nat) (calls : List String)
    (result : LoginResult) :
    (refreshCompletion s later calls result).store = clearSession s ∨
    (result.success = true ∧ ∃ data, result.data = some data ∧
      ((refreshCompletion s later calls result).store =
          (saveSession s later data (decide (getItem s Key.REMEMBER_ME_KEY = some "true"))).1 ∨
       (refreshCompletion s later calls result).store =
          clearSession
            (saveSession s later data (decide (getItem s Key.REMEMBER_ME_KEY = some "true"))).1))
    := by
  unfold refreshCompletion
  by_cases hs : result.success = true
  · cases hd : result.data with
    | none => simp [hs]
    | some data =>
      right
      refine ⟨hs, data, rfl, ?_⟩
      cases hc : (saveSession s later data
          (decide (getItem s Key.REMEMBER_ME_KEY = some "true"))).2 <;>
        simp [hs, hc]
  · simp [hs]

/-- The stores `refreshTokenIfNeeded()` can leave: the store as it was, the
store cleared of the session (after a 401 possibly through the interceptor
first), or, when the gateway answered with success, the store `saveSession`
left, cleared of the session again when `saveSession` threw. -/
theorem refreshTokenIfNeeded_store (s : Store) (now later : Nat) (gateway : String → Awaited) :
    (refreshTokenIfNeeded s now later gateway).store = s ∨
    (refreshTokenIfNeeded s now later gateway).store = clearSession s ∨
    (∃ status, (refreshTokenIfNeeded s now later gateway).store =
        clearSession (apiService.responseError s status)) ∨
    (∃ t data, gateway t = Awaited.answered (HttpReply.ok data) ∧
      ((refreshTokenIfNeeded s now later gateway).store =
          (saveSession s later data (decide (getItem s Key.REMEMBER_ME_KEY = some "true"))).1 ∨
       (refreshTokenIfNeeded s now later gateway).store =
          clearSession
            (saveSession s later data (decide (getItem s Key.REMEMBER_ME_KEY = some "true"))).1))
    := by
  rcases refreshTokenIfNeeded_paths s now later gateway with ⟨-, hst⟩ | ⟨t, -, -, -, -, h⟩
  · rw [hst]
    rcases getSession_store s now with h | h
    · exact Or.inl h
    · exact Or.inr (Or.inl h)
  · rcases h with ⟨-, hst, -⟩ | ⟨reply, hgw, hst, -⟩
    · exact Or.inr (Or.inl hst)
    · rw [hst]
      cases reply with
      | failed status message =>
        right; right; left
        refine ⟨status, ?_⟩
        rw [refreshCompletion_of_failure _ _ _ _ (by rfl)]
        rfl
      | ok data =>
        rcases refreshCompletion_store (apiService.auth.refreshToken s (HttpReply.ok data)).1
          later [t] (apiService.auth.refreshToken s (HttpReply.ok data)).2 with h | ⟨-, d, hd, h⟩
        · exact Or.inr (Or.inl h)
        · right; right; right
          have hdd : d = data := by
            have : some data = some d := hd
            exact (Option.some.inj this).symm
          subst hdd
          exact ⟨t, d, hgw, h⟩

/-! ## C22: the remember-me preference `saveSession` stores -/

/-- C22 (counterexample): over a store that holds the saved username "bob",
`saveSession` with `rememberMe = true` and a response without a user object
enables the flag and leaves "bob" as the saved username: the `TypeError` of
`authData.user.username` comes before the username is written. -/
theorem saveSession_keeps_stale_username :
    getRememberMeData (saveSession savedUsernameStore 1000 tokenOnlyResponse true).1 =
      (true, some "bob") ∧
    (saveSession savedUsernameStore 1000 tokenOnlyResponse true).2 =
      Completion.threw JsError.typeError := by
  decide

/-- C22 (amended): for every store state and every auth response whose user
object has a username, `saveSession(authData, true)` leaves the remember-me
flag enabled and that username as the saved username; for every auth response,
`saveSession(authData, false)` leaves neither the flag nor a saved username in
the store. -/
theorem saveSession_remember_me (s : Store) (now : Nat) (authData : AuthData) :
    (∀ user name, authData.user = some user → user.username = some name →
      getRememberMeData (saveSession s now authData true).1 = (true, some name) ∧
      (saveSession s now authData true).2 = Completion.returned) ∧
    getRememberMeData (saveSession s now authData false).1 = (false, none) ∧
    getItem (saveSession s now authData false).1 Key.REMEMBER_ME_KEY = none ∧
    getItem (saveSession s now authData false).1 Key.SAVED_USERNAME_KEY = none := by
  obtain ⟨hf1, hf2⟩ := getItem_saveSession_forget s now authData
  obtain ⟨hr1, hr2⟩ := getItem_saveSession_remember s now authData
  refine ⟨?_, ?_, hf1, hf2⟩
  · intro user name hu hn
    rw [hu] at hr2
    have hr3 : getItem (saveSession s now authData true).1 Key.SAVED_USERNAME_KEY =
        some name := by
      rw [hr2]
      simp only [hn, storedText]
    constructor
    · rw [getRememberMeData, hr1, hr3]
      rfl
    · exact (saveSession_returned_iff s now authData true).mpr (by rw [hu]; exact fun h => nomatch h)
  · rw [getRememberMeData, hf1, hf2]
    rfl

/-! ## C23: what leaves the remember-me preference alone -/

/-- What leaves the remember-me preference as it is: `getRememberMeData()`
returns the same value before and after `clearSession`, `logout` (however its
request ends), `getSession` (lazy expiry and cleanup of corrupt data included),
`incrementLoginAttempts`, `resetLoginAttempts`, `checkLockoutStatus`, and a
`refreshTokenIfNeeded` whose gateway call is not answered with success (no
call, a failure, a rejection). The same holds for every `refreshTokenIfNeeded`
that returns false on a store whose saved username, if any, comes with the
enabled flag. -/
theorem rememberMe_preference_frame (s : Store) (now later : Nat) (reply : Awaited)
    (gateway : String → Awaited) :
    getRememberMeData (clearSession s) = getRememberMeData s ∧
    getRememberMeData (logout s reply) = getRememberMeData s ∧
    getRememberMeData (getSession s now).1 = getRememberMeData s ∧
    getRememberMeData (incrementLoginAttempts s now).1 = getRememberMeData s ∧
    getRememberMeData (resetLoginAttempts s) = getRememberMeData s ∧
    getRememberMeData (checkLockoutStatus s now).1 = getRememberMeData s ∧
    ((∀ t data, gateway t ≠ Awaited.answered (HttpReply.ok data)) →
      getRememberMeData (refreshTokenIfNeeded s now later gateway).store =
        getRememberMeData s) ∧
    ((refreshTokenIfNeeded s now later gateway).result = false →
      (getItem s Key.REMEMBER_ME_KEY = some "true" ∨
        getItem s Key.SAVED_USERNAME_KEY = none) →
      getRememberMeData (refreshTokenIfNeeded s now later gateway).store =
        getRememberMeData s) := by
  have hclear : ∀ x : Store, getRememberMeData (clearSession x) = getRememberMeData x := by
    intro x
    apply getRememberMeData_congr <;> simp [getItem_clearSession]
  have hreset : getRememberMeData (resetLoginAttempts s) = getRememberMeData s := by
    apply getRememberMeData_congr <;> simp [getItem_resetLoginAttempts]
  have hresp : ∀ status, getRememberMeData (apiService.responseError s status) =
      getRememberMeData s := by
    intro status
    apply getRememberMeData_congr <;>
      exact getItem_responseError_of_ne s status _ (by decide) (by decide) (by decide)
  refine ⟨hclear s, ?_, ?_, ?_, hreset, ?_, ?_, ?_⟩
  · apply getRememberMeData_congr <;> simp [getItem_logout]
  · rcases getSession_store s now with h | h <;> rw [h]
    exact hclear s
  · apply getRememberMeData_congr <;> simp [incrementLoginAttempts_store]
  · rcases checkLockoutStatus_store s now with h | h <;> rw [h]
    exact hreset
  · intro hgw
    rcases refreshTokenIfNeeded_store s now later gateway with h | h | ⟨status, h⟩ |
      ⟨t, data, hok, -⟩
    · rw [h]
    · rw [h]; exact hclear s
    · rw [h, hclear]; exact hresp status
    · exact absurd hok (hgw t data)
  · intro hres hpref
    rcases refreshTokenIfNeeded_paths s now later gateway with ⟨-, hst⟩ | ⟨t, -, -, -, -, h⟩
    · rw [hst]
      rcases getSession_store s now with h | h <;> rw [h]
      exact hclear s
    · rcases h with ⟨-, hst, -⟩ | ⟨reply, -, hst, hr⟩
      · rw [hst]; exact hclear s
      · rw [hst]
        rw [hr] at hres
        cases reply with
        | failed status message =>
          rw [refreshCompletion_of_failure _ _ _ _ (by rfl)]
          show getRememberMeData (clearSession (apiService.responseError s status)) = _
          rw [hclear]; exact hresp status
        | ok data =>
          have hcomp : ∀ c, (saveSession s later data
              (decide (getItem s Key.REMEMBER_ME_KEY = some "true"))).2 = c →
              refreshCompletion (apiService.auth.refreshToken s (HttpReply.ok data)).1 later [t]
                (apiService.auth.refreshToken s (HttpReply.ok data)).2 =
              match c with
              | Completion.returned =>
                { store := (saveSession s later data
                    (decide (getItem s Key.REMEMBER_ME_KEY = some "true"))).1,
                  gatewayCalls := [t], result := true }
              | Completion.threw _ =>
                { store := clearSession (saveSession s later data
                    (decide (getItem s Key.REMEMBER_ME_KEY = some "true"))).1,
                  gatewayCalls := [t], result := false } := by
            intro c hc
            simp only [refreshCompletion, apiService.auth.refreshToken, if_true, hc]
          cases hc : (saveSession s later data
              (decide (getItem s Key.REMEMBER_ME_KEY = some "true"))).2 with
          | returned =>
            rw [hcomp _ hc] at hres
            exact absurd hres (by simp)
          | threw err =>
            rw [hcomp _ hc]
            show getRememberMeData (clearSession _) = _
            rw [hclear]
            have hu : data.user = none := by
              by_contra hne
              rw [(saveSession_returned_iff s later data _).mpr hne] at hc
              exact Completion.noConfusion hc
            by_cases hflag : getItem s Key.REMEMBER_ME_KEY = some "true"
            · obtain ⟨h1, h2⟩ := getItem_saveSession_remember s later data
              rw [hu] at h2
              simp only [hflag, decide_True]
              exact getRememberMeData_congr _ _ (h1.trans hflag.symm) h2
            · obtain ⟨h1, h2⟩ := getItem_saveSession_forget s later data
              have hsaved : getItem s Key.SAVED_USERNAME_KEY = none := by
                rcases hpref with h | h
                · exact absurd h hflag
                · exact h
              simp only [hflag, decide_False]
              rw [getRememberMeData, getRememberMeData, h1, h2, hsaved]
              simp [hflag]

/-- C23 (the code at the failing input): the store holds a session that
expires at time 2000, the refresh token "ref", the saved username "bob" and no
remember-me flag; the gateway answers the refresh with new token data and no
user object. `refreshTokenIfNeeded()` at time 1000 makes its call and returns
false, and `getRememberMeData()` goes from (false, "bob") to (false, null):
`saveSession` removed the saved username before its `TypeError`. -/
theorem failed_refresh_drops_saved_username :
    getRememberMeData savedUsernameSessionStore = (false, some "bob") ∧
    (isAuthenticated savedUsernameSessionStore 1000).2 = true ∧
    (refreshTokenIfNeeded savedUsernameSessionStore 1000 1100 tokenDataGateway).gatewayCalls =
      ["ref"] ∧
    (refreshTokenIfNeeded savedUsernameSessionStore 1000 1100 tokenDataGateway).result =
      false ∧
    getRememberMeData
      (refreshTokenIfNeeded savedUsernameSessionStore 1000 1100 tokenDataGateway).store =
      (false, none) := by
  decide

/-! ## C24: the well-formedness of the lockout record -/

/-- The well-formedness of the lockout record depends on the two lockout keys only. -/
theorem lockoutRecordWellFormed_congr (s1 s2 : Store)
    (h1 : getItem s1 Key.LOGIN_ATTEMPTS_KEY = getItem s2 Key.LOGIN_ATTEMPTS_KEY)
    (h2 : getItem s1 Key.LAST_ATTEMPT_KEY = getItem s2 Key.LAST_ATTEMPT_KEY) :
    lockoutRecordWellFormed s1 = lockoutRecordWellFormed s2 := by
  rw [lockoutRecordWellFormed, lockoutRecordWellFormed, getLoginAttempts_congr s1 s2 h1, h2]

/-- A store without the two lockout keys holds a well-formed lockout record. -/
theorem lockoutRecordWellFormed_of_removed (s : Store)
    (h1 : getItem s Key.LOGIN_ATTEMPTS_KEY = none) (h2 : getItem s Key.LAST_ATTEMPT_KEY = none) :
    lockoutRecordWellFormed s = true := by
  rw [lockoutRecordWellFormed, getLoginAttempts_of_none s h1, h2]
  rfl

/-- An operation that removes both lockout keys or leaves both as they were
keeps the lockout record well-formed. -/
theorem lockoutRecordWellFormed_of_cases (s s1 : Store) (h : lockoutRecordWellFormed s = true)
    (hc : (getItem s1 Key.LOGIN_ATTEMPTS_KEY = none ∧ getItem s1 Key.LAST_ATTEMPT_KEY = none) ∨
      (getItem s1 Key.LOGIN_ATTEMPTS_KEY = getItem s Key.LOGIN_ATTEMPTS_KEY ∧
        getItem s1 Key.LAST_ATTEMPT_KEY = getItem s Key.LAST_ATTEMPT_KEY)) :
    lockoutRecordWellFormed s1 = true := by
  rcases hc with ⟨h1, h2⟩ | ⟨h1, h2⟩
  · exact lockoutRecordWellFormed_of_removed s1 h1 h2
  · rw [lockoutRecordWellFormed_congr s1 s h1 h2]
    exact h

/-- C24: the lockout record of the empty store is well-formed (the count reads
0 and no last-attempt time is stored), and from every store with a well-formed
lockout record each operation of the session manager leaves a store with a
well-formed lockout record: `incrementLoginAttempts`, `resetLoginAttempts`,
`checkLockoutStatus`, `saveSession` (whether it returns or throws),
`clearSession`, `logout`, `getSession` and `refreshTokenIfNeeded`, for every
time, auth response, remember-me choice and behaviour of the gateway. -/
theorem lockout_record_invariant (s : Store) (now later : Nat) (authData : AuthData)
    (rememberMe : Bool) (reply : Awaited) (gateway : String → Awaited)
    (h : lockoutRecordWellFormed s = true) :
    lockoutRecordWellFormed emptyStore = true ∧
    lockoutRecordWellFormed (incrementLoginAttempts s now).1 = true ∧
    lockoutRecordWellFormed (resetLoginAttempts s) = true ∧
    lockoutRecordWellFormed (checkLockoutStatus s now).1 = true ∧
    lockoutRecordWellFormed (saveSession s now authData rememberMe).1 = true ∧
    lockoutRecordWellFormed (clearSession s) = true ∧
    lockoutRecordWellFormed (logout s reply) = true ∧
    lockoutRecordWellFormed (getSession s now).1 = true ∧
    lockoutRecordWellFormed (refreshTokenIfNeeded s now later gateway).store = true := by
  have hreset : lockoutRecordWellFormed (resetLoginAttempts s) = true :=
    lockoutRecordWellFormed_of_removed _ (by simp [getItem_resetLoginAttempts])
      (by simp [getItem_resetLoginAttempts])
  have hclear : ∀ x : Store, lockoutRecordWellFormed (clearSession x) =
      lockoutRecordWellFormed x := by
    intro x
    apply lockoutRecordWellFormed_congr <;> simp [getItem_clearSession]
  have hsave : ∀ t data r, lockoutRecordWellFormed (saveSession s t data r).1 = true := by
    intro t data r
    exact lockoutRecordWellFormed_of_cases s _ h (getItem_saveSession_lockout s t data r)
  refine ⟨by decide, ?_, hreset, ?_, hsave now authData rememberMe, ?_, ?_, ?_, ?_⟩
  · cases hn : getLoginAttempts s with
    | none => simp [lockoutRecordWellFormed, hn] at h
    | some n =>
      have h0 : 0 ≤ n := by
        simp only [lockoutRecordWellFormed, hn, Bool.and_eq_true, decide_eq_true_eq] at h
        exact h.1
      have hcount := getLoginAttempts_increment s now n hn h0
      have hlast := incrementLoginAttempts_store s now Key.LAST_ATTEMPT_KEY
      rw [if_pos rfl] at hlast
      have hne : n + 1 ≠ 0 := by omega
      simp only [lockoutRecordWellFormed, hcount, hlast, Bool.and_eq_true, decide_eq_true_eq]
      refine ⟨by omega, ?_⟩
      simp [hne]
  · rcases checkLockoutStatus_store s now with hs | hs <;> rw [hs]
    · exact h
    · exact hreset
  · rw [hclear]
    exact h
  · exact lockoutRecordWellFormed_of_removed _ (by simp [getItem_logout])
      (by simp [getItem_logout])
  · rcases getSession_store s now with hs | hs <;> rw [hs]
    · exact h
    · rw [hclear]
      exact h
  · rcases refreshTokenIfNeeded_store s now later gateway with hs | hs | ⟨status, hs⟩ |
      ⟨t, data, -, hs | hs⟩ <;> rw [hs]
    · exact h
    · rw [hclear]
      exact h
    · rw [hclear, lockoutRecordWellFormed_congr _ s
        (getItem_responseError_of_ne s status _ (by decide) (by decide) (by decide))
        (getItem_responseError_of_ne s status _ (by decide) (by decide) (by decide))]
      exact h
    · exact hsave _ _ _
    · rw [hclear]
      exact hsave _ _ _

/-- Witness of C24: the three failed attempts of `lockedStore` are a well-formed
lockout record, and so is the record after one more failed attempt. -/
theorem lockout_record_invariant_witness :
    lockoutRecordWellFormed lockedStore = true ∧
    lockoutRecordWellFormed (incrementLoginAttempts lockedStore 2000).1 = true :=
  ⟨by decide,
   (lockout_record_invariant lockedStore 2000 3000 adminResponse false Awaited.rejected
      refusingGateway (by decide)).2.1⟩

/-! ## C25: what `saveSession` replaces -/

/-- C25 (counterexample): over a store that holds the refresh token "ref" of an
earlier session, `saveSession` with a response that carries no refresh token
leaves "ref" stored next to the new access token. -/
theorem saveSession_keeps_old_refresh_token :
    adminResponse.refresh_token = none ∧
    getItem sessionStore Key.REFRESH_TOKEN_KEY = some "ref" ∧
    getItem (saveSession sessionStore 1000 adminResponse false).1 Key.REFRESH_TOKEN_KEY =
      some "ref" ∧
    getItem (saveSession sessionStore 1000 adminResponse false).1 Key.TOKEN_KEY = some "new" ∧
    (saveSession sessionStore 1000 adminResponse false).2 = Completion.returned := by
  decide

/-- C25 (amended): for every store state and every auth response, after
`saveSession(authData, rememberMe)` the stored access token is
`authData.access_token || authData.token` and the stored user data is
`JSON.stringify(authData.user)`; the stored refresh token is that of `authData`
when it carries one, and the one stored before (absent only if none was
stored) when it carries none. -/
theorem saveSession_replaces_record (s : Store) (now : Nat) (authData : AuthData)
    (rememberMe : Bool) :
    getItem (saveSession s now authData rememberMe).1 Key.TOKEN_KEY =
      some (storedText (jsOr authData.access_token authData.token)) ∧
    getItem (saveSession s now authData rememberMe).1 Key.USER_DATA_KEY =
      some (storedText (jsonStringifyUser authData.user)) ∧
    (∀ r, authData.refresh_token = some r → r ≠ "" →
      getItem (saveSession s now authData rememberMe).1 Key.REFRESH_TOKEN_KEY = some r) ∧
    (truthy authData.refresh_token = false →
      getItem (saveSession s now authData rememberMe).1 Key.REFRESH_TOKEN_KEY =
        getItem s Key.REFRESH_TOKEN_KEY) := by
  obtain ⟨h1, h2, h3⟩ := getItem_saveSession_record s now authData rememberMe
  refine ⟨h1, h2, ?_, ?_⟩
  · intro r hr hr0
    have htr : truthy authData.refresh_token = true :=
      (truthy_eq_true_iff _).mpr ⟨r, hr, hr0⟩
    rw [h3, if_pos htr, hr]
    rfl
  · intro hf
    rw [h3, hf]
    rfl

/-! ## C30: the two lockout checks -/

/-- C30 (amended): for every stored lockout record (a failed-attempt count that
is a number, and a last-attempt time that is a number once the count has
reached the limit) and every time `now`, `checkLockoutStatus()` of the page with its
own counters, loaded from the store, returns true exactly when
`authUtils.checkLockoutStatus().isLocked` is true, and both leave the same
store. -/
theorem lockout_implementations_agree (s : Store) (now : Nat) (n : Int)
    (hn : getLoginAttempts s = some n)
    (hl : (MAX_LOGIN_ATTEMPTS : Int) ≤ n → ∃ t, storedLastAttempt s = some t) :
    (LoginPage.checkLockoutStatus (LoginPage.loadCounters s) s now).locked =
      (checkLockoutStatus s now).2.isLocked ∧
    (LoginPage.checkLockoutStatus (LoginPage.loadCounters s) s now).store =
      (checkLockoutStatus s now).1 := by
  have hcount : (LoginPage.loadCounters s).loginAttempts = some n := hn
  by_cases hge : (MAX_LOGIN_ATTEMPTS : Int) ≤ n
  · obtain ⟨t, ht⟩ := hl hge
    obtain ⟨l, hitem, hp, htr⟩ := storedLastAttempt_some s t ht
    have hlast : (LoginPage.loadCounters s).lastAttempt = some t := by
      simp only [LoginPage.loadCounters, hitem, jsOr, htr, if_true, storedText, hp]
    have hge3 : (3 : Int) ≤ n := hge
    rw [checkLockoutStatus_reached s now n t hn hge ht]
    by_cases hel : (LOCKOUT_TIME : Int) ≤ (now : Int) - t
    · have hrem : ¬ (0 : Int) < t + 300000 - (now : Int) := by
        have : (LOCKOUT_TIME : Int) = 300000 := by decide
        omega
      have hrun : LoginPage.checkLockoutStatus (LoginPage.loadCounters s) s now =
          { counters := { LoginPage.loadCounters s with loginAttempts := some 0 },
            store := removeItem (removeItem s Key.LOGIN_ATTEMPTS_KEY) Key.LAST_ATTEMPT_KEY,
            locked := false, timeRemaining := none } := by
        simp [LoginPage.checkLockoutStatus, hcount, hlast, jsGe, jsLe, jsGt, jsLt, jsAdd, jsSub,
          LoginPage.config, hge3, hrem]
      rw [hrun, if_pos hel]
      exact ⟨rfl, rfl⟩
    · have hrem : (0 : Int) < t + 300000 - (now : Int) := by
        have : (LOCKOUT_TIME : Int) = 300000 := by decide
        omega
      have hrun : LoginPage.checkLockoutStatus (LoginPage.loadCounters s) s now =
          { counters := LoginPage.loadCounters s, store := s, locked := true,
            timeRemaining := some (t + 300000 - (now : Int)) } := by
        simp [LoginPage.checkLockoutStatus, hcount, hlast, jsGe, jsLe, jsGt, jsLt, jsAdd, jsSub,
          LoginPage.config, hge3, hrem]
      rw [hrun, if_neg hel]
      exact ⟨rfl, rfl⟩
  · have hlt : n < (MAX_LOGIN_ATTEMPTS : Int) := by omega
    have hlt3 : ¬ (3 : Int) ≤ n := hge
    rw [checkLockoutStatus_below s now n hn hlt]
    have hrun : LoginPage.checkLockoutStatus (LoginPage.loadCounters s) s now =
        { counters := LoginPage.loadCounters s, store := s, locked := false,
          timeRemaining := none } := by
      simp [LoginPage.checkLockoutStatus, hcount, jsGe, jsLe, LoginPage.config, hlt3]
    rw [hrun]
    exact ⟨rfl, rfl⟩

/-- Witness of C30 (amended): over the three failed attempts of `lockedStore`, the last
at time 1000, both checks report the lock at time 2000 and leave the store as
it was. -/
theorem lockout_implementations_agree_witness :
    getLoginAttempts lockedStore = some 3 ∧
    (LoginPage.checkLockoutStatus (LoginPage.loadCounters lockedStore) lockedStore 2000).locked =
      (checkLockoutStatus lockedStore 2000).2.isLocked ∧
    (LoginPage.checkLockoutStatus (LoginPage.loadCounters lockedStore) lockedStore 2000).store =
      (checkLockoutStatus lockedStore 2000).1 :=
  ⟨by decide,
   lockout_implementations_agree lockedStore 2000 3 (by decide) (fun _ => ⟨1000, by decide⟩)⟩

/-- C30 (counterexample): with the count 3 stored and no last-attempt time,
at time 1000000 both checks answer "not locked", but `authUtils` leaves the
count 3 in the store and the page with its own counters removes it. With the
count 3 and the last-attempt text "abc", at time 1000 `authUtils` reports the
lock and the page does not. -/
theorem lockout_implementations_disagree :
    (checkLockoutStatus countOnlyStore 1000000).2.isLocked = false ∧
    getItem (checkLockoutStatus countOnlyStore 1000000).1 Key.LOGIN_ATTEMPTS_KEY =
      some "3" ∧
    (LoginPage.checkLockoutStatus (LoginPage.loadCounters countOnlyStore) countOnlyStore
      1000000).locked = false ∧
    getItem (LoginPage.checkLockoutStatus (LoginPage.loadCounters countOnlyStore)
      countOnlyStore 1000000).store Key.LOGIN_ATTEMPTS_KEY = none ∧
    (checkLockoutStatus badLastAttemptStore 1000).2.isLocked = true ∧
    (LoginPage.checkLockoutStatus (LoginPage.loadCounters badLastAttemptStore)
      badLastAttemptStore 1000).locked = false := by
  decide

/-! ## C27: a logout while the refresh call is outstanding -/

/-- With nothing running during the gateway call, the run is `refreshTokenIfNeeded()`. -/
theorem refreshTokenIfNeededWhile_id (s : Store) (now later : Nat) (gateway : String → Awaited) :
    refreshTokenIfNeededWhile (fun st => st) s now later gateway =
      refreshTokenIfNeeded s now later gateway := rfl

/-- When `refreshTokenIfNeeded()` makes its call, with the token `t`, the run
with other code during the call ends as the answer of the gateway decides, on
the store that code left. -/
theorem refreshTokenIfNeededWhile_of_call (meanwhile : Store → Store) (s : Store)
    (now later : Nat) (gateway : String → Awaited) (t : String)
    (hcall : (refreshTokenIfNeeded s now later gateway).gatewayCalls = [t]) :
    refreshTokenIfNeededWhile meanwhile s now later gateway =
      match gateway t with
      | Awaited.rejected =>
        { store := clearSession (meanwhile s), gatewayCalls := [t], result := false }
      | Awaited.answered reply =>
        refreshCompletion (apiService.auth.refreshToken (meanwhile s) reply).1 later [t]
          (apiService.auth.refreshToken (meanwhile s) reply).2 := by
  cases hg : (getSession s now).2 with
  | none =>
    have hrun : refreshTokenIfNeeded s now later gateway =
        { store := (getSession s now).1, gatewayCalls := [], result := false } := by
      simp only [refreshTokenIfNeeded, hg]
    rw [hrun] at hcall
    exact absurd hcall (by simp)
  | some session =>
    obtain ⟨hgs, -, -⟩ := getSession_some s now session hg
    by_cases hfar : jsGt (jsSub session.expiry (some (now : Int)))
        (some (REFRESH_THRESHOLD : Int)) = true
    · have hrun : refreshTokenIfNeeded s now later gateway =
          { store := s, gatewayCalls := [], result := true } := by
        simp only [refreshTokenIfNeeded, hgs, hfar, if_true]
      rw [hrun] at hcall
      exact absurd hcall (by simp)
    · by_cases htok : truthy (getItem s Key.REFRESH_TOKEN_KEY) = true
      · obtain ⟨t1, ht, ht0⟩ := (truthy_eq_true_iff _).mp htok
        have htr : truthy (some t1) = true := by rw [← ht]; exact htok
        have hcalls : (refreshTokenIfNeeded s now later gateway).gatewayCalls = [t1] := by
          cases hgw : gateway t1 with
          | rejected =>
            simp only [refreshTokenIfNeeded, hgs, hfar, ht, htr, storedText, hgw, Bool.not_true,
              Bool.false_eq_true, if_false]
          | answered reply =>
            simp only [refreshTokenIfNeeded, hgs, hfar, ht, htr, storedText, hgw, Bool.not_true,
              Bool.false_eq_true, if_false]
            exact refreshCompletion_calls _ _ _ _
        rw [hcalls] at hcall
        have hteq : t1 = t := by simpa using hcall
        subst hteq
        cases hgw : gateway t1 with
        | rejected =>
          simp only [refreshTokenIfNeededWhile, hgs, hfar, ht, htr, storedText, hgw,
            Bool.not_true, Bool.false_eq_true, if_false]
        | answered reply =>
          simp only [refreshTokenIfNeededWhile, hgs, hfar, ht, htr, storedText, hgw,
            Bool.not_true, Bool.false_eq_true, if_false]
      · have htok0 : truthy (getItem s Key.REFRESH_TOKEN_KEY) = false := by simpa using htok
        have hrun : refreshTokenIfNeeded s now later gateway =
            { store := s, gatewayCalls := [], result := false } := by
          simp only [refreshTokenIfNeeded, hgs, hfar, htok0, Bool.not_false, if_true,
            Bool.false_eq_true, if_false]
        rw [hrun] at hcall
        exact absurd hcall (by simp)

/-- The expiry `saveSession` leaves for a response with a user object. -/
theorem getItem_saveSession_expiry (s : Store) (now : Nat) (authData : AuthData)
    (rememberMe : Bool) (hu : authData.user ≠ none) :
    getItem (saveSession s now authData rememberMe).1 Key.EXPIRY_KEY =
      some (numberToString (some ((now : Int) +
        (if rememberMe then (REMEMBER_ME_TIME : Int) else (SESSION_TIMEOUT : Int))))) := by
  cases hu1 : authData.user with
  | none => exact absurd hu1 hu
  | some u =>
    cases rememberMe <;>
      by_cases hr : truthy authData.refresh_token = true <;>
      simp [saveSession, hu1, hr, getItem_resetLoginAttempts]

/-- C27 (counterexample): `sessionStore` holds a session that expires at time
2000; `refreshTokenIfNeeded()` at time 1000 makes its gateway call, `logout()`
runs while the call is outstanding, and the gateway then answers with a token
and a user object. Once both have settled a session record is stored and
`isAuthenticated()` is true: the statements after the `await` call
`saveSession` without looking at the store. -/
theorem refresh_completion_restores_session_after_logout :
    (refreshTokenIfNeeded sessionStore 1000 1100 userDataGateway).gatewayCalls = ["ref"] ∧
    sessionRecordStored (logout sessionStore Awaited.rejected) = false ∧
    sessionRecordStored (refreshTokenIfNeededWhile (fun st => logout st Awaited.rejected)
      sessionStore 1000 1100 userDataGateway).store = true ∧
    getItem (refreshTokenIfNeededWhile (fun st => logout st Awaited.rejected)
      sessionStore 1000 1100 userDataGateway).store Key.TOKEN_KEY = some "new" ∧
    (isAuthenticated (refreshTokenIfNeededWhile (fun st => logout st Awaited.rejected)
      sessionStore 1000 1100 userDataGateway).store 1200).2 = true := by
  decide

/-- C27 (amended): when `logout()` runs between the start of the gateway call
of `refreshTokenIfNeeded()` (made with the token `t`) and its completion, then
once both have settled: if the refresh fails (the gateway answers with a
failure or the call rejects), false is returned and no session record is
stored; if the gateway answers with success and a response that has a user
object, `saveSession` stores the session of that response (token, user data
and a new expiry) and true is returned. The statements after the `await` do not
look for a stored session. -/
theorem logout_during_refresh (s : Store) (now later : Nat) (gateway : String → Awaited)
    (t : String) (logoutReply : Awaited)
    (hcall : (refreshTokenIfNeeded s now later gateway).gatewayCalls = [t]) :
    ((gateway t = Awaited.rejected ∨
        ∃ status message, gateway t = Awaited.answered (HttpReply.failed status message)) →
      (refreshTokenIfNeededWhile (fun st => logout st logoutReply) s now later
        gateway).result = false ∧
      sessionRecordStored (refreshTokenIfNeededWhile (fun st => logout st logoutReply) s now
        later gateway).store = false) ∧
    (∀ data, gateway t = Awaited.answered (HttpReply.ok data) → data.user ≠ none →
      (refreshTokenIfNeededWhile (fun st => logout st logoutReply) s now later
        gateway).result = true ∧
      getItem (refreshTokenIfNeededWhile (fun st => logout st logoutReply) s now later
        gateway).store Key.TOKEN_KEY = some (storedText (jsOr data.access_token data.token)) ∧
      getItem (refreshTokenIfNeededWhile (fun st => logout st logoutReply) s now later
        gateway).store Key.USER_DATA_KEY = some (storedText (jsonStringifyUser data.user)) ∧
      getItem (refreshTokenIfNeededWhile (fun st => logout st logoutReply) s now later
        gateway).store Key.EXPIRY_KEY =
        some (numberToString (some ((later : Int) +
          (if decide (getItem s Key.REMEMBER_ME_KEY = some "true") then (REMEMBER_ME_TIME : Int)
           else (SESSION_TIMEOUT : Int)))))) := by
  have hrun := refreshTokenIfNeededWhile_of_call (fun st => logout st logoutReply) s now later
    gateway t hcall
  have hcleared : ∀ x : Store, sessionRecordStored (clearSession x) = false := by
    intro x
    simp [sessionRecordStored, getItem_clearSession, truthy]
  refine ⟨?_, ?_⟩
  · rintro (hgw | ⟨status, message, hgw⟩)
    · rw [hrun, hgw]
      exact ⟨rfl, hcleared _⟩
    · rw [hrun, hgw]
      simp only []
      rw [refreshCompletion_of_failure _ _ _ _ (by rfl)]
      exact ⟨rfl, hcleared _⟩
  · intro data hgw hu
    have hflag : getItem (logout s logoutReply) Key.REMEMBER_ME_KEY =
        getItem s Key.REMEMBER_ME_KEY := by simp [getItem_logout]
    have hret := (saveSession_returned_iff (logout s logoutReply) later data
      (decide (getItem s Key.REMEMBER_ME_KEY = some "true"))).mpr hu
    have hcomp : refreshCompletion
        (apiService.auth.refreshToken (logout s logoutReply) (HttpReply.ok data)).1 later [t]
        (apiService.auth.refreshToken (logout s logoutReply) (HttpReply.ok data)).2 =
        { store := (saveSession (logout s logoutReply) later data
            (decide (getItem s Key.REMEMBER_ME_KEY = some "true"))).1,
          gatewayCalls := [t], result := true } := by
      simp only [refreshCompletion, apiService.auth.refreshToken, if_true, hflag, hret]
    rw [hrun, hgw]
    simp only []
    rw [hcomp]
    obtain ⟨h1, h2, -⟩ := getItem_saveSession_record (logout s logoutReply) later data
      (decide (getItem s Key.REMEMBER_ME_KEY = some "true"))
    exact ⟨rfl, h1, h2, getItem_saveSession_expiry _ _ _ _ hu⟩

/-- Witness of C27 (amended): the refresh of `sessionStore` at time 1000 with a
logout during the call, refused by the gateway: no session record is stored. -/
theorem logout_during_refresh_witness :
    (refreshTokenIfNeeded sessionStore 1000 1100 refusingGateway).gatewayCalls = ["ref"] ∧
    sessionRecordStored (refreshTokenIfNeededWhile (fun st => logout st Awaited.rejected)
      sessionStore 1000 1100 refusingGateway).store = false :=
  ⟨by decide,
   ((logout_during_refresh sessionStore 1000 1100 refusingGateway "ref" Awaited.rejected
      (by decide)).1 (Or.inr ⟨some 401, none, rfl⟩)).2⟩

/-! ## C28: the stop command of `endDrag()` -/

/-- C28 (the code at the failing input): the joystick is dragged to x = 0.1
(speed 0.1), the command is delivered; it is dragged back to x = 0.04 (speed
0.04), which differs from the last command by 0.06 and is delivered; it is
released. `endDrag()` schedules the stop command, and when the throttle timer
fires the stop command differs from the last command by 0.04 in `x` and in
`speed`, which is not more than the threshold 0.05, so it is not posted: the
last command the backend received is (0.04, 0, 0.04), not the stop command. In
general the stop command of a release is posted exactly when the last command
is more than 0.05 away from it in some value. -/
theorem release_near_centre_sends_no_stop :
    (JoystickController.run JoystickController.initial
      [JoystickController.Event.startDrag,
       JoystickController.Event.drag (1 / 10) 0 (1 / 10),
       JoystickController.Event.throttle true,
       JoystickController.Event.drag (1 / 25) 0 (1 / 25),
       JoystickController.Event.throttle true,
       JoystickController.Event.endDrag,
       JoystickController.Event.throttle true]) =
      { active := false, lastCommand := { x := 1 / 25, y := 0, speed := 1 / 25 },
        commandThrottle := none,
        delivered := [{ x := 1 / 10, y := 0, speed := 1 / 10 },
                      { x := 1 / 25, y := 0, speed := 1 / 25 }] } ∧
    (∀ (j : JoystickController.State) (reached : Bool), j.active = true →
      (JoystickController.throttleFires (JoystickController.endDrag j) reached).delivered =
        if (abs j.lastCommand.x > 5 / 100 ∨ abs j.lastCommand.y > 5 / 100 ∨
            abs j.lastCommand.speed > 5 / 100) ∧ reached = true
        then j.delivered ++ [JoystickController.stop] else j.delivered) := by
  refine ⟨by decide!, ?_⟩
  intro j reached hactive
  simp only [JoystickController.endDrag, hactive, Bool.not_true, Bool.false_eq_true, if_false,
    JoystickController.sendCommand, JoystickController.throttleFires, zero_sub, abs_neg,
    JoystickController.stop]
  by_cases hfar : abs j.lastCommand.x > 5 / 100 ∨ abs j.lastCommand.y > 5 / 100 ∨
      abs j.lastCommand.speed > 5 / 100
  · cases reached <;> simp [hfar]
  · simp [hfar]

/-! ## C26: the session warning -/

/-- A valid session with a numeric expiry expires after `now`. -/
theorem expiry_after_now_of_valid (s : Store) (now : Nat) (e : Int)
    (hvalid : (isAuthenticated s now).2 = true) (hexp : storedExpiry s = some e) :
    (now : Int) < e := by
  obtain ⟨session, hgs, -⟩ := getSession_of_valid s now hvalid
  have hsome : (getSession s now).2 = some session := by rw [hgs]
  obtain ⟨-, -, hrec⟩ := getSession_some s now session hsome
  obtain ⟨t, e0, u, ht, he, hu, ht0, he0, hu0⟩ := (sessionRecordStored_iff s).mp hrec
  have hp : parseInt e0 = some e := by
    simpa [storedExpiry, he] using hexp
  rw [getSession_of_record s now t e0 u ht he hu ht0 he0 hu0, hp] at hsome
  by_contra hle
  have hle1 : e ≤ (now : Int) := by omega
  simp [jsLe, hle1] at hsome

/-- The warning tick on a valid session with the numeric expiry `e`: the
dialog is asked for exactly when the remaining time is at most five minutes. -/
theorem sessionWarningTick_of_session (m : Monitor) (now : Nat) (answer : WarningAnswer)
    (e : Int) (hvalid : (isAuthenticated m.store now).2 = true)
    (hexp : storedExpiry m.store = some e) :
    sessionWarningTick m now answer =
      if e - (now : Int) ≤ 300000 then
        showSessionWarning m (ceilMinutes (some (e - (now : Int)))) answer
      else { monitor := m, raised := none, redirected := false } := by
  obtain ⟨session, hgs, hse⟩ := getSession_of_valid m.store now hvalid
  rw [hexp] at hse
  have hpos : (0 : Int) < e - (now : Int) := by
    have := expiry_after_now_of_valid m.store now e hvalid hexp
    omega
  by_cases hin : e - (now : Int) ≤ 300000
  · simp [sessionWarningTick, hgs, hse, jsSub, jsLe, jsGt, jsLt, hin, hpos]
  · simp [sessionWarningTick, hgs, hse, jsSub, jsLe, jsGt, jsLt, hin, hpos]

/-- While `_warningShown` is set a tick raises no dialog and leaves the flag set. -/
theorem sessionWarningTick_of_flag (m : Monitor) (now : Nat) (answer : WarningAnswer)
    (hflag : m.warningShown = true) :
    (sessionWarningTick m now answer).raised = none ∧
    (sessionWarningTick m now answer).monitor.warningShown = true ∧
    (sessionWarningTick m now answer).redirected = false := by
  cases hg : (getSession m.store now).2 with
  | none =>
    have hrun : sessionWarningTick m now answer =
        { monitor := { m with store := (getSession m.store now).1 }, raised := none,
          redirected := false } := by
      simp only [sessionWarningTick, hg]
    rw [hrun]
    exact ⟨rfl, hflag, rfl⟩
  | some session =>
    by_cases hin : (jsLe (jsSub session.expiry (some (now : Int))) (some (5 * 60 * 1000)) &&
        jsGt (jsSub session.expiry (some (now : Int))) (some 0)) = true
    · have hrun : sessionWarningTick m now answer =
          { monitor := { m with store := (getSession m.store now).1 }, raised := none,
            redirected := false } := by
        simp only [sessionWarningTick, hg, hin, if_true, showSessionWarning, hflag]
      rw [hrun]
      exact ⟨rfl, hflag, rfl⟩
    · have hrun : sessionWarningTick m now answer =
          { monitor := { m with store := (getSession m.store now).1 }, raised := none,
            redirected := false } := by
        simp only [sessionWarningTick, hg, hin, if_false, Bool.false_eq_true]
      rw [hrun]
      exact ⟨rfl, hflag, rfl⟩

/-- Ticks before the warning window of a valid session raise nothing and leave
the page as it is. -/
theorem runWarningTicks_early (m : Monitor) (e : Int) (hexp : storedExpiry m.store = some e)
    (rest : List (Nat × WarningAnswer)) :
    ∀ early : List (Nat × WarningAnswer),
      (∀ tick ∈ early, (isAuthenticated m.store tick.1).2 = true ∧
        300000 < e - (tick.1 : Int)) →
      runWarningTicks m (early ++ rest) = runWarningTicks m rest := by
  intro early
  induction early with
  | nil => intro _; rfl
  | cons tick more ih =>
    intro h
    obtain ⟨hv, hfar⟩ := h tick (List.mem_cons_self _ _)
    have hnot : ¬ e - (tick.1 : Int) ≤ 300000 := by omega
    have htick := sessionWarningTick_of_session m tick.1 tick.2 e hv hexp
    rw [if_neg hnot] at htick
    have hrest := ih (fun t ht => h t (List.mem_cons_of_mem _ ht))
    simp only [List.cons_append, runWarningTicks, htick, Bool.false_eq_true, if_false,
      List.nil_append]
    exact hrest

/-- The warning ticker on one page: when the one-shot flag is clear and the
store holds a valid session with expiry `e`, over every sequence of warning
ticks that come before the warning window (more than five minutes left)
followed by a tick at a time `now` with at most five minutes left, the warning
is raised exactly once, at that tick, with the value `ceil((e - now) / 60000)`
minutes; the ticker goes on after it only when the page was not sent to the
login page, which takes an accepted extension whose refresh made its gateway
call and returned true. While the flag is set no tick raises a warning. The
flag is clear again once an extension the user accepted has settled and stays
set after a refusal; `saveSession` does not touch it. -/
theorem warning_ticker (m : Monitor) (e : Int) (early rest : List (Nat × WarningAnswer))
    (now : Nat) (answer : WarningAnswer)
    (hflag : m.warningShown = false) (hexp : storedExpiry m.store = some e)
    (hearly : ∀ tick ∈ early, (isAuthenticated m.store tick.1).2 = true ∧
      300000 < e - (tick.1 : Int))
    (hvalid : (isAuthenticated m.store now).2 = true) (hin : e - (now : Int) ≤ 300000) :
    runWarningTicks m (early ++ [(now, answer)]) = [ceilMinutes (some (e - (now : Int)))] ∧
    runWarningTicks m (early ++ (now, answer) :: rest) =
      ceilMinutes (some (e - (now : Int))) ::
        (if (sessionWarningTick m now answer).redirected then []
         else runWarningTicks (sessionWarningTick m now answer).monitor rest) ∧
    (sessionWarningTick m now answer).monitor.warningShown =
      (match answer with
       | WarningAnswer.extend _ _ _ => false
       | WarningAnswer.decline _ => true) ∧
    (∀ (m1 : Monitor) (later : Nat) (answer1 : WarningAnswer), m1.warningShown = true →
      (sessionWarningTick m1 later answer1).raised = none ∧
      (sessionWarningTick m1 later answer1).monitor.warningShown = true) ∧
    (∀ (m1 : Monitor) (t : Nat) (data : AuthData) (rememberMe : Bool),
      (Monitor.saveSession m1 t data rememberMe).1.warningShown = m1.warningShown) ∧
    (∀ (answeredAt settledAt : Nat) (gateway : String → Awaited),
      answer = WarningAnswer.extend answeredAt settledAt gateway → now ≤ answeredAt →
      (sessionWarningTick m now answer).redirected = false →
      (refreshTokenIfNeeded m.store answeredAt settledAt gateway).result = true ∧
      (refreshTokenIfNeeded m.store answeredAt settledAt gateway).gatewayCalls ≠ []) := by
  have htick := sessionWarningTick_of_session m now answer e hvalid hexp
  rw [if_pos hin] at htick
  have hraised : (sessionWarningTick m now answer).raised =
      some (ceilMinutes (some (e - (now : Int)))) := by
    rw [htick]
    cases answer <;> simp [showSessionWarning, hflag]
  have hseq : ∀ rest1 : List (Nat × WarningAnswer),
      runWarningTicks m (early ++ (now, answer) :: rest1) =
        ceilMinutes (some (e - (now : Int))) ::
          (if (sessionWarningTick m now answer).redirected then []
           else runWarningTicks (sessionWarningTick m now answer).monitor rest1) := by
    intro rest1
    rw [runWarningTicks_early m e hexp _ early hearly]
    simp only [runWarningTicks, hraised]
    split_ifs <;> simp
  refine ⟨?_, hseq rest, ?_, ?_, ?_, ?_⟩
  · rw [hseq []]
    simp [runWarningTicks]
  · rw [htick]
    cases answer <;> simp [showSessionWarning, hflag]
  · intro m1 later answer1 h1
    exact ⟨(sessionWarningTick_of_flag m1 later answer1 h1).1,
      (sessionWarningTick_of_flag m1 later answer1 h1).2.1⟩
  · intro m1 t data rememberMe
    rfl
  · intro answeredAt settledAt gateway hanswer hlater hstay
    subst hanswer
    have hres : (refreshTokenIfNeeded m.store answeredAt settledAt gateway).result = true := by
      rw [htick] at hstay
      simpa [showSessionWarning, hflag] using hstay
    refine ⟨hres, ?_⟩
    by_cases hv : (isAuthenticated m.store answeredAt).2 = true
    · have hthr : (REFRESH_THRESHOLD : Int) = 300000 := by decide
      have hnear : e - (answeredAt : Int) ≤ (REFRESH_THRESHOLD : Int) := by omega
      have hpaths := refreshTokenIfNeeded_of_session m.store answeredAt settledAt gateway e hv hexp
      by_cases htok : truthy (getItem m.store Key.REFRESH_TOKEN_KEY) = true
      · obtain ⟨t, ht, ht0⟩ := (truthy_eq_true_iff _).mp htok
        rw [hpaths.2.2 hnear t ht ht0]
        simp
      · have htok0 : truthy (getItem m.store Key.REFRESH_TOKEN_KEY) = false := by
          simpa using htok
        rw [(hpaths.2.1 hnear htok0).1] at hres
        exact absurd hres (by simp)
    · have hv0 : (isAuthenticated m.store answeredAt).2 = false := by simpa using hv
      have hg := getSession_of_invalid m.store answeredAt hv0
      have hrun : refreshTokenIfNeeded m.store answeredAt settledAt gateway =
          { store := (getSession m.store answeredAt).1, gatewayCalls := [], result := false } := by
        simp only [refreshTokenIfNeeded, hg]
      rw [hrun] at hres
      exact absurd hres (by simp)

/-- The ticker on the session of `freshSessionStore`, which expires at time
2000000: the ticks at 1000000 and 1500000 come before the window, the tick at
1760000 (240000 ms left) raises the one warning, with 4 minutes. -/
theorem warning_ticker_witness :
    runWarningTicks { store := freshSessionStore, warningShown := false }
      ([(1000000, WarningAnswer.decline Awaited.rejected),
        (1500000, WarningAnswer.decline Awaited.rejected)] ++
       [(1760000, WarningAnswer.decline Awaited.rejected)]) = [some 4] :=
  (warning_ticker { store := freshSessionStore, warningShown := false } 2000000
    [(1000000, WarningAnswer.decline Awaited.rejected),
     (1500000, WarningAnswer.decline Awaited.rejected)] [] 1760000
    (WarningAnswer.decline Awaited.rejected) rfl (by decide)
    (by
      intro tick ht
      simp only [List.mem_cons, List.mem_singleton, List.not_mem_nil, or_false] at ht
      rcases ht with rfl | rfl <;> exact ⟨by decide, by decide⟩)
    (by decide) (by decide)).1.trans (by decide)

/-- C26 (the code at the failing input): `longSessionStore` holds a session
that expires at time 2000000 and no refresh token. The dashboard, loaded at
time 1700000, starts the monitor; the tick at 1760000 raises the warning with
4 minutes, the user accepts the extension, `refreshTokenIfNeeded()` returns
false without a call and without clearing the session, and the page is sent to
`login.html`. Both login pages find the session still valid and send the user
on to the dashboard; the dashboard, loaded at 1768000, starts the monitor of a
newly loaded `authUtils`, and its tick at 1828000 raises the warning a second
time in the same session, with 3 minutes. -/
theorem warning_is_raised_twice_in_one_session :
    (dashboard.checkAuthentication longSessionStore 1700000).2 = true ∧
    acceptedExtensionRun.raised = some (some 4) ∧
    (refreshTokenIfNeeded longSessionStore 1765000 1765100 refusingGateway).result = false ∧
    (refreshTokenIfNeeded longSessionStore 1765000 1765100 refusingGateway).gatewayCalls = [] ∧
    acceptedExtensionRun.redirected = true ∧
    getItem acceptedExtensionRun.monitor.store Key.TOKEN_KEY = some "tok" ∧
    storedExpiry acceptedExtensionRun.monitor.store = some 2000000 ∧
    (LegacyLogin.checkExistingSession acceptedExtensionRun.monitor.store 1766000).2 = true ∧
    LoginPage.checkExistingSession acceptedExtensionRun.monitor.store 1766000 = true ∧
    (dashboard.checkAuthentication acceptedExtensionRun.monitor.store 1768000).2 = true ∧
    (sessionWarningTick
      (Monitor.loaded (dashboard.checkAuthentication acceptedExtensionRun.monitor.store
        1768000).1)
      1828000 (WarningAnswer.decline Awaited.rejected)).raised = some (some 3) := by
  decide

/-! ## C29: the auth store written and loaded again -/

/-- C29 (the code at the failing input): for every token that `isTokenValid`
accepts at the time of loading and every user, after `setAuth(token, null,
user)` the store holds the refresh token `null`, and `loadTokenFromStorage()`
from the storage `setAuth` wrote yields the token passed and, as refresh token,
the text "null" that `localStorage.setItem` made of `null`. A refresh token
that is a string is restored as passed. -/
theorem null_refresh_token_is_loaded_as_text (payloadExp : String → Option Int) (now : Nat)
    (st : AuthStore.Storage) (cur : AuthStore.State) (token : String) (user : Option User)
    (hvalid : AuthStore.isTokenValid payloadExp now (some token) = true) :
    (AuthStore.setAuth st token none user).2.refreshToken = none ∧
    (AuthStore.loadTokenFromStorage payloadExp now (AuthStore.setAuth st token none user).1
      cur).2.1.token = some token ∧
    (AuthStore.loadTokenFromStorage payloadExp now (AuthStore.setAuth st token none user).1
      cur).2.1.refreshToken = some "null" ∧
    (∀ r : String,
      (AuthStore.loadTokenFromStorage payloadExp now
        (AuthStore.setAuth st token (some r) user).1 cur).2.1.refreshToken = some r) := by
  have htr : truthy (some token) = true := by
    by_contra h
    simp [AuthStore.isTokenValid, h] at hvalid
  have key : ∀ refreshToken : Option String,
      (AuthStore.loadTokenFromStorage payloadExp now
        (AuthStore.setAuth st token refreshToken user).1 cur).2.1.token = some token ∧
      (AuthStore.loadTokenFromStorage payloadExp now
        (AuthStore.setAuth st token refreshToken user).1 cur).2.1.refreshToken =
          some (AuthStore.nullText refreshToken) := by
    intro refreshToken
    have h1 : AuthStore.Storage.getItem (AuthStore.setAuth st token refreshToken user).1
        AuthStore.StorageKey.auth_token = some token := by
      simp [AuthStore.setAuth, AuthStore.Storage.setItem, AuthStore.Storage.getItem]
    have h2 : AuthStore.Storage.getItem (AuthStore.setAuth st token refreshToken user).1
        AuthStore.StorageKey.refresh_token = some (AuthStore.nullText refreshToken) := by
      simp [AuthStore.setAuth, AuthStore.Storage.setItem, AuthStore.Storage.getItem]
    simp only [AuthStore.loadTokenFromStorage, h1, h2, htr, hvalid, Bool.and_self, if_true]
    split_ifs <;> exact ⟨rfl, rfl⟩
  exact ⟨rfl, (key none).1, (key none).2, fun r => (key (some r)).2⟩

/-- Witness of C29: the token "a.b.c", valid at time 1000 under `farExp`, saved
with the user of `adminResponse` and the refresh token `null` that
`authService.login` returns, is loaded with the refresh token "null", and the
load returns with `isAuthenticated = true`. -/
theorem null_refresh_token_is_loaded_as_text_witness :
    AuthStore.isTokenValid farExp 1000 (some "a.b.c") = true ∧
    (AuthStore.loadTokenFromStorage farExp 1000
      (AuthStore.setAuth (fun _ => none) "a.b.c" none (some adminUser)).1
      AuthStore.initial).2.1.refreshToken = some "null" ∧
    (AuthStore.loadTokenFromStorage farExp 1000
      (AuthStore.setAuth (fun _ => none) "a.b.c" none (some adminUser)).1
      AuthStore.initial).2.1.isAuthenticated = true ∧
    (AuthStore.loadTokenFromStorage farExp 1000
      (AuthStore.setAuth (fun _ => none) "a.b.c" none (some adminUser)).1
      AuthStore.initial).2.2 = Completion.returned :=
  ⟨by decide,
   (null_refresh_token_is_loaded_as_text farExp 1000 (fun _ => none) AuthStore.initial "a.b.c"
      (some adminUser) (by decide)).2.2.1,
   by decide, by decide⟩

/-! ## C12: the failed-attempt count as a double -/

/-- An integer of magnitude 2^53 at most is a Number as it is. -/
theorem toNumber_of_safe (z : Int) (h : z.natAbs ≤ 2 ^ 53) :
    Double.toNumber z = JsNumber.finite z := by
  rcases Nat.lt_or_eq_of_le h with hlt | heq
  · simp only [Double.toNumber, hlt, if_true]
  · rcases Int.natAbs_eq z with hz | hz
    · rw [heq] at hz
      subst hz
      decide
    · rw [heq] at hz
      subst hz
      decide

/-- Up to the magnitude 2^53 `toString` prints the decimal digits of the integer. -/
theorem double_numberToString_of_safe (z : Int) (h : z.natAbs ≤ 2 ^ 53) :
    Double.numberToString (JsNumber.finite z) = numberToString (some z) := by
  rcases Nat.lt_or_eq_of_le h with hlt | heq
  · cases z with
    | ofNat n =>
      have hn : n < 2 ^ 53 := hlt
      have h0 : ¬ (Int.ofNat n) < 0 := by simp
      have hab : (Int.ofNat n).natAbs = n := rfl
      simp only [Double.numberToString, h0, if_false, Double.magnitudeToString, hab,
        hn, if_true, numberToString]
    | negSucc n =>
      have hn : n + 1 < 2 ^ 53 := hlt
      have h0 : (Int.negSucc n) < 0 := Int.negSucc_lt_zero n
      have hab : (Int.negSucc n).natAbs = n + 1 := rfl
      simp only [Double.numberToString, h0, if_true, Double.magnitudeToString, hab,
        hn, numberToString]
  · rcases Int.natAbs_eq z with hz | hz
    · rw [heq] at hz
      subst hz
      decide
    · rw [heq] at hz
      subst hz
      decide

/-- The count the doubles read when the stored text denotes the integer `n`. -/
theorem double_getLoginAttempts_of_count (s : Store) (n : Int)
    (hn : getLoginAttempts s = some n) :
    Double.getLoginAttempts s = Double.toNumber n := by
  have h : parseInt (storedText (jsOr (getItem s Key.LOGIN_ATTEMPTS_KEY) (some "0"))) =
      some n := hn
  simp only [Double.getLoginAttempts, Double.parseInt, h]

/-- C12 (counterexample): the stored failed-attempt count is 2^53 =
9007199254740992. `incrementLoginAttempts()` reads it, adds 1, which as a
double is 9007199254740992 again, returns that and stores the text of it: the
new count is the previous count, not the previous count plus one. The text
9007199254740993 is read as 9007199254740992 already. -/
theorem incrementLoginAttempts_stalls_at_two_pow_53 :
    Double.getLoginAttempts hugeCountStore = JsNumber.finite 9007199254740992 ∧
    (Double.incrementLoginAttempts hugeCountStore 2000).2 = JsNumber.finite 9007199254740992 ∧
    getItem (Double.incrementLoginAttempts hugeCountStore 2000).1 Key.LOGIN_ATTEMPTS_KEY =
      some "9007199254740992" ∧
    Double.getLoginAttempts (Double.incrementLoginAttempts hugeCountStore 2000).1 =
      JsNumber.finite 9007199254740992 ∧
    Double.parseInt "9007199254740993" = JsNumber.finite 9007199254740992 := by
  decide

/-- C12 (amended): for every store whose stored failed-attempt count is an
integer `n` from -2^53 to 2^53 - 1 (0 when none is stored) and every time
`now` up to 2^53, `incrementLoginAttempts()` returns `n + 1`, stores it as the
failed-attempt count, and stores `now` as the time of the last attempt; every
other key keeps its value. On these stores the doubles and the exact integers
of `authUtils.incrementLoginAttempts` give the same store. -/
theorem incrementLoginAttempts_on_safe_counts (s : Store) (now : Nat) (n : Int)
    (hn : getLoginAttempts s = some n)
    (hlow : -9007199254740992 ≤ n) (hhigh : n < 9007199254740992)
    (hnow : now ≤ 9007199254740992) :
    (Double.incrementLoginAttempts s now).2 = JsNumber.finite (n + 1) ∧
    Double.getLoginAttempts (Double.incrementLoginAttempts s now).1 = JsNumber.finite (n + 1) ∧
    getItem (Double.incrementLoginAttempts s now).1 Key.LOGIN_ATTEMPTS_KEY =
      some (numberToString (some (n + 1))) ∧
    getItem (Double.incrementLoginAttempts s now).1 Key.LAST_ATTEMPT_KEY =
      some (numberToString (some (now : Int))) ∧
    ((getItem (Double.incrementLoginAttempts s now).1 Key.LAST_ATTEMPT_KEY).map Double.parseInt =
      some (JsNumber.finite (now : Int))) ∧
    (getItem s Key.LOGIN_ATTEMPTS_KEY = none →
      (Double.incrementLoginAttempts s now).2 = JsNumber.finite 1) ∧
    (∀ k, k ≠ Key.LOGIN_ATTEMPTS_KEY → k ≠ Key.LAST_ATTEMPT_KEY →
      getItem (Double.incrementLoginAttempts s now).1 k = getItem s k) ∧
    (Double.incrementLoginAttempts s now).1 = (incrementLoginAttempts s now).1 := by
  have hsafe : n.natAbs ≤ 2 ^ 53 := by omega
  have hsafe1 : (n + 1).natAbs ≤ 2 ^ 53 := by omega
  have hsafenow : ((now : Int)).natAbs ≤ 2 ^ 53 := by omega
  have hread : Double.getLoginAttempts s = JsNumber.finite n := by
    rw [double_getLoginAttempts_of_count s n hn, toNumber_of_safe n hsafe]
  have hattempts : Double.jsAdd (Double.getLoginAttempts s) (JsNumber.finite 1) =
      JsNumber.finite (n + 1) := by
    rw [hread]
    exact toNumber_of_safe (n + 1) hsafe1
  have hstore : (Double.incrementLoginAttempts s now).1 =
      setItem (setItem s Key.LOGIN_ATTEMPTS_KEY (numberToString (some (n + 1))))
        Key.LAST_ATTEMPT_KEY (numberToString (some (now : Int))) := by
    simp only [Double.incrementLoginAttempts, hattempts, toNumber_of_safe _ hsafenow,
      double_numberToString_of_safe _ hsafe1, double_numberToString_of_safe _ hsafenow]
  have hret : (Double.incrementLoginAttempts s now).2 = JsNumber.finite (n + 1) := by
    simp only [Double.incrementLoginAttempts, hattempts]
  have hcount : getItem (Double.incrementLoginAttempts s now).1 Key.LOGIN_ATTEMPTS_KEY =
      some (numberToString (some (n + 1))) := by
    rw [hstore]; simp
  have hlast : getItem (Double.incrementLoginAttempts s now).1 Key.LAST_ATTEMPT_KEY =
      some (numberToString (some (now : Int))) := by
    rw [hstore]; simp
  refine ⟨hret, ?_, hcount, hlast, ?_, ?_, ?_, ?_⟩
  · have hexact : getLoginAttempts (Double.incrementLoginAttempts s now).1 = some (n + 1) :=
      getLoginAttempts_of_number _ _ hcount
    rw [double_getLoginAttempts_of_count _ _ hexact, toNumber_of_safe _ hsafe1]
  · rw [hlast, Option.map_some']
    simp only [Double.parseInt, parseInt_numberToString_any, toNumber_of_safe _ hsafenow]
  · intro h0
    have h1 := getLoginAttempts_of_none s h0
    rw [hn] at h1
    have h2 : n = 0 := Option.some.inj h1
    rw [hret, h2]
    rfl
  · intro k h1 h2
    rw [hstore]
    simp [h1, h2]
  · rw [hstore, incrementLoginAttempts_eq s now n hn]

/-- Witness of C12 (amended): over the two failed attempts of
`twoFailuresStore`, the increment at time 2000 returns 3. -/
theorem incrementLoginAttempts_on_safe_counts_witness :
    getLoginAttempts twoFailuresStore = some 2 ∧
    (Double.incrementLoginAttempts twoFailuresStore 2000).2 = JsNumber.finite (2 + 1) :=
  ⟨by decide,
   (incrementLoginAttempts_on_safe_counts twoFailuresStore 2000 2 (by decide) (by decide)
      (by decide) (by decide)).1⟩

end Navaro
